import Mathlib

/-!
Sidecar extension: storage layer and capture boundary.

A shallow embedding of `extension/src/shared/types.ts` and
`extension/src/shared/storage.ts`, together with the create handlers of
`popup/popup.js` and `sidepanel/sidepanel.js`, the capture functions of
`content/gmail.js` and `content/slack.js` and the capture button of the popup.

Conventions of the embedding.

* `chrome.storage.local` and `chrome.storage.sync` are a record `Store` with one
  optional slot per storage key that the code reads or writes.  A slot is `none`
  while the key has never been set.
* Every `async` function of `storage.ts` becomes a pure function that takes the
  store and returns its result together with the store it leaves behind.
  Values are copied on their way through `chrome.storage`, so no aliasing
  between the caller's objects and the stored ones has to be tracked.
* The readings of the outside world are explicit arguments: `now` is the text
  returned by `new Date().toISOString()`, `ms` is the number returned by
  `Date.now()` and `rnd` is the text returned by `Math.random().toString(36)`.
* An optional property `f?: T` is a field of type `Option T`.
* A JSON text is represented by the value it encodes: `exportData` returns the
  document it serialises and `importData` takes the object that `JSON.parse`
  returns.
* `importData` is embedded twice.  `importData` takes a document whose values
  have the types of `types.ts`, next to the typed `Store`; `Raw.importData`
  takes any parsed value `Json`, next to a store `RawStore` that holds any JSON
  value under a key.  The lemma `importData_toRaw` relates the two.
* The briefs object is the list of its own entries.  A property read also
  consults `Object.prototype`, and an assignment to `__proto__` sets the
  prototype of the object instead of an entry.
* A JavaScript `number` that the storage layer only carries around is a
  rational number.
-/

namespace Sidecar

/-! ## `types.ts` -/

/-- The type `number`, for payload fields on which the storage layer never computes. -/
abbrev JsNumber := Rat

/-- The union `'active' | 'monitoring' | 'resolved'`. -/
inductive SituationStatus where
  | active
  | monitoring
  | resolved
  deriving DecidableEq, Repr

/-- The interface `Participant`. -/
structure Participant where
  id : String
  name : String
  email : Option String
  slackId : Option String
  role : Option String
  statedPosition : Option String
  inferredIntent : Option String
  deriving DecidableEq, Repr

/-- The type `Omit<Participant, 'id'>`, the argument of `addParticipant`. -/
structure ParticipantInput where
  name : String
  email : Option String
  slackId : Option String
  role : Option String
  statedPosition : Option String
  inferredIntent : Option String
  deriving DecidableEq, Repr

/-- The union `'slack' | 'gmail' | 'zoom' | 'manual'`. -/
inductive CommunicationSource where
  | slack
  | gmail
  | zoom
  | manual
  deriving DecidableEq, Repr

/-- The interface `CommunicationMetadata`. -/
structure CommunicationMetadata where
  channel : Option String
  channelId : Option String
  subject : Option String
  threadId : Option String
  duration : Option JsNumber
  isThread : Option Bool
  deriving DecidableEq, Repr

/-- The interface `Communication`. -/
structure Communication where
  id : String
  situationId : String
  source : CommunicationSource
  sourceId : String
  sourceUrl : Option String
  timestamp : String
  participants : List String
  content : String
  metadata : CommunicationMetadata
  deriving DecidableEq, Repr

/-- The type `Omit<Communication, 'id' | 'situationId'>`, the argument of
`addCommunication`. -/
structure CommunicationInput where
  source : CommunicationSource
  sourceId : String
  sourceUrl : Option String
  timestamp : String
  participants : List String
  content : String
  metadata : CommunicationMetadata
  deriving DecidableEq, Repr

/-- The union `'high' | 'medium' | 'low'` of `StakeholderAnalysis.engagementLevel`. -/
inductive EngagementLevel where
  | high
  | medium
  | low
  deriving DecidableEq, Repr

/-- The interface `StakeholderAnalysis`. -/
structure StakeholderAnalysis where
  participantId : String
  statedPosition : String
  inferredIntent : String
  communicationStyle : String
  engagementLevel : EngagementLevel
  deriving DecidableEq, Repr

/-- The interface `ToneDataPoint`. -/
structure ToneDataPoint where
  timestamp : String
  participant : String
  sentiment : JsNumber
  markers : List String
  deriving DecidableEq, Repr

/-- The union `'question' | 'commitment' | 'decision' | 'action_item'`. -/
inductive UnresolvedThreadType where
  | question
  | commitment
  | decision
  | action_item
  deriving DecidableEq, Repr

/-- The interface `UnresolvedThread`. -/
structure UnresolvedThread where
  id : String
  description : String
  raisedBy : String
  raisedAt : String
  type : UnresolvedThreadType
  context : String
  deriving DecidableEq, Repr

/-- The union `'disengagement' | 'escalation' | 'misalignment' | 'blocker'`. -/
inductive RiskSignalType where
  | disengagement
  | escalation
  | misalignment
  | blocker
  deriving DecidableEq, Repr

/-- The union `'low' | 'medium' | 'high'`. -/
inductive RiskSeverity where
  | low
  | medium
  | high
  deriving DecidableEq, Repr

/-- The interface `RiskSignal`. -/
structure RiskSignal where
  type : RiskSignalType
  severity : RiskSeverity
  description : String
  evidence : List String
  deriving DecidableEq, Repr

/-- The interface `SuggestedAction`. -/
structure SuggestedAction where
  priority : JsNumber
  action : String
  rationale : String
  suggestedQuestions : Option (List String)
  deriving DecidableEq, Repr

/-- The interface `SituationAnalysis`. -/
structure SituationAnalysis where
  generatedAt : String
  summary : String
  stakeholderAnalysis : List StakeholderAnalysis
  toneTrajectory : List ToneDataPoint
  unresolvedThreads : List UnresolvedThread
  riskSignals : List RiskSignal
  suggestedActions : List SuggestedAction
  relatedSituations : List String
  deriving DecidableEq, Repr

/-- The interface `Situation`.  The two timestamps are ISO strings. -/
structure Situation where
  id : String
  title : String
  description : String
  status : SituationStatus
  createdAt : String
  updatedAt : String
  participants : List Participant
  communications : List Communication
  analysis : Option SituationAnalysis
  deriving DecidableEq, Repr

/-- The type `Partial<Omit<Situation, 'id' | 'createdAt'>>`, the second argument
of `updateSituation`.  A field is `none` when the property is not supplied.
The property `analysis` is optional in `Situation` itself, so a supplied value
may be `undefined`: that is `some none`. -/
structure SituationUpdates where
  title : Option String
  description : Option String
  status : Option SituationStatus
  updatedAt : Option String
  participants : Option (List Participant)
  communications : Option (List Communication)
  analysis : Option (Option SituationAnalysis)
  deriving DecidableEq, Repr

/-- The union `'positive' | 'neutral' | 'negative' | 'mixed'`. -/
inductive RecentTone where
  | positive
  | neutral
  | negative
  | mixed
  deriving DecidableEq, Repr

/-- The interface `BriefStakeholder`. -/
structure BriefStakeholder where
  participantId : String
  name : String
  role : String
  currentStance : String
  recentTone : RecentTone
  keyPoints : List String
  suggestedApproach : String
  deriving DecidableEq, Repr

/-- The interface `SituationBrief`. -/
structure SituationBrief where
  situationId : String
  generatedAt : String
  title : String
  summary : String
  stakeholders : List BriefStakeholder
  unresolvedItems : List UnresolvedThread
  suggestedNextSteps : List SuggestedAction
  riskLevel : RiskSeverity
  topRisks : List RiskSignal
  deriving DecidableEq, Repr

/-- The union `'light' | 'dark' | 'system'`. -/
inductive Theme where
  | light
  | dark
  | system
  deriving DecidableEq, Repr

/-- The interface `ExtensionSettings`. -/
structure ExtensionSettings where
  localLlmEndpoint : String
  localLlmModel : String
  cloudLlmEnabled : Bool
  cloudLlmApiKey : Option String
  theme : Theme
  autoCapture : Bool
  captureSlack : Bool
  captureGmail : Bool
  deriving DecidableEq, Repr

/-- A settings record as it may sit under the settings key: any of the
properties of `ExtensionSettings` may be missing. -/
structure StoredSettings where
  localLlmEndpoint : Option String
  localLlmModel : Option String
  cloudLlmEnabled : Option Bool
  cloudLlmApiKey : Option String
  theme : Option Theme
  autoCapture : Option Bool
  captureSlack : Option Bool
  captureGmail : Option Bool
  deriving DecidableEq, Repr

/-- The constant `DEFAULT_SETTINGS` of `types.ts`. -/
def DEFAULT_SETTINGS : ExtensionSettings :=
  { localLlmEndpoint := "http://localhost:11434"
    localLlmModel := "llama3:8b"
    cloudLlmEnabled := false
    cloudLlmApiKey := none
    theme := Theme.system
    autoCapture := false
    captureSlack := true
    captureGmail := true }

/-- The type `Partial<ExtensionSettings>`, the argument of `updateSettings`.  A
field is `none` when the property is not supplied.  The property
`cloudLlmApiKey` is optional in `ExtensionSettings` itself, so a supplied value
may be `undefined`: that is `some none`. -/
structure SettingsUpdates where
  localLlmEndpoint : Option String
  localLlmModel : Option String
  cloudLlmEnabled : Option Bool
  cloudLlmApiKey : Option (Option String)
  theme : Option Theme
  autoCapture : Option Bool
  captureSlack : Option Bool
  captureGmail : Option Bool
  deriving DecidableEq, Repr

/-! ## The store -/

/-- The type `Record<string, SituationBrief>`: the own entries of the object,
in the order in which the object lists them.  An object has one entry per key
and lists the keys that are array indices first, in ascending order, and the
other keys after them in the order of their creation; the operations below are
defined on every list and agree with the object operations on those.  What the
object inherits from `Object.prototype` is not an entry: it comes in with the
property read, see `getBrief`. -/
abbrev BriefRecord := List (String × SituationBrief)

/-- The names of the properties that a plain object inherits from
`Object.prototype`. -/
def objectPrototypeNames : List String :=
  ["constructor", "__defineGetter__", "__defineSetter__", "hasOwnProperty",
    "__lookupGetter__", "__lookupSetter__", "isPrototypeOf", "propertyIsEnumerable",
    "toString", "valueOf", "__proto__", "toLocaleString"]

/-- The value of a property read `briefs[key]`: `undefined`, the brief of an own
entry, or what `Object.prototype` has under the name (a function, or
`Object.prototype` itself for `__proto__`). -/
inductive PropertyValue where
  | undefined
  | own (brief : SituationBrief)
  | inherited (name : String)
  deriving DecidableEq, Repr

/-- The array index that a property key denotes, if it denotes one: the key is
the decimal text, without a leading zero, of a number below `2^32 - 1`. -/
def arrayIndex (key : String) : Option Nat :=
  let digits := key.data
  if digits.isEmpty || !digits.all Char.isDigit then none
  else if decide (1 < digits.length) && digits.head? == some '0' then none
  else
    let n := digits.foldl (fun acc c => 10 * acc + (c.toNat - 48)) 0
    if n < 4294967295 then some n else none

/-- The persisted state: the values under the keys `sidecar_situations` and
`sidecar_briefs` of `chrome.storage.local` and under `sidecar_settings` of
`chrome.storage.sync`. -/
structure Store where
  situations : Option (List Situation)
  briefs : Option BriefRecord
  settings : Option StoredSettings
  deriving DecidableEq, Repr

/-! ## Export and import documents -/

/-- The object that `exportData` hands to `JSON.stringify`. -/
structure ExportDocument where
  version : Nat
  exportedAt : String
  situations : List Situation
  settings : ExtensionSettings
  briefs : BriefRecord
  deriving DecidableEq, Repr

/-- The JSON values that JavaScript treats as false in `if (value)`: `null`,
`false`, the number `0` and the empty string. -/
inductive Falsy where
  | null
  | false
  | zero
  | emptyString
  deriving DecidableEq, Repr

/-- A top-level property of the object returned by `JSON.parse`, as
`importData` sees it: missing, present with a falsy value, or present with a
value of the type kept under the storage key (an array or an object, both of
which JavaScript treats as true, the empty ones included). -/
inductive DocField (α : Type) where
  | absent
  | falsy (v : Falsy)
  | value (a : α)
  deriving DecidableEq, Repr

/-- The object returned by `JSON.parse(jsonData)` in `importData`, reduced to
the three properties that `importData` reads. -/
structure ImportDocument where
  situations : DocField (List Situation)
  settings : DocField StoredSettings
  briefs : DocField BriefRecord
  deriving DecidableEq, Repr

/-! ### Parsed JSON values -/

/-- A value as `JSON.parse` returns it.  An object is the list of its own
entries in the order in which it lists them. -/
inductive Json where
  | null
  | bool (b : Bool)
  | number (n : JsNumber)
  | string (s : String)
  | array (items : List Json)
  | object (entries : List (String × Json))
  deriving Repr

namespace Json

/-- The outcome of the test `if (value)`: every value passes except `null`,
`false`, the number `0` and the empty string.  Arrays and objects pass, the
empty ones included. -/
def truthy : Json → Bool
  | Json.null => false
  | Json.bool b => b
  | Json.number n => n != 0
  | Json.string s => s != ""
  | Json.array _ => true
  | Json.object _ => true

/-- The read `data[key]` of a parsed value other than `null`, for a key that
names nothing on a prototype, on an array or on a string, as is the case of
`situations`, `settings` and `briefs`: the entry of an object when it has one,
`undefined` otherwise, here `none`. -/
def entry (data : Json) (key : String) : Option Json :=
  match data with
  | Json.object entries => entries.lookup key
  | _ => none

end Json

/-- The persisted state as `chrome.storage` holds it: under each of the three
keys sits whatever JSON value was written there. -/
structure RawStore where
  situations : Option Json
  briefs : Option Json
  settings : Option Json
  deriving Repr

/-! ### The typed values as JSON values

The properties of an object are listed in the order of the interface; a
property that is optional and missing has no entry. -/

/-- The entry of an optional property. -/
def optionalEntry {α : Type} (key : String) (encode : α → Json) :
    Option α → List (String × Json)
  | none => []
  | some a => [(key, encode a)]

/-- An array of strings. -/
def stringsToJson (items : List String) : Json :=
  Json.array (items.map Json.string)

/-- The text of a `SituationStatus`. -/
def SituationStatus.toJson : SituationStatus → Json
  | SituationStatus.active => Json.string "active"
  | SituationStatus.monitoring => Json.string "monitoring"
  | SituationStatus.resolved => Json.string "resolved"

/-- The text of a `CommunicationSource`. -/
def CommunicationSource.toJson : CommunicationSource → Json
  | CommunicationSource.slack => Json.string "slack"
  | CommunicationSource.gmail => Json.string "gmail"
  | CommunicationSource.zoom => Json.string "zoom"
  | CommunicationSource.manual => Json.string "manual"

/-- The text of an `EngagementLevel`. -/
def EngagementLevel.toJson : EngagementLevel → Json
  | EngagementLevel.high => Json.string "high"
  | EngagementLevel.medium => Json.string "medium"
  | EngagementLevel.low => Json.string "low"

/-- The text of an `UnresolvedThreadType`. -/
def UnresolvedThreadType.toJson : UnresolvedThreadType → Json
  | UnresolvedThreadType.question => Json.string "question"
  | UnresolvedThreadType.commitment => Json.string "commitment"
  | UnresolvedThreadType.decision => Json.string "decision"
  | UnresolvedThreadType.action_item => Json.string "action_item"

/-- The text of a `RiskSignalType`. -/
def RiskSignalType.toJson : RiskSignalType → Json
  | RiskSignalType.disengagement => Json.string "disengagement"
  | RiskSignalType.escalation => Json.string "escalation"
  | RiskSignalType.misalignment => Json.string "misalignment"
  | RiskSignalType.blocker => Json.string "blocker"

/-- The text of a `RiskSeverity`. -/
def RiskSeverity.toJson : RiskSeverity → Json
  | RiskSeverity.low => Json.string "low"
  | RiskSeverity.medium => Json.string "medium"
  | RiskSeverity.high => Json.string "high"

/-- The text of a `RecentTone`. -/
def RecentTone.toJson : RecentTone → Json
  | RecentTone.positive => Json.string "positive"
  | RecentTone.neutral => Json.string "neutral"
  | RecentTone.negative => Json.string "negative"
  | RecentTone.mixed => Json.string "mixed"

/-- The text of a `Theme`. -/
def Theme.toJson : Theme → Json
  | Theme.light => Json.string "light"
  | Theme.dark => Json.string "dark"
  | Theme.system => Json.string "system"

/-- A `Participant` as a JSON object. -/
def Participant.toJson (p : Participant) : Json :=
  Json.object
    ([("id", Json.string p.id), ("name", Json.string p.name)] ++
      optionalEntry "email" Json.string p.email ++
      optionalEntry "slackId" Json.string p.slackId ++
      optionalEntry "role" Json.string p.role ++
      optionalEntry "statedPosition" Json.string p.statedPosition ++
      optionalEntry "inferredIntent" Json.string p.inferredIntent)

/-- A `CommunicationMetadata` as a JSON object. -/
def CommunicationMetadata.toJson (m : CommunicationMetadata) : Json :=
  Json.object
    (optionalEntry "channel" Json.string m.channel ++
      optionalEntry "channelId" Json.string m.channelId ++
      optionalEntry "subject" Json.string m.subject ++
      optionalEntry "threadId" Json.string m.threadId ++
      optionalEntry "duration" Json.number m.duration ++
      optionalEntry "isThread" Json.bool m.isThread)

/-- A `Communication` as a JSON object. -/
def Communication.toJson (c : Communication) : Json :=
  Json.object
    ([("id", Json.string c.id), ("situationId", Json.string c.situationId),
        ("source", c.source.toJson), ("sourceId", Json.string c.sourceId)] ++
      optionalEntry "sourceUrl" Json.string c.sourceUrl ++
      [("timestamp", Json.string c.timestamp), ("participants", stringsToJson c.participants),
        ("content", Json.string c.content), ("metadata", c.metadata.toJson)])

/-- A `StakeholderAnalysis` as a JSON object. -/
def StakeholderAnalysis.toJson (a : StakeholderAnalysis) : Json :=
  Json.object
    [("participantId", Json.string a.participantId),
      ("statedPosition", Json.string a.statedPosition),
      ("inferredIntent", Json.string a.inferredIntent),
      ("communicationStyle", Json.string a.communicationStyle),
      ("engagementLevel", a.engagementLevel.toJson)]

/-- A `ToneDataPoint` as a JSON object. -/
def ToneDataPoint.toJson (t : ToneDataPoint) : Json :=
  Json.object
    [("timestamp", Json.string t.timestamp), ("participant", Json.string t.participant),
      ("sentiment", Json.number t.sentiment), ("markers", stringsToJson t.markers)]

/-- An `UnresolvedThread` as a JSON object. -/
def UnresolvedThread.toJson (t : UnresolvedThread) : Json :=
  Json.object
    [("id", Json.string t.id), ("description", Json.string t.description),
      ("raisedBy", Json.string t.raisedBy), ("raisedAt", Json.string t.raisedAt),
      ("type", t.type.toJson), ("context", Json.string t.context)]

/-- A `RiskSignal` as a JSON object. -/
def RiskSignal.toJson (r : RiskSignal) : Json :=
  Json.object
    [("type", r.type.toJson), ("severity", r.severity.toJson),
      ("description", Json.string r.description), ("evidence", stringsToJson r.evidence)]

/-- A `SuggestedAction` as a JSON object. -/
def SuggestedAction.toJson (a : SuggestedAction) : Json :=
  Json.object
    ([("priority", Json.number a.priority), ("action", Json.string a.action),
        ("rationale", Json.string a.rationale)] ++
      optionalEntry "suggestedQuestions" stringsToJson a.suggestedQuestions)

/-- A `SituationAnalysis` as a JSON object. -/
def SituationAnalysis.toJson (a : SituationAnalysis) : Json :=
  Json.object
    [("generatedAt", Json.string a.generatedAt), ("summary", Json.string a.summary),
      ("stakeholderAnalysis", Json.array (a.stakeholderAnalysis.map StakeholderAnalysis.toJson)),
      ("toneTrajectory", Json.array (a.toneTrajectory.map ToneDataPoint.toJson)),
      ("unresolvedThreads", Json.array (a.unresolvedThreads.map UnresolvedThread.toJson)),
      ("riskSignals", Json.array (a.riskSignals.map RiskSignal.toJson)),
      ("suggestedActions", Json.array (a.suggestedActions.map SuggestedAction.toJson)),
      ("relatedSituations", stringsToJson a.relatedSituations)]

/-- A `Situation` as a JSON object. -/
def Situation.toJson (s : Situation) : Json :=
  Json.object
    ([("id", Json.string s.id), ("title", Json.string s.title),
        ("description", Json.string s.description), ("status", s.status.toJson),
        ("createdAt", Json.string s.createdAt), ("updatedAt", Json.string s.updatedAt),
        ("participants", Json.array (s.participants.map Participant.toJson)),
        ("communications", Json.array (s.communications.map Communication.toJson))] ++
      optionalEntry "analysis" SituationAnalysis.toJson s.analysis)

/-- A `BriefStakeholder` as a JSON object. -/
def BriefStakeholder.toJson (b : BriefStakeholder) : Json :=
  Json.object
    [("participantId", Json.string b.participantId), ("name", Json.string b.name),
      ("role", Json.string b.role), ("currentStance", Json.string b.currentStance),
      ("recentTone", b.recentTone.toJson), ("keyPoints", stringsToJson b.keyPoints),
      ("suggestedApproach", Json.string b.suggestedApproach)]

/-- A `SituationBrief` as a JSON object. -/
def SituationBrief.toJson (b : SituationBrief) : Json :=
  Json.object
    [("situationId", Json.string b.situationId), ("generatedAt", Json.string b.generatedAt),
      ("title", Json.string b.title), ("summary", Json.string b.summary),
      ("stakeholders", Json.array (b.stakeholders.map BriefStakeholder.toJson)),
      ("unresolvedItems", Json.array (b.unresolvedItems.map UnresolvedThread.toJson)),
      ("suggestedNextSteps", Json.array (b.suggestedNextSteps.map SuggestedAction.toJson)),
      ("riskLevel", b.riskLevel.toJson),
      ("topRisks", Json.array (b.topRisks.map RiskSignal.toJson))]

/-- A stored settings record as a JSON object. -/
def StoredSettings.toJson (s : StoredSettings) : Json :=
  Json.object
    (optionalEntry "localLlmEndpoint" Json.string s.localLlmEndpoint ++
      optionalEntry "localLlmModel" Json.string s.localLlmModel ++
      optionalEntry "cloudLlmEnabled" Json.bool s.cloudLlmEnabled ++
      optionalEntry "cloudLlmApiKey" Json.string s.cloudLlmApiKey ++
      optionalEntry "theme" Theme.toJson s.theme ++
      optionalEntry "autoCapture" Json.bool s.autoCapture ++
      optionalEntry "captureSlack" Json.bool s.captureSlack ++
      optionalEntry "captureGmail" Json.bool s.captureGmail)

/-- An array of situations. -/
def situationsToJson (situations : List Situation) : Json :=
  Json.array (situations.map Situation.toJson)

/-- A briefs object: one entry per stored brief. -/
def briefsToJson (briefs : BriefRecord) : Json :=
  Json.object (briefs.map (fun kv => (kv.1, kv.2.toJson)))

/-- The JSON value that a `Falsy` names. -/
def Falsy.toJson : Falsy → Json
  | Falsy.null => Json.null
  | Falsy.false => Json.bool Bool.false
  | Falsy.zero => Json.number 0
  | Falsy.emptyString => Json.string ""

/-- The store with every stored value as the JSON value that `chrome.storage`
holds. -/
def Store.toRaw (st : Store) : RawStore :=
  { situations := st.situations.map situationsToJson
    briefs := st.briefs.map briefsToJson
    settings := st.settings.map StoredSettings.toJson }

/-- The entry of a top-level property of a parsed document. -/
def DocField.toEntries {α : Type} (key : String) (encode : α → Json) :
    DocField α → List (String × Json)
  | DocField.absent => []
  | DocField.falsy v => [(key, v.toJson)]
  | DocField.value a => [(key, encode a)]

/-- The parsed document as a JSON object. -/
def ImportDocument.toJson (data : ImportDocument) : Json :=
  Json.object
    (data.situations.toEntries "situations" situationsToJson ++
      data.settings.toEntries "settings" StoredSettings.toJson ++
      data.briefs.toEntries "briefs" briefsToJson)

/-! ## `storage.ts` -/

namespace Storage

/-- The function `generateId`:
`${Date.now()}-${Math.random().toString(36).substr(2, 9)}`, where `ms` is the
value of `Date.now()` and `rnd` the text of `Math.random().toString(36)`. -/
def generateId (ms : Nat) (rnd : String) : String :=
  toString ms ++ "-" ++ (rnd.drop 2).take 9

/-- The function `getSituations`: the stored array, or `[]` when the key is unset. -/
def getSituations (st : Store) : List Situation :=
  st.situations.getD []

/-- The function `getSituation`: `situations.find(s => s.id === id)`. -/
def getSituation (st : Store) (id : String) : Option Situation :=
  (getSituations st).find? (fun s => s.id == id)

/-- The function `saveSituation`: the stored entry at the index found by
`findIndex` is overwritten, and when `findIndex` finds none (`-1` in the
source) the situation is put in front with `unshift`; the array is written back. -/
def saveSituation (st : Store) (situation : Situation) : Store :=
  let situations := getSituations st
  match situations.findIdx? (fun s => s.id == situation.id) with
  | some index => { st with situations := some (situations.set index situation) }
  | none => { st with situations := some (situation :: situations) }

/-- The function `getBriefs`: the stored object, or `{}` when the key is unset. -/
def getBriefs (st : Store) : BriefRecord :=
  st.briefs.getD []

/-- The function `getBrief`: the property read `briefs[situationId]`, which
gives the brief of an own entry and otherwise looks at `Object.prototype`. -/
def getBrief (st : Store) (situationId : String) : PropertyValue :=
  match (getBriefs st).lookup situationId with
  | some brief => PropertyValue.own brief
  | none =>
    if objectPrototypeNames.contains situationId then PropertyValue.inherited situationId
    else PropertyValue.undefined

/-- The function `deleteBrief`: `delete briefs[situationId]`, then the object is
written back. -/
def deleteBrief (st : Store) (situationId : String) : Store :=
  let briefs := getBriefs st
  { st with briefs := some (briefs.filter (fun kv => kv.1 != situationId)) }

/-- The function `deleteSituation`: the filtered array is written back, then
the brief of the same id is deleted. -/
def deleteSituation (st : Store) (id : String) : Store :=
  let situations := getSituations st
  let filtered := situations.filter (fun s => s.id != id)
  deleteBrief { st with situations := some filtered } id

/-- The function `createSituation`.  It returns the new record and the store
after `saveSituation`. -/
def createSituation (st : Store) (now : String) (ms : Nat) (rnd : String)
    (title : String) (description : String := "") : Situation × Store :=
  let situation : Situation :=
    { id := generateId ms rnd
      title := title
      description := description
      status := SituationStatus.active
      createdAt := now
      updatedAt := now
      participants := []
      communications := []
      analysis := none }
  (situation, saveSituation st situation)

/-- The object spread `{ ...situation, ...updates }`: every property supplied
in `updates` replaces the one of `situation`. -/
def spreadUpdates (situation : Situation) (updates : SituationUpdates) : Situation :=
  { id := situation.id
    title := updates.title.getD situation.title
    description := updates.description.getD situation.description
    status := updates.status.getD situation.status
    createdAt := situation.createdAt
    updatedAt := updates.updatedAt.getD situation.updatedAt
    participants := updates.participants.getD situation.participants
    communications := updates.communications.getD situation.communications
    analysis := updates.analysis.getD situation.analysis }

/-- The function `updateSituation`:
`{ ...situation, ...updates, updatedAt: new Date().toISOString() }` is saved and
returned, or `undefined` is returned when the id is not stored. -/
def updateSituation (st : Store) (now : String) (id : String)
    (updates : SituationUpdates) : Option Situation × Store :=
  match getSituation st id with
  | none => (none, st)
  | some situation =>
    let updated : Situation := { spreadUpdates situation updates with updatedAt := now }
    (some updated, saveSituation st updated)

/-- The object `{ ...communication, id: generateId(), situationId }` built by
`addCommunication`. -/
def newCommunication (communication : CommunicationInput) (id situationId : String) :
    Communication :=
  { id := id
    situationId := situationId
    source := communication.source
    sourceId := communication.sourceId
    sourceUrl := communication.sourceUrl
    timestamp := communication.timestamp
    participants := communication.participants
    content := communication.content
    metadata := communication.metadata }

/-- The function `addCommunication`. -/
def addCommunication (st : Store) (now : String) (ms : Nat) (rnd : String)
    (situationId : String) (communication : CommunicationInput) :
    Option Communication × Store :=
  match getSituation st situationId with
  | none => (none, st)
  | some situation =>
    let newComm := newCommunication communication (generateId ms rnd) situationId
    let pushed : Situation :=
      { situation with communications := situation.communications ++ [newComm] }
    (some newComm, saveSituation st { pushed with updatedAt := now })

/-- The function `removeCommunication`. -/
def removeCommunication (st : Store) (now : String) (situationId communicationId : String) :
    Store :=
  match getSituation st situationId with
  | none => st
  | some situation =>
    let filtered : Situation :=
      { situation with
        communications := situation.communications.filter (fun c => c.id != communicationId) }
    saveSituation st { filtered with updatedAt := now }

/-- The object `{ ...participant, id: generateId() }` built by `addParticipant`. -/
def newParticipant (participant : ParticipantInput) (id : String) : Participant :=
  { id := id
    name := participant.name
    email := participant.email
    slackId := participant.slackId
    role := participant.role
    statedPosition := participant.statedPosition
    inferredIntent := participant.inferredIntent }

/-- The function `addParticipant`. -/
def addParticipant (st : Store) (now : String) (ms : Nat) (rnd : String)
    (situationId : String) (participant : ParticipantInput) :
    Option Participant × Store :=
  match getSituation st situationId with
  | none => (none, st)
  | some situation =>
    let added := newParticipant participant (generateId ms rnd)
    let pushed : Situation :=
      { situation with participants := situation.participants ++ [added] }
    (some added, saveSituation st { pushed with updatedAt := now })

/-- The function `removeParticipant`. -/
def removeParticipant (st : Store) (now : String) (situationId participantId : String) :
    Store :=
  match getSituation st situationId with
  | none => st
  | some situation =>
    let filtered : Situation :=
      { situation with
        participants := situation.participants.filter (fun p => p.id != participantId) }
    saveSituation st { filtered with updatedAt := now }

/-- The place of a new entry whose key is the array index `n`: before the
first entry whose key is a larger index or no index. -/
def insertIndexEntry (n : Nat) (entry : String × SituationBrief) :
    BriefRecord → BriefRecord
  | [] => [entry]
  | e :: rest =>
    match arrayIndex e.1 with
    | some m => if m < n then e :: insertIndexEntry n entry rest else entry :: e :: rest
    | none => entry :: e :: rest

/-- The assignment `briefs[key] = value` on the entries of an object: the
value of an existing key is replaced where it stands; without an own entry, the
key `__proto__` goes to the setter of `Object.prototype`, which changes the
prototype and makes no entry; any other new key makes an entry, among the array
indices when it is one and at the end otherwise. -/
def assignBrief (briefs : BriefRecord) (key : String) (value : SituationBrief) :
    BriefRecord :=
  if briefs.any (fun kv => kv.1 == key) then
    briefs.map (fun kv => if kv.1 == key then (kv.1, value) else kv)
  else if key == "__proto__" then briefs
  else
    match arrayIndex key with
    | some n => insertIndexEntry n (key, value) briefs
    | none => briefs ++ [(key, value)]

/-- The function `saveBrief`: `briefs[brief.situationId] = brief`, then the
own entries of the object are written back. -/
def saveBrief (st : Store) (brief : SituationBrief) : Store :=
  let briefs := getBriefs st
  { st with briefs := some (assignBrief briefs brief.situationId brief) }

/-- The constant `defaultSettings` inside `getSettings`. -/
def defaultSettings : ExtensionSettings :=
  { localLlmEndpoint := "http://localhost:11434"
    localLlmModel := "llama3:8b"
    cloudLlmEnabled := false
    cloudLlmApiKey := none
    theme := Theme.system
    autoCapture := false
    captureSlack := true
    captureGmail := true }

/-- The object spread `{ ...base, ...stored }` for a stored settings record:
every property that `stored` has replaces the one of `base`. -/
def spreadStored (base : ExtensionSettings) (stored : StoredSettings) : ExtensionSettings :=
  { localLlmEndpoint := stored.localLlmEndpoint.getD base.localLlmEndpoint
    localLlmModel := stored.localLlmModel.getD base.localLlmModel
    cloudLlmEnabled := stored.cloudLlmEnabled.getD base.cloudLlmEnabled
    cloudLlmApiKey :=
      match stored.cloudLlmApiKey with
      | some key => some key
      | none => base.cloudLlmApiKey
    theme := stored.theme.getD base.theme
    autoCapture := stored.autoCapture.getD base.autoCapture
    captureSlack := stored.captureSlack.getD base.captureSlack
    captureGmail := stored.captureGmail.getD base.captureGmail }

/-- The function `getSettings`: `{ ...defaultSettings, ...stored }`, where the
spread of an unset key adds nothing. -/
def getSettings (st : Store) : ExtensionSettings :=
  match st.settings with
  | none => defaultSettings
  | some stored => spreadStored defaultSettings stored

/-- The object spread `{ ...current, ...updates }` of `updateSettings`. -/
def spreadSettings (current : ExtensionSettings) (updates : SettingsUpdates) :
    ExtensionSettings :=
  { localLlmEndpoint := updates.localLlmEndpoint.getD current.localLlmEndpoint
    localLlmModel := updates.localLlmModel.getD current.localLlmModel
    cloudLlmEnabled := updates.cloudLlmEnabled.getD current.cloudLlmEnabled
    cloudLlmApiKey := updates.cloudLlmApiKey.getD current.cloudLlmApiKey
    theme := updates.theme.getD current.theme
    autoCapture := updates.autoCapture.getD current.autoCapture
    captureSlack := updates.captureSlack.getD current.captureSlack
    captureGmail := updates.captureGmail.getD current.captureGmail }

/-- A complete settings record as `chrome.storage` keeps it: every required
property is present, and `cloudLlmApiKey` is present when it has a value. -/
def toStored (settings : ExtensionSettings) : StoredSettings :=
  { localLlmEndpoint := some settings.localLlmEndpoint
    localLlmModel := some settings.localLlmModel
    cloudLlmEnabled := some settings.cloudLlmEnabled
    cloudLlmApiKey := settings.cloudLlmApiKey
    theme := some settings.theme
    autoCapture := some settings.autoCapture
    captureSlack := some settings.captureSlack
    captureGmail := some settings.captureGmail }

/-- The function `updateSettings`: the merged record is written under the
settings key and returned. -/
def updateSettings (st : Store) (updates : SettingsUpdates) : ExtensionSettings × Store :=
  let current := getSettings st
  let updated := spreadSettings current updates
  (updated, { st with settings := some (toStored updated) })

/-- The function `exportData`.  The result stands for the text that
`JSON.stringify` makes of it; the store is returned as it was read. -/
def exportData (st : Store) (now : String) : ExportDocument × Store :=
  let situations := getSituations st
  let settings := getSettings st
  let briefs := getBriefs st
  ({ version := 1
     exportedAt := now
     situations := situations
     settings := settings
     briefs := briefs }, st)

/-- The value of `JSON.parse` on the text of an exported document: each of the
three snapshots comes back as the value that was written, the settings as an
object with the properties that had a value. -/
def parseExport (document : ExportDocument) : ImportDocument :=
  { situations := DocField.value document.situations
    settings := DocField.value (toStored document.settings)
    briefs := DocField.value document.briefs }

/-- The function `importData` after `JSON.parse`, on a document whose values have
the stored types: each of the three tests `if (data.situations)`,
`if (data.settings)`, `if (data.briefs)` lets a value through only when it is
neither missing nor falsy, and the value is then written under its key.  For the
documents of any other shape see `Raw.importData`. -/
def importData (st : Store) (data : ImportDocument) : Store :=
  let st1 : Store :=
    match data.situations with
    | DocField.value situations => { st with situations := some situations }
    | _ => st
  let st2 : Store :=
    match data.settings with
    | DocField.value settings => { st1 with settings := some settings }
    | _ => st1
  match data.briefs with
  | DocField.value briefs => { st2 with briefs := some briefs }
  | _ => st2

/-- The function `importData` on any value that `JSON.parse` returns, with the
store as `chrome.storage` holds it.  On `null` the read `data.situations` throws
before anything is written, and the result is `none`.  On every other value
each of the three tests lets through what is neither missing nor falsy, and that
value is written under its key as it is. -/
def Raw.importData (st : RawStore) (data : Json) : Option RawStore :=
  match data with
  | Json.null => none
  | _ =>
    let st1 : RawStore :=
      match data.entry "situations" with
      | some situations =>
        if situations.truthy then { st with situations := some situations } else st
      | none => st
    let st2 : RawStore :=
      match data.entry "settings" with
      | some settings => if settings.truthy then { st1 with settings := some settings } else st1
      | none => st1
    match data.entry "briefs" with
    | some briefs => if briefs.truthy then some { st2 with briefs := some briefs } else some st2
    | none => some st2

/-! ### Sequences of repository operations -/

/-- One call of the situation repository, with the readings of the clock and of
the random source that the call makes. -/
inductive Op where
  | create (now : String) (ms : Nat) (rnd : String) (title description : String)
  | update (now : String) (id : String) (updates : SituationUpdates)
  | delete (id : String)
  | addCommunication (now : String) (ms : Nat) (rnd : String) (situationId : String)
      (communication : CommunicationInput)
  | removeCommunication (now : String) (situationId communicationId : String)
  | addParticipant (now : String) (ms : Nat) (rnd : String) (situationId : String)
      (participant : ParticipantInput)
  | removeParticipant (now : String) (situationId participantId : String)
  deriving DecidableEq, Repr

/-- The store after one call. -/
def Op.apply (st : Store) : Op → Store
  | Op.create now ms rnd title description =>
    (Storage.createSituation st now ms rnd title description).2
  | Op.update now id updates => (Storage.updateSituation st now id updates).2
  | Op.delete id => Storage.deleteSituation st id
  | Op.addCommunication now ms rnd situationId communication =>
    (Storage.addCommunication st now ms rnd situationId communication).2
  | Op.removeCommunication now situationId communicationId =>
    Storage.removeCommunication st now situationId communicationId
  | Op.addParticipant now ms rnd situationId participant =>
    (Storage.addParticipant st now ms rnd situationId participant).2
  | Op.removeParticipant now situationId participantId =>
    Storage.removeParticipant st now situationId participantId

/-- The store after a sequence of calls, one after the other. -/
def run (st : Store) (ops : List Op) : Store :=
  ops.foldl Op.apply st

/-- The back-reference invariant, as a test on a store: every communication of
every stored situation has the `situationId` of the situation that holds it. -/
def communicationsBelong (st : Store) : Bool :=
  (getSituations st).all (fun s => s.communications.all (fun c => c.situationId == s.id))

/-- A call that cannot bring a foreign back-reference in: any call other than
an update, an update that supplies no `communications`, and an update whose
supplied communications all have the `situationId` of the target. -/
def Op.keepsBackReferences : Op → Bool
  | Op.update _ id updates =>
    match updates.communications with
    | none => true
    | some supplied => supplied.all (fun c => c.situationId == id)
  | _ => true

/-! ### One `addCommunication` call, storage access by storage access -/

/-- The part of `saveSituation` between its read and its write: the entry
found by `findIndex` is overwritten, or the situation is put in front. -/
def storeInto (situations : List Situation) (situation : Situation) : List Situation :=
  match situations.findIdx? (fun s => s.id == situation.id) with
  | some index => situations.set index situation
  | none => situation :: situations

/-- Where a running `addCommunication` call stands.  The call suspends at each
`await`, and between two of them its code runs without interruption:
`start` is the call before `await getSituation(situationId)`;
`found` holds the situation that was read, with the new communication pushed
and `updatedAt` set, before `await getSituations()` inside `saveSituation`;
`writing` holds the array that was read, with the situation put in, before
`await chrome.storage.local.set(...)`;
`done` holds the value returned. -/
inductive AddCall where
  | start (now : String) (ms : Nat) (rnd : String) (situationId : String)
      (communication : CommunicationInput)
  | found (situation : Situation) (newComm : Communication)
  | writing (situations : List Situation) (newComm : Communication)
  | done (result : Option Communication)
  deriving DecidableEq, Repr

/-- One storage access of a running call: the read of `getSituation`, the read
of `saveSituation`, or its write. -/
def AddCall.step (st : Store) : AddCall → Store × AddCall
  | AddCall.start now ms rnd situationId communication =>
    match getSituation st situationId with
    | none => (st, AddCall.done none)
    | some situation =>
      let newComm := newCommunication communication (generateId ms rnd) situationId
      let pushed : Situation :=
        { situation with communications := situation.communications ++ [newComm] }
      (st, AddCall.found { pushed with updatedAt := now } newComm)
  | AddCall.found situation newComm =>
    (st, AddCall.writing (storeInto (getSituations st) situation) newComm)
  | AddCall.writing situations newComm =>
    ({ st with situations := some situations }, AddCall.done (some newComm))
  | AddCall.done result => (st, AddCall.done result)

/-- Two running calls on one store; the schedule says, storage access by
storage access, which call moves: `false` the first, `true` the second. -/
def interleave (st : Store) (first second : AddCall) : List Bool → Store × AddCall × AddCall
  | [] => (st, first, second)
  | false :: schedule =>
    interleave (first.step st).1 (first.step st).2 second schedule
  | true :: schedule =>
    interleave (second.step st).1 first (second.step st).2 schedule

/-- The schedule in which both calls do their two reads before either writes:
the first call writes, then the second. -/
def readsBeforeWrites : List Bool := [false, true, false, true, false, true]

/-- The schedule in which both calls do their first read, the first call then
runs to its end, and the second call follows. -/
def firstReadsTogether : List Bool := [false, true, false, false, true, true]

/-- The schedule in which the first call runs to its end before the second
starts. -/
def oneAfterTheOther : List Bool := [false, false, false, true, true, true]

end Storage

/-! ## The create handlers of `popup.js` and `sidepanel.js` -/

/-- The white space and line terminator characters that `String.prototype.trim`
removes. -/
def isJsWhitespace (c : Char) : Bool :=
  c.val == 0x09 || c.val == 0x0A || c.val == 0x0B || c.val == 0x0C || c.val == 0x0D ||
  c.val == 0x20 || c.val == 0xA0 || c.val == 0x1680 ||
  (0x2000 ≤ c.val && c.val ≤ 0x200A) ||
  c.val == 0x2028 || c.val == 0x2029 || c.val == 0x202F || c.val == 0x205F ||
  c.val == 0x3000 || c.val == 0xFEFF

/-- The method `String.prototype.trim`. -/
def jsTrim (s : String) : String :=
  String.mk ((s.data.dropWhile isJsWhitespace).reverse.dropWhile isJsWhitespace).reverse

/-- The payload of a `CREATE_SITUATION` message. -/
structure CreatePayload where
  title : String
  description : String
  deriving DecidableEq, Repr

namespace Popup

/-- The function `createSituation` of `popup.js`, up to the message it sends:
the title field is trimmed, `if (!title) return;` leaves without sending
anything, and otherwise a `CREATE_SITUATION` request carries the trimmed title
and description.  The result is the request sent, if any. -/
def createSituation (newTitle newDescription : String) : Option CreatePayload :=
  let title := jsTrim newTitle
  if title.isEmpty then none
  else
    let description := jsTrim newDescription
    some { title := title, description := description }

end Popup

namespace Sidepanel

/-- The function `createSituation` of `sidepanel.js`, up to the message it
sends: both fields are trimmed, `if (!title) return;` leaves without sending
anything, and otherwise a `CREATE_SITUATION` request is sent. -/
def createSituation (modalTitle modalDescription : String) : Option CreatePayload :=
  let title := jsTrim modalTitle
  let description := jsTrim modalDescription
  if title.isEmpty then none
  else some { title := title, description := description }

end Sidepanel

/-! ## The content scripts `gmail.js` and `slack.js` and the capture button of `popup.js`

The page is outside the program: what the scripts read from the DOM, from
`window.location` and from the clock is an argument.  A text is a sequence of
characters of the Basic Multilingual Plane, so that `length` and `slice` count
characters. -/

/-- The object that a content script builds for a capture. -/
structure CapturePayload where
  source : CommunicationSource
  sourceId : String
  url : String
  content : String
  participants : List String
  timestamp : String
  metadata : CommunicationMetadata
  deriving DecidableEq, Repr

/-- The expression `a || b` on two texts: `a` unless it is empty. -/
def orElseText (a b : String) : String :=
  if a.isEmpty then b else a

/-- The expression `element?.textContent?.trim() || ''` on the text of an
element that may be missing. -/
def trimmedOrEmpty (textContent : Option String) : String :=
  match textContent with
  | some text => jsTrim text
  | none => ""

/-- The method `slice(0, n)` of a text. -/
def jsSliceFrom0 (text : String) (n : Nat) : String :=
  text.take n

namespace Gmail

/-- The object returned by `getGmailContext`. -/
structure Context where
  subject : String
  threadId : String
  timestamp : String
  participants : List String
  deriving DecidableEq, Repr

/-- The function `captureSelection` of `gmail.js`.  `selection` is the text of
`window.getSelection()`, `none` when there is no selection object; `context` is
what `getGmailContext` returns. -/
def captureSelection (selection : Option String) (context : Context) (href : String)
    (ms : Nat) (now : String) : Option CapturePayload :=
  match selection.map jsTrim with
  | none => none
  | some selectedText =>
    if selectedText.isEmpty then none
    else
      some
        { source := CommunicationSource.gmail
          sourceId := orElseText context.threadId ("gmail-" ++ toString ms)
          url := href
          content := selectedText
          participants := context.participants
          timestamp := orElseText context.timestamp now
          metadata :=
            { channel := none, channelId := none, subject := some context.subject,
              threadId := some context.threadId, duration := none, isThread := none } }

/-- An element matched by `[data-hovercard-id][email]`: its `name` attribute and
its text. -/
structure HoverCard where
  name : Option String
  textContent : Option String
  deriving DecidableEq, Repr

/-- The expression `el.getAttribute('name') || el.textContent?.trim()`, `none`
when the result is falsy. -/
def HoverCard.displayName (el : HoverCard) : Option String :=
  match el.name with
  | some name => if name.isEmpty then (el.textContent.map jsTrim).filter (fun t => !t.isEmpty)
    else some name
  | none => (el.textContent.map jsTrim).filter (fun t => !t.isEmpty)

/-- The loop of `captureCurrentThread` that collects the names, each once. -/
def collectParticipants (elements : List HoverCard) : List String :=
  elements.foldl
    (fun participants el =>
      match el.displayName with
      | some name => if participants.contains name then participants else participants ++ [name]
      | none => participants)
    []

/-- The payload that `captureCurrentThread` of `gmail.js` sends.  `emailBody` is
the text of `[data-message-id] .a3s`, the two subjects are the texts of the two
heading selectors, `urlThreadId` is the group matched in `window.location.hash`. -/
def captureCurrentThread (emailBody : Option String)
    (subjectHeading subjectFallback : Option String) (elements : List HoverCard)
    (urlThreadId : Option String) (href : String) (ms : Nat) (now : String) : CapturePayload :=
  let content := trimmedOrEmpty emailBody
  let subject := orElseText (trimmedOrEmpty subjectHeading) (trimmedOrEmpty subjectFallback)
  let participants := collectParticipants elements
  let threadId := orElseText (urlThreadId.getD "") ("gmail-" ++ toString ms)
  { source := CommunicationSource.gmail
    sourceId := threadId
    url := href
    content := jsSliceFrom0 content 5000
    participants := participants
    timestamp := now
    metadata :=
      { channel := none, channelId := none, subject := some subject,
        threadId := some threadId, duration := none, isThread := none } }

end Gmail

namespace Slack

/-- The object returned by `getSlackContext`. -/
structure Context where
  channelName : String
  channelId : String
  messageId : String
  threadId : String
  isThread : Bool
  timestamp : String
  participants : List String
  deriving DecidableEq, Repr

/-- The function `captureSelection` of `slack.js`.  `selection` is the text of
`window.getSelection()`, `none` when there is no selection object; `context` is
what `getSlackContext` returns. -/
def captureSelection (selection : Option String) (context : Context) (href : String)
    (ms : Nat) (now : String) : Option CapturePayload :=
  match selection.map jsTrim with
  | none => none
  | some selectedText =>
    if selectedText.isEmpty then none
    else
      some
        { source := CommunicationSource.slack
          sourceId := orElseText context.messageId ("slack-" ++ toString ms)
          url := href
          content := selectedText
          participants := context.participants
          timestamp := orElseText context.timestamp now
          metadata :=
            { channel := some context.channelName, channelId := some context.channelId,
              subject := none, threadId := some context.threadId, duration := none,
              isThread := some context.isThread } }

/-- The payload that `captureMessage` of `slack.js` sends.  The four texts are
what the message element gives for the message text, the sender, the
`datetime` of its `time` element and its `data-message-ts`; `channelName` is the
text of the channel header. -/
def captureMessage (messageText senderName datetime messageTs channelName : Option String)
    (href : String) (ms : Nat) (now : String) : CapturePayload :=
  let content := messageText.getD ""
  let sender := senderName.getD ""
  let timestamp := datetime.getD ""
  let messageId := messageTs.getD ""
  { source := CommunicationSource.slack
    sourceId := orElseText messageId ("slack-" ++ toString ms)
    url := href
    content := jsTrim content
    participants := if sender.isEmpty then [] else [jsTrim sender]
    timestamp := orElseText timestamp now
    metadata :=
      { channel := some (trimmedOrEmpty channelName), channelId := none, subject := none,
        threadId := none, duration := none, isThread := none } }

end Slack

namespace Popup

/-- The part of the popup that the capture button touches: the variable
`capturedContent`, the capture form and its fields, and the notifications
shown. -/
structure CaptureState where
  capturedContent : Option CapturePayload
  captureFormHidden : Bool
  capturePreview : String
  situationSelectValue : String
  confirmCaptureDisabled : Bool
  notifications : List String
  deriving DecidableEq, Repr

/-- What `await chrome.tabs.sendMessage(tab.id, { type: 'GET_SELECTION' })`
gives: the value passed to `sendResponse` by the content script, or an error
when no content script answers. -/
inductive SelectionResponse where
  | failed
  | reply (captured : Option CapturePayload)
  deriving DecidableEq, Repr

/-- The function `showCaptureForm`. -/
def showCaptureForm (state : CaptureState) (content : CapturePayload) : CaptureState :=
  { state with
    capturePreview :=
      jsSliceFrom0 content.content 200 ++ (if content.content.length > 200 then "..." else "")
    captureFormHidden := false
    situationSelectValue := ""
    confirmCaptureDisabled := true }

/-- The function `showNotification`, as far as the capture button is concerned. -/
def showNotification (state : CaptureState) (message : String) : CaptureState :=
  { state with notifications := state.notifications ++ [message] }

/-- The click handler of the capture button, after the answer of the tab. -/
def onCaptureClick (state : CaptureState) : SelectionResponse → CaptureState
  | SelectionResponse.failed =>
    showNotification state "Cannot capture from this page. Try Slack or Gmail."
  | SelectionResponse.reply none =>
    showNotification state "No content selected. Highlight text on the page first."
  | SelectionResponse.reply (some response) =>
    if response.content.isEmpty then
      showNotification state "No content selected. Highlight text on the page first."
    else showCaptureForm { state with capturedContent := some response } response

/-- A popup in which nothing is captured and the capture form is hidden. -/
def CaptureState.idle : CaptureState :=
  { capturedContent := none
    captureFormHidden := true
    capturePreview := ""
    situationSelectValue := ""
    confirmCaptureDisabled := true
    notifications := [] }

end Popup

/-! ## Values used in the examples -/

/-- The store in which no key has been set. -/
def Store.empty : Store := { situations := none, briefs := none, settings := none }

/-- A sample reading of `new Date().toISOString()`. -/
def sampleNow : String := "2024-03-01T09:30:00.000Z"

/-- A sample reading of `Date.now()`. -/
def sampleMs : Nat := 1709285400000

/-- A sample text of `Math.random().toString(36)`. -/
def sampleRnd : String := "0.4fzyo82mvyr"

/-- A communication input as the popup builds it from a Slack capture. -/
def sampleInput : CommunicationInput :=
  { source := CommunicationSource.slack
    sourceId := "manual-1709285400000"
    sourceUrl := some "https://app.slack.com/client/T1/C1"
    timestamp := "2024-03-01T09:29:00.000Z"
    participants := ["Alex"]
    content := "Can we extend the deadline?"
    metadata :=
      { channel := some "general", channelId := none, subject := none, threadId := none,
        duration := none, isThread := none } }

/-- A participant input. -/
def sampleParticipant : ParticipantInput :=
  { name := "Alex", email := none, slackId := none, role := none, statedPosition := none,
    inferredIntent := none }

/-- A stored situation with id `1709285400000-4fzyo82mv`. -/
def sampleSituation : Situation :=
  { id := "1709285400000-4fzyo82mv"
    title := "Vendor negotiation"
    description := ""
    status := SituationStatus.active
    createdAt := "2024-03-01T09:30:00.000Z"
    updatedAt := "2024-03-01T09:30:00.000Z"
    participants := []
    communications := []
    analysis := none }

/-- A store that holds `sampleSituation` and nothing else. -/
def sampleStore : Store :=
  { situations := some [sampleSituation], briefs := none, settings := none }

/-- An update that supplies no property. -/
def SituationUpdates.none : SituationUpdates :=
  { title := Option.none, description := Option.none, status := Option.none,
    updatedAt := Option.none, participants := Option.none, communications := Option.none,
    analysis := Option.none }

/-- An update that supplies only `updatedAt`. -/
def staleUpdate : SituationUpdates :=
  { SituationUpdates.none with updatedAt := some "1999-12-31T00:00:00.000Z" }

/-- An update that supplies a title and a status. -/
def sampleUpdate : SituationUpdates :=
  { SituationUpdates.none with
    title := some "Vendor renewal", status := some SituationStatus.monitoring }

/-- A brief for the situation id given. -/
def sampleBrief (situationId : String) : SituationBrief :=
  { situationId := situationId
    generatedAt := "2024-03-01T10:00:00.000Z"
    title := "Vendor negotiation"
    summary := "Deadline extension requested."
    stakeholders := []
    unresolvedItems := []
    suggestedNextSteps := []
    riskLevel := RiskSeverity.low
    topRisks := []}

/-- A store with the sample situation, a brief for it and a brief for the id `other`. -/
def briefStore : Store :=
  { situations := some [sampleSituation]
    briefs := some [("1709285400000-4fzyo82mv", sampleBrief "1709285400000-4fzyo82mv"),
      ("other", sampleBrief "other")]
    settings := none }

/-- A stored communication with id `c1`. -/
def sampleCommunication : Communication :=
  Storage.newCommunication sampleInput "c1" "1709285400000-4fzyo82mv"

/-- The sample situation with one communication. -/
def busySituation : Situation :=
  { sampleSituation with communications := [sampleCommunication] }

/-- A store that holds `busySituation` and nothing else. -/
def busyStore : Store :=
  { situations := some [busySituation], briefs := none, settings := none }

/-- A stored participant with the id given. -/
def sampleMember (id : String) : Participant :=
  Storage.newParticipant sampleParticipant id

/-- The sample situation with the communications `c1`, `c2` and the participants
`p1`, `p2`. -/
def fullSituation : Situation :=
  { sampleSituation with
    participants := [sampleMember "p1", sampleMember "p2"]
    communications :=
      [sampleCommunication,
        Storage.newCommunication sampleInput "c2" "1709285400000-4fzyo82mv"] }

/-- A store that holds `fullSituation` and nothing else. -/
def fullStore : Store :=
  { situations := some [fullSituation], briefs := none, settings := none }

/-- A stored settings record that has only the property `theme`. -/
def themeOnly : StoredSettings :=
  { localLlmEndpoint := none, localLlmModel := none, cloudLlmEnabled := none,
    cloudLlmApiKey := none, theme := some Theme.light, autoCapture := none,
    captureSlack := none, captureGmail := none }

/-- A store whose settings key holds `themeOnly`. -/
def themeStore : Store :=
  { situations := none, briefs := none, settings := some themeOnly }

/-- The update `{ theme: 'dark' }`. -/
def themeDark : SettingsUpdates :=
  { localLlmEndpoint := none, localLlmModel := none, cloudLlmEnabled := none,
    cloudLlmApiKey := none, theme := some Theme.dark, autoCapture := none,
    captureSlack := none, captureGmail := none }

/-- A second brief for the sample situation, generated later. -/
def laterBrief : SituationBrief :=
  { sampleBrief "1709285400000-4fzyo82mv" with
    generatedAt := "2024-03-05T10:00:00.000Z", summary := "Deadline extended." }

/-- The parsed document `{ "situations": null }`. -/
def nullDocument : ImportDocument :=
  { situations := DocField.falsy Falsy.null, settings := DocField.absent,
    briefs := DocField.absent }

/-- A parsed document with an empty array of situations, settings that have
only a theme, and no briefs property. -/
def partialDocument : ImportDocument :=
  { situations := DocField.value [], settings := DocField.value themeOnly,
    briefs := DocField.absent }

/-- The parsed document `{ "briefs": 0 }`. -/
def zeroBriefsDocument : ImportDocument :=
  { situations := DocField.absent, settings := DocField.absent,
    briefs := DocField.falsy Falsy.zero }

/-- A store as `chrome.storage` holds it: an array with one object under the
situations key, an empty object under the briefs key, nothing under the
settings key. -/
def rawStore : RawStore :=
  { situations := some (Json.array [Json.object [("id", Json.string "1709285400000-4fzyo82mv")]])
    briefs := some (Json.object [])
    settings := none }

/-- The parsed document `{ "situations": null }`, as a JSON value. -/
def nullJson : Json :=
  Json.object [("situations", Json.null)]

/-- The parsed document `{ "situations": 7 }`. -/
def sevenDocument : Json :=
  Json.object [("situations", Json.number 7)]

/-- The parsed document `{ "situations": "", "settings": "dark", "briefs": [true] }`. -/
def looseDocument : Json :=
  Json.object
    [("situations", Json.string ""), ("settings", Json.string "dark"),
      ("briefs", Json.array [Json.bool true])]

/-- An update that supplies one communication whose `situationId` is `elsewhere`. -/
def foreignUpdate : SituationUpdates :=
  { SituationUpdates.none with
    communications := some [Storage.newCommunication sampleInput "c9" "elsewhere"] }

/-- A create call followed by `foreignUpdate` on the situation created. -/
def foreignOps : List Storage.Op :=
  [Storage.Op.create sampleNow sampleMs sampleRnd "Vendor negotiation" "",
    Storage.Op.update "2024-03-02T10:00:00.000Z" "1709285400000-4fzyo82mv" foreignUpdate]

/-- A sequence that uses every operation of the situation repository. -/
def sampleOps : List Storage.Op :=
  [Storage.Op.create sampleNow sampleMs sampleRnd "Vendor negotiation" "",
    Storage.Op.addParticipant sampleNow 1709285400001 "0.k3x9q0zz1ab"
      "1709285400000-4fzyo82mv" sampleParticipant,
    Storage.Op.addCommunication sampleNow 1709285400002 "0.9d2hs71kq0c"
      "1709285400000-4fzyo82mv" sampleInput,
    Storage.Op.update "2024-03-02T10:00:00.000Z" "1709285400000-4fzyo82mv" sampleUpdate,
    Storage.Op.removeParticipant "2024-03-02T10:00:01.000Z" "1709285400000-4fzyo82mv"
      "1709285400001-k3x9q0zz1",
    Storage.Op.create "2024-03-03T08:00:00.000Z" 1709452800000 "0.zz81kd03nq5" "Hiring plan" "",
    Storage.Op.removeCommunication "2024-03-03T08:00:01.000Z" "1709285400000-4fzyo82mv"
      "missing",
    Storage.Op.delete "1709452800000-zz81kd03n"]

/-- A second stored situation, with id `1709452800000-zz81kd03n`. -/
def otherSituation : Situation :=
  { id := "1709452800000-zz81kd03n"
    title := "Hiring plan"
    description := ""
    status := SituationStatus.monitoring
    createdAt := "2024-03-03T08:00:00.000Z"
    updatedAt := "2024-03-03T08:00:00.000Z"
    participants := [sampleMember "p1"]
    communications := []
    analysis := none }

/-- A store that holds `otherSituation` in front of `fullSituation`, two briefs
and a theme. -/
def pairStore : Store :=
  { situations := some [otherSituation, fullSituation]
    briefs := briefStore.briefs
    settings := some themeOnly }

/-- A create call and an `addCommunication` call that read the same clock value. -/
def sameInstantOps : List Storage.Op :=
  [Storage.Op.create sampleNow sampleMs sampleRnd "Vendor negotiation" "",
    Storage.Op.addCommunication sampleNow 1709285400000 "0.k3x9q0zz1ab"
      "1709285400000-4fzyo82mv" sampleInput]

/-- Two create calls and one `addParticipant` call, each at a later clock
reading than the one before. -/
def advancingOps : List Storage.Op :=
  [Storage.Op.create sampleNow sampleMs sampleRnd "Vendor negotiation" "",
    Storage.Op.create "2024-03-03T08:00:00.000Z" 1709452800000 "0.zz81kd03nq5" "Hiring plan" "",
    Storage.Op.addParticipant "2024-03-03T08:00:01.000Z" 1709452801000 "0.k3x9q0zz1ab"
      "1709285400000-4fzyo82mv" sampleParticipant]

/-- A second communication input. -/
def secondInput : CommunicationInput :=
  { sampleInput with
    sourceId := "manual-1709285400050", content := "Friday works for us." }

/-- A Gmail context with a thread id and one participant. -/
def sampleGmailContext : Gmail.Context :=
  { subject := "Renewal terms", threadId := "FMfcgzGxyz", timestamp := "",
    participants := ["Alex"] }

/-- A Slack context in a channel, outside a thread. -/
def sampleSlackContext : Slack.Context :=
  { channelName := "general", channelId := "C1", messageId := "1709285340.000100",
    threadId := "", isThread := false, timestamp := "2024-03-01T09:29:00.000Z",
    participants := ["Alex"] }

/-- A text of 5001 letters. -/
def longText : String := String.mk (List.replicate 5001 'a')

/-! ## Vocabulary of the statements -/

/-- The outcome of the spread for one property: the supplied value when there is
one, the previous value otherwise. -/
def Merged {α : Type} (supplied : Option α) (old new : α) : Prop :=
  (∀ v, supplied = some v → new = v) ∧ (supplied = none → new = old)

/-- The order of two timestamps written by `toISOString`, `a` not later than
`b`: the texts have the same width, so the instants compare as the texts do,
character by character. -/
abbrev IsoLe (a b : String) : Prop := a.data ≤ b.data

/-- The strict order of two timestamps written by `toISOString`, `a` earlier
than `b`. -/
abbrev IsoLt (a b : String) : Prop := a.data < b.data

/-- The stored situation under id `s` has `updatedAt` equal to the clock reading
`now`, which is not earlier than the previous value when the clock reading is
not. -/
def RefreshedAt (st1 : Store) (s previous now : String) : Prop :=
  ∃ sit1 : Situation, Storage.getSituation st1 s = some sit1 ∧ sit1.updatedAt = now ∧
    (IsoLe previous now → IsoLe previous sit1.updatedAt)

/-- The list of situations of `st1` has the length of the list of `st` and the
same ids at the same positions. -/
def SameIds (st st1 : Store) : Prop :=
  (Storage.getSituations st1).length = (Storage.getSituations st).length ∧
  (Storage.getSituations st1).map (fun x => x.id) =
    (Storage.getSituations st).map (fun x => x.id)

/-- Every situation of `st` whose id is not `s` is found in `st1` at the same
position and under its id, and the briefs and the settings of `st1` are those of
`st`. -/
def OthersUnchanged (st st1 : Store) (s : String) : Prop :=
  (∀ (j : Nat) (y : Situation), (Storage.getSituations st)[j]? = some y → y.id ≠ s →
    (Storage.getSituations st1)[j]? = some y) ∧
  (∀ t : String, t ≠ s → Storage.getSituation st1 t = Storage.getSituation st t) ∧
  st1.briefs = st.briefs ∧ st1.settings = st.settings

/-- The number written by a list of decimal digit characters, the last digit
first. -/
def valueOfDigits : List Char → Nat
  | [] => 0
  | c :: cs => (c.toNat - 48) + 10 * valueOfDigits cs

/-! ### Clock and history of a sequence of calls -/

namespace Storage

/-- The reading of `new Date().toISOString()` that a call makes; `deleteSituation`
makes none. -/
def Op.reading : Op → Option String
  | Op.create now _ _ _ _ => some now
  | Op.update now _ _ => some now
  | Op.delete _ => none
  | Op.addCommunication now _ _ _ _ => some now
  | Op.removeCommunication now _ _ => some now
  | Op.addParticipant now _ _ _ _ => some now
  | Op.removeParticipant now _ _ => some now

/-- The clock readings of a sequence of calls, in the order of the calls. -/
def clockReadings (ops : List Op) : List String :=
  ops.filterMap Op.reading

/-- The clock never runs backwards during the sequence: no reading is earlier
than a reading before it. -/
abbrev ClockNeverBack (ops : List Op) : Prop :=
  (clockReadings ops).Pairwise IsoLe

/-- The clock advances from each call to the next: every reading is later than
the readings before it. -/
abbrev ClockAdvances (ops : List Op) : Prop :=
  (clockReadings ops).Pairwise IsoLt

/-- Bookkeeping for "a mutation has been applied to that situation since its
creation": the list of such ids after one more call on the store `st`.  A create
call starts its id afresh, a delete call drops the id, and an update or an
add/remove of a communication or participant records its target when the
target is stored. -/
def trackMutated (st : Store) (mutated : List String) : Op → List String
  | Op.create _ ms rnd _ _ => mutated.filter (fun id => id != generateId ms rnd)
  | Op.delete id => mutated.filter (fun x => x != id)
  | Op.update _ id _ => if (getSituation st id).isSome then id :: mutated else mutated
  | Op.addCommunication _ _ _ id _ =>
    if (getSituation st id).isSome then id :: mutated else mutated
  | Op.removeCommunication _ id _ =>
    if (getSituation st id).isSome then id :: mutated else mutated
  | Op.addParticipant _ _ _ id _ =>
    if (getSituation st id).isSome then id :: mutated else mutated
  | Op.removeParticipant _ id _ =>
    if (getSituation st id).isSome then id :: mutated else mutated

/-- The ids of the situations to which a mutation has been applied since their
creation, after the sequence of calls `ops` from the store `st`. -/
def mutatedSinceCreation (st : Store) (mutated : List String) : List Op → List String
  | [] => mutated
  | op :: ops => mutatedSinceCreation (op.apply st) (trackMutated st mutated op) ops

end Storage

/-- What holds of a store during a sequence of calls under a clock that never
runs backwards: no stored situation was updated before it was created, and none
was updated after a reading that is still to come. -/
def ClockInv (st : Store) (future : List String) : Prop :=
  (∀ s ∈ Storage.getSituations st, IsoLe s.createdAt s.updatedAt) ∧
  (∀ s ∈ Storage.getSituations st, ∀ r ∈ future, IsoLe s.updatedAt r)

/-- What holds of a store and of the list of mutated ids during a sequence of
calls under a clock that advances: the ids are pairwise distinct, no stored
situation was updated before it was created, every stored `updatedAt` is earlier
than the readings still to come, and `updatedAt` equals `createdAt` exactly for
the situations that are not in the list. -/
def AdvancingInv (st : Store) (mutated : List String) (future : List String) : Prop :=
  ((Storage.getSituations st).map (fun x => x.id)).Nodup ∧
  (∀ s ∈ Storage.getSituations st, IsoLe s.createdAt s.updatedAt) ∧
  (∀ s ∈ Storage.getSituations st, ∀ r ∈ future, IsoLt s.updatedAt r) ∧
  (∀ s ∈ Storage.getSituations st, (s.updatedAt = s.createdAt ↔ s.id ∉ mutated))

/-! ## Lemmas on lists and strings -/

theorem find_set_of_findIdx {α : Type} (p : α → Bool) (x : α) (hx : p x = true) :
    ∀ (xs : List α) (i : Nat), xs.findIdx? p = some i → (xs.set i x).find? p = some x := by
  intro xs
  induction xs with
  | nil => intro i h; simp at h
  | cons a xs ih =>
    intro i h
    rw [List.findIdx?_cons] at h
    by_cases ha : p a = true
    · simp only [ha, if_true, Option.some.injEq] at h
      subst h
      simp [hx]
    · simp only [ha, Bool.false_eq_true, if_false, zero_add] at h
      rw [List.findIdx?_succ] at h
      cases hj : xs.findIdx? p 0 with
      | none => simp [hj] at h
      | some j =>
        simp only [hj, Option.map_some', Option.some.injEq] at h
        subst h
        simp only [List.set_cons_succ]
        rw [List.find?_cons_of_neg _ ha]
        exact ih j hj

theorem lookup_filter_ne {β : Type} (id k : String) (hk : k ≠ id) :
    ∀ l : List (String × β), (l.filter (fun kv => kv.1 != id)).lookup k = l.lookup k := by
  intro l
  induction l with
  | nil => rfl
  | cons e l ih =>
    obtain ⟨a, b⟩ := e
    by_cases ha : a = id
    · subst ha
      have hka : (k == a) = false := by simpa using hk
      simp [List.filter_cons, List.lookup_cons, hka, ih]
    · have hne : (a != id) = true := by simpa using ha
      simp only [List.filter_cons, hne, if_true, List.lookup_cons, ih]

theorem lookup_filter_self {β : Type} (id : String) :
    ∀ l : List (String × β), (l.filter (fun kv => kv.1 != id)).lookup id = none := by
  intro l
  induction l with
  | nil => rfl
  | cons e l ih =>
    obtain ⟨a, b⟩ := e
    by_cases ha : a = id
    · subst ha
      simp [List.filter_cons, ih]
    · have hne : (a != id) = true := by simpa using ha
      have hia : (id == a) = false := by simpa using fun h : id = a => ha h.symm
      simp only [List.filter_cons, hne, if_true, List.lookup_cons, hia, ih]

theorem merged_getD {α : Type} (supplied : Option α) (old : α) :
    Merged supplied old (supplied.getD old) := by
  cases supplied with
  | none => exact ⟨fun v h => Option.noConfusion h, fun _ => rfl⟩
  | some a => exact ⟨fun v h => (Option.some.inj h), fun h => Option.noConfusion h⟩

theorem jsTrim_isEmpty_iff (s : String) :
    (jsTrim s).isEmpty = true ↔ ∀ c ∈ s.data, isJsWhitespace c = true := by
  have hdata : (jsTrim s).isEmpty = true ↔
      ((s.data.dropWhile isJsWhitespace).reverse.dropWhile isJsWhitespace).reverse = [] := by
    rw [String.isEmpty_iff]
    constructor
    · intro h
      have := congrArg String.data h
      simpa [jsTrim] using this
    · intro h
      simp only [jsTrim, h]
  rw [hdata, List.reverse_eq_nil_iff, List.dropWhile_eq_nil_iff]
  constructor
  · intro h
    have hall : ∀ x ∈ s.data.dropWhile isJsWhitespace, isJsWhitespace x = true := by
      intro x hx
      exact h x (List.mem_reverse.mpr hx)
    have hnil : s.data.dropWhile isJsWhitespace = [] := by
      by_contra hne
      have hhead := List.head_dropWhile_not isJsWhitespace s.data hne
      have := hall _ (List.head_mem hne)
      simp [this] at hhead
    exact List.dropWhile_eq_nil_iff.mp hnil
  · intro h x hx
    have hnil : s.data.dropWhile isJsWhitespace = [] := List.dropWhile_eq_nil_iff.mpr h
    rw [hnil] at hx
    simp at hx

theorem lookup_assign_present (k : String) (v : SituationBrief) :
    ∀ r : BriefRecord, r.any (fun kv => kv.1 == k) = true →
      (r.map (fun kv => if kv.1 == k then (kv.1, v) else kv)).lookup k = some v := by
  intro r
  induction r with
  | nil => intro h; simp at h
  | cons e r ih =>
    intro h
    obtain ⟨a, b⟩ := e
    by_cases ha : a = k
    · subst ha
      simp [List.lookup_cons]
    · have hka : (k == a) = false := by simpa using fun h : k = a => ha h.symm
      have hak : (a == k) = false := by simpa using ha
      have hrest : r.any (fun kv => kv.1 == k) = true := by
        simpa [List.any_cons, hak] using h
      simp only [List.map_cons, hak, Bool.false_eq_true, if_false, List.lookup_cons, hka]
      exact ih hrest

theorem lookup_assign_other (k k1 : String) (v : SituationBrief) (hk : k1 ≠ k) :
    ∀ r : BriefRecord,
      (r.map (fun kv => if kv.1 == k then (kv.1, v) else kv)).lookup k1 = r.lookup k1 := by
  intro r
  induction r with
  | nil => rfl
  | cons e r ih =>
    obtain ⟨a, b⟩ := e
    by_cases ha : a = k
    · subst ha
      have hka : (k1 == a) = false := by simpa using hk
      simp only [List.map_cons, beq_self_eq_true, if_true, List.lookup_cons, hka, ih]
    · have hak : (a == k) = false := by simpa using ha
      simp only [List.map_cons, hak, Bool.false_eq_true, if_false, List.lookup_cons, ih]

theorem map_fst_assign (k : String) (v : SituationBrief) (r : BriefRecord) :
    (r.map (fun kv => if kv.1 == k then (kv.1, v) else kv)).map Prod.fst = r.map Prod.fst := by
  rw [List.map_map]
  apply List.map_congr_left
  intro kv _
  by_cases h : kv.1 = k <;> simp [h]

theorem find_set_of_not {α : Type} (q : α → Bool) (x : α) (hx : q x = false) :
    ∀ (xs : List α) (i : Nat), (∀ a, xs[i]? = some a → q a = false) →
      (xs.set i x).find? q = xs.find? q := by
  intro xs
  induction xs with
  | nil => intro i _; rfl
  | cons a xs ih =>
    intro i h
    cases i with
    | zero =>
      have ha : q a = false := h a (by simp)
      simp [List.find?_cons, hx, ha]
    | succ i =>
      simp only [List.set_cons_succ, List.find?_cons]
      rw [ih i (fun b hb => h b (by simpa using hb))]

theorem digitChar_value : ∀ m : Nat, m < 10 →
    (Nat.digitChar m).toNat - 48 = m ∧ Nat.digitChar m ≠ '-' := by
  decide

theorem toDigitsCore_spec :
    ∀ (fuel n : Nat) (ds : List Char), n < fuel →
      ∃ pre : List Char, Nat.toDigitsCore 10 fuel n ds = pre ++ ds ∧
        valueOfDigits pre.reverse = n ∧ ∀ ch ∈ pre, ch ≠ '-' := by
  intro fuel
  induction fuel with
  | zero => intro n ds h; omega
  | succ fuel ih =>
    intro n ds h
    have hd := digitChar_value (n % 10) (Nat.mod_lt n (by decide))
    by_cases hq : n / 10 = 0
    · refine ⟨[Nat.digitChar (n % 10)], ?_, ?_, ?_⟩
      · simp [Nat.toDigitsCore, hq]
      · simp only [List.reverse_cons, List.reverse_nil, List.nil_append, valueOfDigits, hd.1]
        omega
      · intro ch hch
        rw [List.mem_singleton] at hch
        rw [hch]
        exact hd.2
    · have hlt : n / 10 < fuel := by omega
      obtain ⟨pre, hpre, hval, hno⟩ := ih (n / 10) (Nat.digitChar (n % 10) :: ds) hlt
      refine ⟨pre ++ [Nat.digitChar (n % 10)], ?_, ?_, ?_⟩
      · simp [Nat.toDigitsCore, hq, hpre]
      · simp only [List.reverse_append, List.reverse_cons, List.reverse_nil, List.nil_append,
          List.singleton_append, valueOfDigits, hd.1, hval]
        omega
      · intro ch hch
        rcases List.mem_append.mp hch with h1 | h2
        · exact hno ch h1
        · rw [List.mem_singleton] at h2
          rw [h2]
          exact hd.2

theorem toString_nat_spec (n : Nat) :
    valueOfDigits (toString n).data.reverse = n ∧ ∀ ch ∈ (toString n).data, ch ≠ '-' := by
  obtain ⟨pre, hpre, hval, hno⟩ := toDigitsCore_spec (n + 1) n [] (Nat.lt_succ_self n)
  have hdata : (toString n).data = pre := by
    show (Nat.repr n).data = pre
    simp [Nat.repr, Nat.toDigits, hpre, List.asString]
  rw [hdata]
  exact ⟨hval, hno⟩

theorem append_hyphen_cancel :
    ∀ (p q s t : List Char), (∀ ch ∈ p, ch ≠ '-') → (∀ ch ∈ q, ch ≠ '-') →
      p ++ '-' :: s = q ++ '-' :: t → p = q ∧ s = t := by
  intro p
  induction p with
  | nil =>
    intro q s t _ hq h
    cases q with
    | nil => exact ⟨rfl, by simpa using h⟩
    | cons b q =>
      simp only [List.nil_append, List.cons_append, List.cons.injEq] at h
      exact absurd h.1.symm (hq b (List.mem_cons_self b q))
  | cons a p ih =>
    intro q s t hp hq h
    cases q with
    | nil =>
      simp only [List.nil_append, List.cons_append, List.cons.injEq] at h
      exact absurd h.1 (hp a (List.mem_cons_self a p))
    | cons b q =>
      simp only [List.cons_append, List.cons.injEq] at h
      obtain ⟨hpq, hst⟩ := ih q s t (fun ch hch => hp ch (List.mem_cons_of_mem a hch))
        (fun ch hch => hq ch (List.mem_cons_of_mem b hch)) h.2
      exact ⟨by rw [h.1, hpq], hst⟩

theorem jsTrim_longText : jsTrim longText = longText := by
  have hrev : (List.replicate 5001 'a').reverse = List.replicate 5001 'a' :=
    List.reverse_replicate _ _
  have hdrop : (List.replicate 5001 'a').dropWhile isJsWhitespace = List.replicate 5001 'a' := by
    rw [show (5001 : Nat) = 5000 + 1 from rfl, List.replicate_succ, List.dropWhile_cons]
    rfl
  show String.mk _ = String.mk _
  simp only [longText, hdrop, hrev]

theorem length_longText : longText.length = 5001 := by
  show (List.replicate 5001 'a').length = 5001
  exact List.length_replicate _ _

theorem longText_isEmpty : longText.isEmpty = false := by
  rw [Bool.eq_false_iff]
  intro h
  have := (String.isEmpty_iff longText).mp h
  have hlen := length_longText
  rw [this] at hlen
  cases hlen

theorem length_jsSliceFrom0 (text : String) (n : Nat) : (jsSliceFrom0 text n).length ≤ n := by
  unfold jsSliceFrom0
  rw [String.take_eq]
  show (List.take n text.data).length ≤ n
  rw [List.length_take]
  exact Nat.min_le_left _ _

theorem captureCurrentThread_content_le (emailBody subjectHeading subjectFallback : Option String)
    (elements : List Gmail.HoverCard) (urlThreadId : Option String) (href : String) (ms : Nat)
    (now : String) :
    (Gmail.captureCurrentThread emailBody subjectHeading subjectFallback elements urlThreadId
      href ms now).content.length ≤ 5000 := by
  have hcontent : (Gmail.captureCurrentThread emailBody subjectHeading subjectFallback elements
      urlThreadId href ms now).content = jsSliceFrom0 (trimmedOrEmpty emailBody) 5000 := by
    simp only [Gmail.captureCurrentThread]
  rw [hcontent]
  exact length_jsSliceFrom0 _ _

namespace Storage

/-! ## Lemmas on the storage functions -/

theorem getSituation_id {st : Store} {id : String} {sit : Situation}
    (h : getSituation st id = some sit) : sit.id = id := by
  have := List.find?_some h
  simpa using this

theorem saveSituation_of_index (st : Store) (x : Situation) (i : Nat)
    (h : (getSituations st).findIdx? (fun s => s.id == x.id) = some i) :
    saveSituation st x = { st with situations := some ((getSituations st).set i x) } := by
  simp only [saveSituation, h]

theorem saveSituation_of_no_index (st : Store) (x : Situation)
    (h : (getSituations st).findIdx? (fun s => s.id == x.id) = none) :
    saveSituation st x = { st with situations := some (x :: getSituations st) } := by
  simp only [saveSituation, h]

theorem getSituation_saveSituation (st : Store) (x : Situation) :
    getSituation (saveSituation st x) x.id = some x := by
  cases hidx : (getSituations st).findIdx? (fun s => s.id == x.id) with
  | none =>
    rw [saveSituation_of_no_index st x hidx]
    simp [getSituation, getSituations]
  | some i =>
    rw [saveSituation_of_index st x i hidx]
    simp only [getSituation, getSituations, Option.getD_some]
    exact find_set_of_findIdx (fun s => s.id == x.id) x (by simp) _ i hidx

theorem saveSituation_of_absent (st : Store) (x : Situation)
    (h : getSituation st x.id = none) :
    saveSituation st x = { st with situations := some (x :: getSituations st) } := by
  apply saveSituation_of_no_index
  rw [List.findIdx?_eq_none_iff]
  intro a ha
  have := List.find?_eq_none.mp h a ha
  simpa using this

theorem deleteSituation_eq (st : Store) (id : String) :
    deleteSituation st id =
      { situations := some ((getSituations st).filter (fun s => s.id != id))
        briefs := some ((getBriefs st).filter (fun kv => kv.1 != id))
        settings := st.settings } := rfl

theorem getSituation_saveSituation_of_id (st : Store) (x : Situation) (s : String)
    (h : x.id = s) : getSituation (saveSituation st x) s = some x := by
  subst h
  exact getSituation_saveSituation st x

theorem addCommunication_of_stored {st : Store} {s : String} {sit : Situation}
    (h : getSituation st s = some sit) (now : String) (ms : Nat) (rnd : String)
    (c : CommunicationInput) :
    addCommunication st now ms rnd s c =
      (some (newCommunication c (generateId ms rnd) s),
        saveSituation st
          { sit with
            communications := sit.communications ++ [newCommunication c (generateId ms rnd) s]
            updatedAt := now }) := by
  simp only [addCommunication, h]

theorem removeCommunication_of_stored {st : Store} {s : String} {sit : Situation}
    (h : getSituation st s = some sit) (now : String) (communicationId : String) :
    removeCommunication st now s communicationId =
      saveSituation st
        { sit with
          communications := sit.communications.filter (fun c => c.id != communicationId)
          updatedAt := now } := by
  simp only [removeCommunication, h]

theorem addParticipant_of_stored {st : Store} {s : String} {sit : Situation}
    (h : getSituation st s = some sit) (now : String) (ms : Nat) (rnd : String)
    (p : ParticipantInput) :
    addParticipant st now ms rnd s p =
      (some (newParticipant p (generateId ms rnd)),
        saveSituation st
          { sit with
            participants := sit.participants ++ [newParticipant p (generateId ms rnd)]
            updatedAt := now }) := by
  simp only [addParticipant, h]

theorem removeParticipant_of_stored {st : Store} {s : String} {sit : Situation}
    (h : getSituation st s = some sit) (now : String) (participantId : String) :
    removeParticipant st now s participantId =
      saveSituation st
        { sit with
          participants := sit.participants.filter (fun p => p.id != participantId)
          updatedAt := now } := by
  simp only [removeParticipant, h]

theorem updateSituation_of_stored {st : Store} {s : String} {sit : Situation}
    (h : getSituation st s = some sit) (now : String) (u : SituationUpdates) :
    updateSituation st now s u =
      (some { spreadUpdates sit u with updatedAt := now },
        saveSituation st { spreadUpdates sit u with updatedAt := now }) := by
  simp only [updateSituation, h]

theorem lookup_eq_none_of_not_any {r : BriefRecord} {k : String}
    (h : ¬ r.any (fun kv => kv.1 == k) = true) : r.lookup k = none := by
  rw [List.lookup_eq_none_iff]
  intro kv hkv
  have hall := h
  simp only [List.any_eq_true, not_exists, not_and] at hall
  have := hall kv hkv
  simp only [bne_iff_ne, ne_eq]
  intro hk
  exact this (by simp [hk])

theorem perm_insertIndexEntry (n : Nat) (entry : String × SituationBrief) :
    ∀ r : BriefRecord, (insertIndexEntry n entry r).Perm (entry :: r) := by
  intro r
  induction r with
  | nil => exact List.Perm.refl _
  | cons e r ih =>
    unfold insertIndexEntry
    cases arrayIndex e.1 with
    | none => exact List.Perm.refl _
    | some m =>
      by_cases hm : m < n
      · simp only [hm, if_true]
        exact (List.Perm.cons e ih).trans (List.Perm.swap entry e r)
      · simp only [hm, if_false]
        exact List.Perm.refl _

theorem lookup_insertIndexEntry_self (n : Nat) (k : String) (v : SituationBrief) :
    ∀ r : BriefRecord, r.lookup k = none → (insertIndexEntry n (k, v) r).lookup k = some v := by
  intro r
  induction r with
  | nil => intro _; simp [insertIndexEntry]
  | cons e r ih =>
    intro h
    obtain ⟨a, b⟩ := e
    have hka : (k == a) = false := by
      cases hc : (k == a) with
      | false => rfl
      | true => simp [List.lookup_cons, hc] at h
    have hrest : r.lookup k = none := by
      simpa [List.lookup_cons, hka] using h
    unfold insertIndexEntry
    cases arrayIndex a with
    | none => simp
    | some m =>
      by_cases hm : m < n
      · simp only [hm, if_true, List.lookup_cons, hka]
        exact ih hrest
      · simp [hm]

theorem lookup_insertIndexEntry_other (n : Nat) (k k1 : String) (v : SituationBrief)
    (hk : k1 ≠ k) :
    ∀ r : BriefRecord, (insertIndexEntry n (k, v) r).lookup k1 = r.lookup k1 := by
  have hkk : (k1 == k) = false := by simpa using hk
  intro r
  induction r with
  | nil => simp [insertIndexEntry, List.lookup_cons, hkk]
  | cons e r ih =>
    obtain ⟨a, b⟩ := e
    unfold insertIndexEntry
    cases arrayIndex a with
    | none => simp only [List.lookup_cons, hkk]
    | some m =>
      by_cases hm : m < n
      · simp only [hm, if_true, List.lookup_cons, ih]
      · simp only [hm, if_false, List.lookup_cons, hkk]

theorem lookup_assignBrief_self (r : BriefRecord) (k : String) (v : SituationBrief)
    (hkey : k ≠ "__proto__") : (assignBrief r k v).lookup k = some v := by
  unfold assignBrief
  by_cases h : r.any (fun kv => kv.1 == k) = true
  · rw [if_pos h]
    exact lookup_assign_present k v r h
  · rw [if_neg h]
    have hproto : (k == "__proto__") = false := by simpa using hkey
    have hnone : r.lookup k = none := lookup_eq_none_of_not_any h
    simp only [hproto, Bool.false_eq_true, if_false]
    cases arrayIndex k with
    | none => simp [List.lookup_append, hnone]
    | some n => exact lookup_insertIndexEntry_self n k v r hnone

theorem lookup_assignBrief_other (r : BriefRecord) (k k1 : String) (v : SituationBrief)
    (hk : k1 ≠ k) : (assignBrief r k v).lookup k1 = r.lookup k1 := by
  unfold assignBrief
  by_cases h : r.any (fun kv => kv.1 == k) = true
  · rw [if_pos h]
    exact lookup_assign_other k k1 v hk r
  · rw [if_neg h]
    have hkk : (k1 == k) = false := by simpa using hk
    by_cases hproto : (k == "__proto__") = true
    · rw [if_pos hproto]
    · rw [if_neg hproto]
      cases arrayIndex k with
      | none => simp [List.lookup_append, List.lookup_cons, hkk]
      | some n => exact lookup_insertIndexEntry_other n k k1 v hk r

theorem nodup_keys_assignBrief (r : BriefRecord) (k : String) (v : SituationBrief)
    (hr : (r.map Prod.fst).Nodup) : ((assignBrief r k v).map Prod.fst).Nodup := by
  unfold assignBrief
  by_cases h : r.any (fun kv => kv.1 == k) = true
  · rw [if_pos h, map_fst_assign]
    exact hr
  · rw [if_neg h]
    have hnew : k ∉ r.map Prod.fst := by
      intro ha
      apply h
      obtain ⟨kv, hkv, hfst⟩ := List.mem_map.mp ha
      exact List.any_eq_true.mpr ⟨kv, hkv, by simp [hfst]⟩
    by_cases hproto : (k == "__proto__") = true
    · rw [if_pos hproto]
      exact hr
    · rw [if_neg hproto]
      cases arrayIndex k with
      | none =>
        simp only [List.map_append, List.map_cons, List.map_nil]
        rw [List.nodup_append]
        refine ⟨hr, List.nodup_singleton k, ?_⟩
        intro a ha hb
        rw [List.mem_singleton] at hb
        rw [hb] at ha
        exact hnew ha
      | some n =>
        have hperm := (perm_insertIndexEntry n (k, v) r).map Prod.fst
        rw [hperm.nodup_iff]
        simp only [List.map_cons, List.nodup_cons]
        exact ⟨hnew, hr⟩

theorem value_of_mem_assignBrief (r : BriefRecord) (k : String) (v : SituationBrief) :
    ∀ kv ∈ assignBrief r k v, kv.1 = k → kv.2 = v := by
  intro kv hkv hk
  unfold assignBrief at hkv
  by_cases h : r.any (fun kv => kv.1 == k) = true
  · rw [if_pos h] at hkv
    obtain ⟨e, he, rfl⟩ := List.mem_map.mp hkv
    by_cases hek : e.1 = k
    · simp [hek]
    · simp only [beq_iff_eq, hek, if_false] at hk
  · rw [if_neg h] at hkv
    have hold : kv ∉ r := by
      intro hmem
      apply h
      exact List.any_eq_true.mpr ⟨kv, hmem, by simp [hk]⟩
    by_cases hproto : (k == "__proto__") = true
    · rw [if_pos hproto] at hkv
      exact absurd hkv hold
    · rw [if_neg hproto] at hkv
      cases hidx : arrayIndex k with
      | none =>
        rw [hidx] at hkv
        rcases List.mem_append.mp hkv with hmem | hlast
        · exact absurd hmem hold
        · rw [List.mem_singleton] at hlast
          rw [hlast]
      | some n =>
        rw [hidx] at hkv
        have hmem := (perm_insertIndexEntry n (k, v) r).mem_iff.mp hkv
        rcases List.mem_cons.mp hmem with hfirst | hrest
        · rw [hfirst]
        · exact absurd hrest hold

theorem getBrief_congr {st st1 : Store} {k : String}
    (h : (getBriefs st1).lookup k = (getBriefs st).lookup k) : getBrief st1 k = getBrief st k := by
  simp only [getBrief, h]

theorem getBrief_of_lookup_some {st : Store} {k : String} {b : SituationBrief}
    (h : (getBriefs st).lookup k = some b) : getBrief st k = PropertyValue.own b := by
  simp only [getBrief, h]

theorem getBrief_of_lookup_none {st : Store} {k : String}
    (h : (getBriefs st).lookup k = none) (hk : objectPrototypeNames.contains k = false) :
    getBrief st k = PropertyValue.undefined := by
  simp only [getBrief, h, hk, Bool.false_eq_true, if_false]

theorem spreadStored_toStored (x : ExtensionSettings) :
    spreadStored defaultSettings (toStored x) = x := by
  cases x with
  | mk e m c key t a s g =>
    cases key <;> rfl

theorem getSituation_mem {st : Store} {id : String} {sit : Situation}
    (h : getSituation st id = some sit) : sit ∈ getSituations st :=
  List.mem_of_find?_eq_some h

theorem mem_saveSituation {st : Store} {x y : Situation}
    (h : y ∈ getSituations (saveSituation st x)) : y = x ∨ y ∈ getSituations st := by
  cases hidx : (getSituations st).findIdx? (fun s => s.id == x.id) with
  | none =>
    rw [saveSituation_of_no_index st x hidx] at h
    simpa [getSituations] using h
  | some i =>
    rw [saveSituation_of_index st x i hidx] at h
    simp only [getSituations, Option.getD_some] at h
    rcases List.mem_or_eq_of_mem_set h with hmem | heq
    · exact Or.inr hmem
    · exact Or.inl heq

/-- The back-reference invariant as a proposition. -/
theorem communicationsBelong_iff (st : Store) :
    communicationsBelong st = true ↔
      ∀ s ∈ getSituations st, ∀ c ∈ s.communications, c.situationId = s.id := by
  simp [communicationsBelong, List.all_eq_true]

theorem belong_saveSituation {st : Store} {x : Situation}
    (hst : ∀ s ∈ getSituations st, ∀ c ∈ s.communications, c.situationId = s.id)
    (hx : ∀ c ∈ x.communications, c.situationId = x.id) :
    ∀ s ∈ getSituations (saveSituation st x), ∀ c ∈ s.communications, c.situationId = s.id := by
  intro s hs
  rcases mem_saveSituation hs with heq | hmem
  · subst heq
    exact hx
  · exact hst s hmem

theorem belong_apply (st : Store) (op : Op)
    (hst : ∀ s ∈ getSituations st, ∀ c ∈ s.communications, c.situationId = s.id)
    (hop : op.keepsBackReferences = true) :
    ∀ s ∈ getSituations (op.apply st), ∀ c ∈ s.communications, c.situationId = s.id := by
  cases op with
  | create now ms rnd title description =>
    apply belong_saveSituation hst
    intro c hc
    simp at hc
  | update now id updates =>
    show ∀ s ∈ getSituations (updateSituation st now id updates).2, _
    cases hget : getSituation st id with
    | none =>
      simp only [updateSituation, hget]
      exact hst
    | some sit =>
      rw [updateSituation_of_stored hget]
      apply belong_saveSituation hst
      have hid : sit.id = id := getSituation_id hget
      intro c hc
      show c.situationId = sit.id
      cases hsup : updates.communications with
      | none =>
        have hc1 : c ∈ sit.communications := by
          simpa [spreadUpdates, hsup] using hc
        exact hst sit (getSituation_mem hget) c hc1
      | some supplied =>
        have hc1 : c ∈ supplied := by
          simpa [spreadUpdates, hsup] using hc
        have hall : supplied.all (fun c => c.situationId == id) = true := by
          simpa [Op.keepsBackReferences, hsup] using hop
        have := List.all_eq_true.mp hall c hc1
        rw [hid]
        simpa using this
  | delete id =>
    show ∀ s ∈ getSituations (deleteSituation st id), _
    rw [deleteSituation_eq]
    intro s hs
    have hmem : s ∈ getSituations st := by
      simp only [getSituations, Option.getD_some] at hs
      exact List.mem_of_mem_filter hs
    exact hst s hmem
  | addCommunication now ms rnd situationId communication =>
    show ∀ s ∈ getSituations (addCommunication st now ms rnd situationId communication).2, _
    cases hget : getSituation st situationId with
    | none =>
      simp only [addCommunication, hget]
      exact hst
    | some sit =>
      rw [addCommunication_of_stored hget]
      apply belong_saveSituation hst
      have hid : sit.id = situationId := getSituation_id hget
      intro c hc
      show c.situationId = sit.id
      rcases List.mem_append.mp hc with hold | hnew
      · exact hst sit (getSituation_mem hget) c hold
      · simp only [List.mem_singleton] at hnew
        rw [hnew, hid]
        rfl
  | removeCommunication now situationId communicationId =>
    show ∀ s ∈ getSituations (removeCommunication st now situationId communicationId), _
    cases hget : getSituation st situationId with
    | none =>
      simp only [removeCommunication, hget]
      exact hst
    | some sit =>
      rw [removeCommunication_of_stored hget]
      apply belong_saveSituation hst
      intro c hc
      exact hst sit (getSituation_mem hget) c (List.mem_of_mem_filter hc)
  | addParticipant now ms rnd situationId participant =>
    show ∀ s ∈ getSituations (addParticipant st now ms rnd situationId participant).2, _
    cases hget : getSituation st situationId with
    | none =>
      simp only [addParticipant, hget]
      exact hst
    | some sit =>
      rw [addParticipant_of_stored hget]
      apply belong_saveSituation hst
      intro c hc
      exact hst sit (getSituation_mem hget) c hc
  | removeParticipant now situationId participantId =>
    show ∀ s ∈ getSituations (removeParticipant st now situationId participantId), _
    cases hget : getSituation st situationId with
    | none =>
      simp only [removeParticipant, hget]
      exact hst
    | some sit =>
      rw [removeParticipant_of_stored hget]
      apply belong_saveSituation hst
      intro c hc
      exact hst sit (getSituation_mem hget) c hc

theorem belong_run (ops : List Op) :
    ∀ st : Store,
      (∀ s ∈ getSituations st, ∀ c ∈ s.communications, c.situationId = s.id) →
      (∀ op ∈ ops, op.keepsBackReferences = true) →
      ∀ s ∈ getSituations (run st ops), ∀ c ∈ s.communications, c.situationId = s.id := by
  induction ops with
  | nil => intro st hst _; exact hst
  | cons op ops ih =>
    intro st hst hops
    show ∀ s ∈ getSituations (run (op.apply st) ops), _
    apply ih
    · exact belong_apply st op hst (hops op (List.mem_cons_self op ops))
    · intro o ho
      exact hops o (List.mem_cons_of_mem op ho)

theorem stored_index {st : Store} {s : String} {sit : Situation}
    (h : getSituation st s = some sit) :
    ∃ i : Nat, (getSituations st).findIdx? (fun y => y.id == s) = some i ∧
      ∃ old : Situation, (getSituations st)[i]? = some old ∧ old.id = s := by
  have hmem : sit ∈ getSituations st := List.mem_of_find?_eq_some h
  have hid : sit.id = s := by simpa using List.find?_some h
  have hsome : ((getSituations st).findIdx? (fun y => y.id == s)).isSome = true := by
    rw [List.findIdx?_isSome]
    exact List.any_eq_true.mpr ⟨sit, hmem, by simp [hid]⟩
  obtain ⟨i, hi⟩ := Option.isSome_iff_exists.mp hsome
  obtain ⟨hlt, hp, _⟩ := List.findIdx?_eq_some_iff_getElem.mp hi
  exact ⟨i, hi, (getSituations st)[i], List.getElem?_eq_getElem hlt, by simpa using hp⟩

theorem saveSituation_sameIds {st : Store} {x sit : Situation}
    (h : getSituation st x.id = some sit) : SameIds st (saveSituation st x) := by
  obtain ⟨i, hi, old, hold, hid⟩ := stored_index h
  rw [saveSituation_of_index st x i hi]
  constructor
  · simp [getSituations]
  · simp only [getSituations, Option.getD_some, List.map_set]
    apply List.ext_getElem?
    intro j
    rw [List.getElem?_set]
    by_cases hij : i = j
    · subst hij
      have hlt : i < (st.situations.getD []).length := by
        by_contra hge
        have : (st.situations.getD [])[i]? = none := List.getElem?_eq_none (by omega)
        simp [getSituations] at hold
        rw [this] at hold
        cases hold
      simp only [if_true, List.length_map, hlt, List.getElem?_map]
      simp only [getSituations] at hold
      rw [hold]
      simp [hid]
    · simp [hij]

theorem saveSituation_others {st : Store} {x sit : Situation}
    (h : getSituation st x.id = some sit) : OthersUnchanged st (saveSituation st x) x.id := by
  obtain ⟨i, hidx, old, hold, hid⟩ := stored_index h
  rw [saveSituation_of_index st x i hidx]
  simp only [getSituations] at hold
  refine ⟨?_, ?_, rfl, rfl⟩
  · intro j y hy hne
    simp only [getSituations, Option.getD_some] at hy ⊢
    rw [List.getElem?_set]
    by_cases hij : i = j
    · subst hij
      rw [hold] at hy
      cases hy
      exact absurd hid hne
    · simpa [hij] using hy
  · intro t ht
    simp only [getSituation, getSituations, Option.getD_some]
    apply find_set_of_not
    · simpa using fun h : x.id = t => ht h.symm
    · intro a ha
      rw [hold] at ha
      cases ha
      simpa [hid] using fun h : x.id = t => ht h.symm

theorem absent_id_unchanged_aux (st : Store) (now : String) (ms : Nat) (rnd : String)
    (id : String) (updates : SituationUpdates) (c : CommunicationInput)
    (p : ParticipantInput) (communicationId participantId : String)
    (habsent : getSituation st id = none) :
    (updateSituation st now id updates).2 = st ∧
    (addCommunication st now ms rnd id c).2 = st ∧
    removeCommunication st now id communicationId = st ∧
    (addParticipant st now ms rnd id p).2 = st ∧
    removeParticipant st now id participantId = st := by
  refine ⟨?_, ?_, ?_, ?_, ?_⟩
  · simp only [updateSituation, habsent]
  · simp only [addCommunication, habsent]
  · simp only [removeCommunication, habsent]
  · simp only [addParticipant, habsent]
  · simp only [removeParticipant, habsent]

theorem othersUnchanged_refl (st : Store) (s : String) : OthersUnchanged st st s :=
  ⟨fun _ _ hy _ => hy, fun _ _ => rfl, rfl, rfl⟩

theorem sameIds_refl (st : Store) : SameIds st st := ⟨rfl, rfl⟩

theorem generateId_data (ms : Nat) (rnd : String) :
    (generateId ms rnd).data = (toString ms).data ++ '-' :: ((rnd.drop 2).take 9).data := by
  simp [generateId, String.data_append]

theorem generateId_not_prototype_name (ms : Nat) (rnd : String) :
    objectPrototypeNames.contains (generateId ms rnd) = false := by
  have hnames : ∀ name ∈ objectPrototypeNames, '-' ∉ name.data := by decide
  have hmem : '-' ∈ (generateId ms rnd).data := by
    rw [generateId_data]
    simp
  cases hc : objectPrototypeNames.contains (generateId ms rnd) with
  | false => rfl
  | true =>
    have hin : generateId ms rnd ∈ objectPrototypeNames := by
      simpa using hc
    exact absurd hmem (hnames _ hin)

theorem generateId_eq_iff (ms1 ms2 : Nat) (rnd1 rnd2 : String) :
    generateId ms1 rnd1 = generateId ms2 rnd2 ↔
      ms1 = ms2 ∧ (rnd1.drop 2).take 9 = (rnd2.drop 2).take 9 := by
  constructor
  · intro h
    have hdata := congrArg String.data h
    rw [generateId_data, generateId_data] at hdata
    obtain ⟨hp, hs⟩ := append_hyphen_cancel _ _ _ _ (toString_nat_spec ms1).2
      (toString_nat_spec ms2).2 hdata
    constructor
    · have h1 := (toString_nat_spec ms1).1
      have h2 := (toString_nat_spec ms2).1
      rw [hp] at h1
      exact h1.symm.trans h2
    · exact String.ext hs
  · rintro ⟨hms, hs⟩
    simp only [generateId, hms, hs]

theorem suffix_length (rnd : String) : ((rnd.drop 2).take 9).length ≤ 9 := by
  rw [String.take_eq]
  show (List.take 9 (rnd.drop 2).data).length ≤ 9
  rw [List.length_take]
  exact Nat.min_le_left _ _

theorem apply_shape (st : Store) (m : List String) (op : Op) :
    (op.apply st = st ∧ trackMutated st m op = m) ∨
    (∃ (now : String) (sit x : Situation), op.reading = some now ∧
      getSituation st x.id = some sit ∧ x.createdAt = sit.createdAt ∧ x.updatedAt = now ∧
      op.apply st = saveSituation st x ∧ trackMutated st m op = x.id :: m) ∨
    (∃ (now : String) (x : Situation), op.reading = some now ∧
      x.createdAt = now ∧ x.updatedAt = now ∧
      op.apply st = saveSituation st x ∧
      trackMutated st m op = m.filter (fun id => id != x.id)) ∨
    (∃ id : String, op.reading = none ∧ op.apply st = deleteSituation st id ∧
      trackMutated st m op = m.filter (fun x => x != id)) := by
  cases op with
  | create now ms rnd title description =>
    exact Or.inr (Or.inr (Or.inl ⟨now, (createSituation st now ms rnd title description).1,
      rfl, rfl, rfl, rfl, rfl⟩))
  | delete id => exact Or.inr (Or.inr (Or.inr ⟨id, rfl, rfl, rfl⟩))
  | update now id updates =>
    cases hget : getSituation st id with
    | none =>
      refine Or.inl ⟨?_, ?_⟩
      · simp only [Op.apply, updateSituation, hget]
      · simp [trackMutated, hget]
    | some sit =>
      have hid : sit.id = id := getSituation_id hget
      subst hid
      refine Or.inr (Or.inl ⟨now, sit, { spreadUpdates sit updates with updatedAt := now },
        rfl, hget, rfl, rfl, ?_, ?_⟩)
      · simp only [Op.apply, updateSituation_of_stored hget]
      · simp [trackMutated, hget, spreadUpdates]
  | addCommunication now ms rnd id c =>
    cases hget : getSituation st id with
    | none =>
      refine Or.inl ⟨?_, ?_⟩
      · simp only [Op.apply, addCommunication, hget]
      · simp [trackMutated, hget]
    | some sit =>
      have hid : sit.id = id := getSituation_id hget
      subst hid
      refine Or.inr (Or.inl ⟨now, sit,
        { sit with
          communications :=
            sit.communications ++ [newCommunication c (generateId ms rnd) sit.id]
          updatedAt := now }, rfl, hget, rfl, rfl, ?_, ?_⟩)
      · simp only [Op.apply, addCommunication_of_stored hget]
      · simp [trackMutated, hget]
  | removeCommunication now id cid =>
    cases hget : getSituation st id with
    | none =>
      refine Or.inl ⟨?_, ?_⟩
      · simp only [Op.apply, removeCommunication, hget]
      · simp [trackMutated, hget]
    | some sit =>
      have hid : sit.id = id := getSituation_id hget
      subst hid
      refine Or.inr (Or.inl ⟨now, sit,
        { sit with
          communications := sit.communications.filter (fun x => x.id != cid)
          updatedAt := now }, rfl, hget, rfl, rfl, ?_, ?_⟩)
      · simp only [Op.apply, removeCommunication_of_stored hget]
      · simp [trackMutated, hget]
  | addParticipant now ms rnd id p =>
    cases hget : getSituation st id with
    | none =>
      refine Or.inl ⟨?_, ?_⟩
      · simp only [Op.apply, addParticipant, hget]
      · simp [trackMutated, hget]
    | some sit =>
      have hid : sit.id = id := getSituation_id hget
      subst hid
      refine Or.inr (Or.inl ⟨now, sit,
        { sit with
          participants := sit.participants ++ [newParticipant p (generateId ms rnd)]
          updatedAt := now }, rfl, hget, rfl, rfl, ?_, ?_⟩)
      · simp only [Op.apply, addParticipant_of_stored hget]
      · simp [trackMutated, hget]
  | removeParticipant now id pid =>
    cases hget : getSituation st id with
    | none =>
      refine Or.inl ⟨?_, ?_⟩
      · simp only [Op.apply, removeParticipant, hget]
      · simp [trackMutated, hget]
    | some sit =>
      have hid : sit.id = id := getSituation_id hget
      subst hid
      refine Or.inr (Or.inl ⟨now, sit,
        { sit with
          participants := sit.participants.filter (fun x => x.id != pid)
          updatedAt := now }, rfl, hget, rfl, rfl, ?_, ?_⟩)
      · simp only [Op.apply, removeParticipant_of_stored hget]
      · simp [trackMutated, hget]

theorem clockReadings_cons_some {op : Op} {now : String} (ops : List Op)
    (h : op.reading = some now) : clockReadings (op :: ops) = now :: clockReadings ops := by
  simp [clockReadings, List.filterMap_cons, h]

theorem clockReadings_cons_none {op : Op} (ops : List Op)
    (h : op.reading = none) : clockReadings (op :: ops) = clockReadings ops := by
  simp [clockReadings, List.filterMap_cons, h]

theorem mem_clockReadings_cons {op : Op} {ops : List Op} {r : String}
    (h : r ∈ clockReadings ops) : r ∈ clockReadings (op :: ops) := by
  cases hr : op.reading with
  | none => rw [clockReadings_cons_none ops hr]; exact h
  | some now => rw [clockReadings_cons_some ops hr]; exact List.mem_cons_of_mem _ h

theorem mem_deleteSituation {st : Store} {id : String} {y : Situation}
    (h : y ∈ getSituations (deleteSituation st id)) : y ∈ getSituations st ∧ y.id ≠ id := by
  rw [deleteSituation_eq] at h
  simp only [getSituations, Option.getD_some, List.mem_filter] at h
  exact ⟨h.1, by simpa using h.2⟩

theorem self_mem_saveSituation (st : Store) (x : Situation) :
    x ∈ getSituations (saveSituation st x) :=
  getSituation_mem (getSituation_saveSituation st x)

theorem nodup_saveSituation {st : Store} (x : Situation)
    (h : ((getSituations st).map (fun y => y.id)).Nodup) :
    ((getSituations (saveSituation st x)).map (fun y => y.id)).Nodup := by
  cases hget : getSituation st x.id with
  | none =>
    rw [saveSituation_of_absent st x hget]
    simp only [getSituations, Option.getD_some, List.map_cons, List.nodup_cons]
    refine ⟨?_, h⟩
    intro hmem
    obtain ⟨y, hy, hyid⟩ := List.mem_map.mp hmem
    have := List.find?_eq_none.mp hget y hy
    simp [hyid] at this
  | some sit =>
    rw [(saveSituation_sameIds hget).2]
    exact h

theorem nodup_deleteSituation {st : Store} (id : String)
    (h : ((getSituations st).map (fun y => y.id)).Nodup) :
    ((getSituations (deleteSituation st id)).map (fun y => y.id)).Nodup := by
  rw [deleteSituation_eq]
  exact h.sublist ((List.filter_sublist _).map _)

theorem clockInv_step (st : Store) (op : Op) (ops : List Op)
    (hinv : ClockInv st (clockReadings (op :: ops)))
    (hclock : ClockNeverBack (op :: ops)) :
    ClockInv (op.apply st) (clockReadings ops) ∧ ClockNeverBack ops := by
  obtain ⟨hle, hbound⟩ := hinv
  have hold : ∀ s ∈ getSituations st, ∀ r ∈ clockReadings ops, IsoLe s.updatedAt r :=
    fun s hs r hr => hbound s hs r (mem_clockReadings_cons hr)
  have hsave : ∀ (now : String) (x : Situation), op.reading = some now →
      IsoLe x.createdAt now → x.updatedAt = now →
      ClockInv (saveSituation st x) (clockReadings ops) ∧ ClockNeverBack ops := by
    intro now x hr hcreated hupdated
    have hpair : (now :: clockReadings ops).Pairwise IsoLe := by
      have := hclock
      simp only [ClockNeverBack, clockReadings_cons_some ops hr] at this
      exact this
    rw [List.pairwise_cons] at hpair
    refine ⟨⟨?_, ?_⟩, hpair.2⟩
    · intro y hy
      rcases mem_saveSituation hy with heq | hmem
      · rw [heq, hupdated]
        exact hcreated
      · exact hle y hmem
    · intro y hy r hr1
      rcases mem_saveSituation hy with heq | hmem
      · rw [heq, hupdated]
        exact hpair.1 r hr1
      · exact hold y hmem r hr1
  have htail : ClockNeverBack ops := by
    cases hr : op.reading with
    | none =>
      have := hclock
      simp only [ClockNeverBack, clockReadings_cons_none ops hr] at this
      exact this
    | some now =>
      have := hclock
      simp only [ClockNeverBack, clockReadings_cons_some ops hr] at this
      exact (List.pairwise_cons.mp this).2
  rcases apply_shape st [] op with h | ⟨now, sit, x, hr, hget, hc, hu, happ, _⟩ |
      ⟨now, x, hr, hc, hu, happ, _⟩ | ⟨id, _, happ, _⟩
  · rw [h.1]
    exact ⟨⟨hle, hold⟩, htail⟩
  · rw [happ]
    apply hsave now x hr _ hu
    have hsit : sit ∈ getSituations st := getSituation_mem hget
    have hnow : now ∈ clockReadings (op :: ops) := by
      rw [clockReadings_cons_some ops hr]
      exact List.mem_cons_self _ _
    rw [hc]
    exact le_trans (hle sit hsit) (hbound sit hsit now hnow)
  · rw [happ]
    apply hsave now x hr _ hu
    rw [hc]
  · rw [happ]
    refine ⟨⟨?_, ?_⟩, htail⟩
    · intro y hy
      exact hle y (mem_deleteSituation hy).1
    · intro y hy r hr1
      exact hold y (mem_deleteSituation hy).1 r hr1

theorem clockInv_run : ∀ (ops : List Op) (st : Store),
    ClockInv st (clockReadings ops) → ClockNeverBack ops →
    ∀ s ∈ getSituations (run st ops), IsoLe s.createdAt s.updatedAt := by
  intro ops
  induction ops with
  | nil => intro st hinv _; exact hinv.1
  | cons op ops ih =>
    intro st hinv hclock
    obtain ⟨hinv1, hclock1⟩ := clockInv_step st op ops hinv hclock
    exact ih (op.apply st) hinv1 hclock1

theorem eq_of_same_id {l : List Situation} (h : (l.map (fun y => y.id)).Nodup)
    {a b : Situation} (ha : a ∈ l) (hb : b ∈ l) (hid : a.id = b.id) : a = b :=
  List.inj_on_of_nodup_map h ha hb hid

theorem advancingInv_step (st : Store) (m : List String) (op : Op) (ops : List Op)
    (hinv : AdvancingInv st m (clockReadings (op :: ops)))
    (hclock : ClockAdvances (op :: ops)) :
    AdvancingInv (op.apply st) (trackMutated st m op) (clockReadings ops) ∧
      ClockAdvances ops := by
  obtain ⟨hnodup, hle, hbound, hiff⟩ := hinv
  have hold : ∀ s ∈ getSituations st, ∀ r ∈ clockReadings ops, IsoLt s.updatedAt r :=
    fun s hs r hr => hbound s hs r (mem_clockReadings_cons hr)
  have htail : ClockAdvances ops := by
    cases hr : op.reading with
    | none =>
      have := hclock
      simp only [ClockAdvances, clockReadings_cons_none ops hr] at this
      exact this
    | some now =>
      have := hclock
      simp only [ClockAdvances, clockReadings_cons_some ops hr] at this
      exact (List.pairwise_cons.mp this).2
  have hhead : ∀ now : String, op.reading = some now →
      ∀ r ∈ clockReadings ops, IsoLt now r := by
    intro now hr
    have := hclock
    simp only [ClockAdvances, clockReadings_cons_some ops hr] at this
    exact (List.pairwise_cons.mp this).1
  rcases apply_shape st m op with h | ⟨now, sit, x, hr, hget, hc, hu, happ, htrack⟩ |
      ⟨now, x, hr, hc, hu, happ, htrack⟩ | ⟨id, _, happ, htrack⟩
  · rw [h.1, h.2]
    exact ⟨⟨hnodup, hle, hold, hiff⟩, htail⟩
  · rw [happ, htrack]
    have hnodup1 := nodup_saveSituation x hnodup
    have hsit : sit ∈ getSituations st := getSituation_mem hget
    have hnow : now ∈ clockReadings (op :: ops) := by
      rw [clockReadings_cons_some ops hr]
      exact List.mem_cons_self _ _
    have hlt : IsoLt sit.createdAt now :=
      lt_of_le_of_lt (hle sit hsit) (hbound sit hsit now hnow)
    have hxne : x.updatedAt ≠ x.createdAt := by
      rw [hu, hc]
      intro heq
      rw [heq] at hlt
      exact lt_irrefl _ hlt
    refine ⟨⟨hnodup1, ?_, ?_, ?_⟩, htail⟩
    · intro y hy
      rcases mem_saveSituation hy with heq | hmem
      · rw [heq, hu, hc]
        exact le_of_lt hlt
      · exact hle y hmem
    · intro y hy r hr1
      rcases mem_saveSituation hy with heq | hmem
      · rw [heq, hu]
        exact hhead now hr r hr1
      · exact hold y hmem r hr1
    · intro y hy
      by_cases hyx : y = x
      · rw [hyx]
        constructor
        · intro h
          exact absurd h hxne
        · intro h
          exact absurd (List.mem_cons_self _ _) h
      · have hmem : y ∈ getSituations st := by
          rcases mem_saveSituation hy with heq | hmem
          · exact absurd heq hyx
          · exact hmem
        have hidne : y.id ≠ x.id := fun hid =>
          hyx (eq_of_same_id hnodup1 hy (self_mem_saveSituation st x) hid)
        rw [hiff y hmem]
        simp [hidne]
  · rw [happ, htrack]
    have hnodup1 := nodup_saveSituation x hnodup
    refine ⟨⟨hnodup1, ?_, ?_, ?_⟩, htail⟩
    · intro y hy
      rcases mem_saveSituation hy with heq | hmem
      · rw [heq, hu, hc]
      · exact hle y hmem
    · intro y hy r hr1
      rcases mem_saveSituation hy with heq | hmem
      · rw [heq, hu]
        exact hhead now hr r hr1
      · exact hold y hmem r hr1
    · intro y hy
      by_cases hyx : y = x
      · rw [hyx]
        constructor
        · intro _
          simp [List.mem_filter]
        · intro _
          rw [hu, hc]
      · have hmem : y ∈ getSituations st := by
          rcases mem_saveSituation hy with heq | hmem
          · exact absurd heq hyx
          · exact hmem
        have hidne : y.id ≠ x.id := fun hid =>
          hyx (eq_of_same_id hnodup1 hy (self_mem_saveSituation st x) hid)
        rw [hiff y hmem]
        simp [List.mem_filter, hidne]
  · rw [happ, htrack]
    refine ⟨⟨nodup_deleteSituation id hnodup, ?_, ?_, ?_⟩, htail⟩
    · intro y hy
      exact hle y (mem_deleteSituation hy).1
    · intro y hy r hr1
      exact hold y (mem_deleteSituation hy).1 r hr1
    · intro y hy
      obtain ⟨hmem, hidne⟩ := mem_deleteSituation hy
      rw [hiff y hmem]
      simp [List.mem_filter, hidne]

theorem run_cons (st : Store) (op : Op) (ops : List Op) :
    run st (op :: ops) = run (op.apply st) ops := rfl

theorem advancingInv_run : ∀ (ops : List Op) (st : Store) (m : List String),
    AdvancingInv st m (clockReadings ops) → ClockAdvances ops →
    ∀ s ∈ getSituations (run st ops),
      (s.updatedAt = s.createdAt ↔ s.id ∉ mutatedSinceCreation st m ops) := by
  intro ops
  induction ops with
  | nil => intro st m hinv _; exact hinv.2.2.2
  | cons op ops ih =>
    intro st m hinv hclock
    obtain ⟨hinv1, hclock1⟩ := advancingInv_step st m op ops hinv hclock
    exact ih (op.apply st) (trackMutated st m op) hinv1 hclock1

theorem saveSituation_eq_storeInto (st : Store) (x : Situation) :
    saveSituation st x = { st with situations := some (storeInto (getSituations st) x) } := by
  cases hidx : (getSituations st).findIdx? (fun s => s.id == x.id) with
  | none => rw [saveSituation_of_no_index st x hidx]; simp only [storeInto, hidx]
  | some i => rw [saveSituation_of_index st x i hidx]; simp only [storeInto, hidx]

/-- The three storage accesses of one call, with no other call in between, do
what `addCommunication` does. -/
theorem steps_of_one_call (st : Store) (now : String) (ms : Nat) (rnd : String)
    (s : String) (c : CommunicationInput) (sit : Situation)
    (hstored : getSituation st s = some sit) (other : AddCall) :
    interleave st (AddCall.start now ms rnd s c) other [false, false, false] =
      ((addCommunication st now ms rnd s c).2,
        AddCall.done (addCommunication st now ms rnd s c).1, other) := by
  rw [addCommunication_of_stored hstored, saveSituation_eq_storeInto]
  simp only [interleave, AddCall.step, hstored]

theorem Raw.importData_object (raw : RawStore) (entries : List (String × Json)) :
    Raw.importData raw (Json.object entries) =
      some
        { situations :=
            match entries.lookup "situations" with
            | some v => if v.truthy then some v else raw.situations
            | none => raw.situations
          briefs :=
            match entries.lookup "briefs" with
            | some v => if v.truthy then some v else raw.briefs
            | none => raw.briefs
          settings :=
            match entries.lookup "settings" with
            | some v => if v.truthy then some v else raw.settings
            | none => raw.settings } := by
  obtain ⟨s, b, t⟩ := raw
  simp only [Raw.importData, Json.entry]
  cases entries.lookup "situations" with
  | none =>
    cases entries.lookup "settings" with
    | none =>
      cases entries.lookup "briefs" with
      | none => rfl
      | some c => cases hc : c.truthy <;> simp [hc]
    | some b =>
      cases entries.lookup "briefs" with
      | none => cases hb : b.truthy <;> simp [hb]
      | some c => cases hb : b.truthy <;> cases hc : c.truthy <;> simp [hb, hc]
  | some a =>
    cases entries.lookup "settings" with
    | none =>
      cases entries.lookup "briefs" with
      | none => cases ha : a.truthy <;> simp [ha]
      | some c => cases ha : a.truthy <;> cases hc : c.truthy <;> simp [ha, hc]
    | some b =>
      cases entries.lookup "briefs" with
      | none => cases ha : a.truthy <;> cases hb : b.truthy <;> simp [ha, hb]
      | some c =>
        cases ha : a.truthy <;> cases hb : b.truthy <;> cases hc : c.truthy <;> simp [ha, hb, hc]

theorem Raw.entry_some {document : Json} {key : String} {v : Json}
    (h : document.entry key = some v) :
    ∃ entries, document = Json.object entries ∧ entries.lookup key = some v := by
  cases document with
  | object entries => exact ⟨entries, rfl, h⟩
  | null => exact Option.noConfusion h
  | bool b => exact Option.noConfusion h
  | number n => exact Option.noConfusion h
  | string s => exact Option.noConfusion h
  | array items => exact Option.noConfusion h

theorem Raw.importData_missing (raw : RawStore) (document : Json) (hnull : document ≠ Json.null)
    (key : String) (slot : RawStore → Option Json) (hkey : document.entry key = none)
    (hobject : ∀ entries : List (String × Json), entries.lookup key = none →
      (Raw.importData raw (Json.object entries)).map slot = some (slot raw)) :
    (Raw.importData raw document).map slot = some (slot raw) := by
  cases document with
  | object entries => exact hobject entries hkey
  | null => exact absurd rfl hnull
  | bool b => rfl
  | number n => rfl
  | string s => rfl
  | array items => rfl

theorem truthy_situationsToJson (l : List Situation) : (situationsToJson l).truthy = true := rfl

theorem truthy_briefsToJson (r : BriefRecord) : (briefsToJson r).truthy = true := rfl

theorem truthy_settingsToJson (t : StoredSettings) : t.toJson.truthy = true := rfl

theorem truthy_falsyToJson (f : Falsy) : f.toJson.truthy = false := by
  cases f <;> decide

theorem importData_toRaw (st : Store) (data : ImportDocument) :
    Raw.importData st.toRaw data.toJson = some (importData st data).toRaw := by
  obtain ⟨sits, sets, brs⟩ := data
  obtain ⟨s, b, t⟩ := st
  simp only [ImportDocument.toJson]
  rw [Raw.importData_object]
  cases sits <;> cases sets <;> cases brs <;>
    simp [DocField.toEntries, List.lookup, Store.toRaw, importData, truthy_situationsToJson,
      truthy_briefsToJson, truthy_settingsToJson, truthy_falsyToJson]

/-! ## The claims -/

/-- Claim C1. For every store, every title that is not blank and every
description, `createSituation` followed by `getSituation` on the returned id
yields the returned record, which has that title and description, status
`active`, no participants, no communications and `createdAt = updatedAt`. -/
theorem create_then_get (st : Store) (now : String) (ms : Nat) (rnd : String)
    (title description : String) (_hvalid : (jsTrim title).isEmpty = false) :
    ∃ r : Situation,
      getSituation (createSituation st now ms rnd title description).2
          (createSituation st now ms rnd title description).1.id = some r ∧
        r = (createSituation st now ms rnd title description).1 ∧
        r.title = title ∧ r.description = description ∧
        r.status = SituationStatus.active ∧
        r.participants = [] ∧ r.communications = [] ∧ r.createdAt = r.updatedAt := by
  refine ⟨(createSituation st now ms rnd title description).1, ?_, rfl, rfl, rfl, rfl, rfl,
    rfl, rfl⟩
  exact getSituation_saveSituation st _

/-- Witness for claim C1: the title "Vendor negotiation" on the empty store. -/
theorem create_then_get_witness :
    (jsTrim "Vendor negotiation").isEmpty = false ∧
    ∃ r : Situation,
      getSituation (createSituation Store.empty sampleNow sampleMs sampleRnd
          "Vendor negotiation" "renewal").2
          (createSituation Store.empty sampleNow sampleMs sampleRnd
          "Vendor negotiation" "renewal").1.id = some r ∧
        r = (createSituation Store.empty sampleNow sampleMs sampleRnd
          "Vendor negotiation" "renewal").1 ∧
        r.title = "Vendor negotiation" ∧ r.description = "renewal" ∧
        r.status = SituationStatus.active ∧
        r.participants = [] ∧ r.communications = [] ∧ r.createdAt = r.updatedAt :=
  ⟨by decide,
    create_then_get Store.empty sampleNow sampleMs sampleRnd
      "Vendor negotiation" "renewal" (by decide)⟩

/-- Counterexample to claim C2: on the empty store `createSituation` with the
blank title of three spaces returns a record and leaves it in the store. -/
theorem blank_title_is_persisted :
    (jsTrim "   ").isEmpty = true ∧
    (createSituation Store.empty sampleNow sampleMs sampleRnd "   " "").1.title = "   " ∧
    getSituations (createSituation Store.empty sampleNow sampleMs sampleRnd "   " "").2 =
      [(createSituation Store.empty sampleNow sampleMs sampleRnd "   " "").1] ∧
    (createSituation Store.empty sampleNow sampleMs sampleRnd "   " "").2 ≠ Store.empty := by
  decide

/-- Claim C2, amended. `createSituation` does not validate the title: for every
blank title it returns a record with that title and the record is stored.
Blank titles are turned away by the create handlers of the popup and the side
panel, which send no create request for them. -/
theorem create_blank_title (st : Store) (now : String) (ms : Nat) (rnd : String)
    (title description : String) (hblank : (jsTrim title).isEmpty = true) :
    (createSituation st now ms rnd title description).1.title = title ∧
    getSituation (createSituation st now ms rnd title description).2 (generateId ms rnd) =
      some (createSituation st now ms rnd title description).1 ∧
    Popup.createSituation title description = none ∧
    Sidepanel.createSituation title description = none := by
  refine ⟨rfl, getSituation_saveSituation st _, ?_, ?_⟩
  · simp [Popup.createSituation, hblank]
  · simp [Sidepanel.createSituation, hblank]

/-- Witness for the amended claim C2: the empty title on the empty store. -/
theorem create_blank_title_witness :
    (jsTrim "").isEmpty = true ∧
    (createSituation Store.empty sampleNow sampleMs sampleRnd "" "").1.title = "" ∧
    getSituation (createSituation Store.empty sampleNow sampleMs sampleRnd "" "").2
        (generateId sampleMs sampleRnd) =
      some (createSituation Store.empty sampleNow sampleMs sampleRnd "" "").1 ∧
    Popup.createSituation "" "" = none ∧
    Sidepanel.createSituation "" "" = none :=
  ⟨by decide, create_blank_title Store.empty sampleNow sampleMs sampleRnd "" "" (by decide)⟩

/-- Claim C3. When the store holds a situation under id `s`, `addCommunication`
returns a new communication `e` and the stored situation's communications become
the previous ones followed by `e`; `e` carries the generated id, `situationId = s`
and every other property of the input. -/
theorem addCommunication_appends (st : Store) (now : String) (ms : Nat) (rnd : String)
    (s : String) (c : CommunicationInput) (sit : Situation)
    (hstored : getSituation st s = some sit) :
    ∃ (e : Communication) (sit1 : Situation),
      (addCommunication st now ms rnd s c).1 = some e ∧
      getSituation (addCommunication st now ms rnd s c).2 s = some sit1 ∧
      sit1.communications = sit.communications ++ [e] ∧
      e.id = generateId ms rnd ∧ e.situationId = s ∧
      e.source = c.source ∧ e.sourceId = c.sourceId ∧ e.sourceUrl = c.sourceUrl ∧
      e.timestamp = c.timestamp ∧ e.participants = c.participants ∧
      e.content = c.content ∧ e.metadata = c.metadata := by
  have hid : sit.id = s := getSituation_id hstored
  refine ⟨newCommunication c (generateId ms rnd) s,
    { sit with
      communications := sit.communications ++ [newCommunication c (generateId ms rnd) s]
      updatedAt := now }, ?_, ?_, rfl, rfl, rfl, rfl, rfl, rfl, rfl, rfl, rfl, rfl⟩
  · simp only [addCommunication, hstored]
  · simp only [addCommunication, hstored]
    have h := getSituation_saveSituation st
      { sit with
        communications := sit.communications ++ [newCommunication c (generateId ms rnd) s]
        updatedAt := now }
    simpa only [hid] using h

/-- Witness for claim C3: a Slack capture added to the stored sample situation. -/
theorem addCommunication_appends_witness :
    getSituation sampleStore "1709285400000-4fzyo82mv" = some sampleSituation ∧
    ∃ (e : Communication) (sit1 : Situation),
      (addCommunication sampleStore sampleNow 1709285400001 "0.k3x9q0zz1ab"
        "1709285400000-4fzyo82mv" sampleInput).1 = some e ∧
      getSituation (addCommunication sampleStore sampleNow 1709285400001 "0.k3x9q0zz1ab"
        "1709285400000-4fzyo82mv" sampleInput).2 "1709285400000-4fzyo82mv" = some sit1 ∧
      sit1.communications = sampleSituation.communications ++ [e] ∧
      e.id = generateId 1709285400001 "0.k3x9q0zz1ab" ∧
      e.situationId = "1709285400000-4fzyo82mv" ∧
      e.source = sampleInput.source ∧ e.sourceId = sampleInput.sourceId ∧
      e.sourceUrl = sampleInput.sourceUrl ∧
      e.timestamp = sampleInput.timestamp ∧ e.participants = sampleInput.participants ∧
      e.content = sampleInput.content ∧ e.metadata = sampleInput.metadata :=
  ⟨by decide,
    addCommunication_appends sampleStore sampleNow 1709285400001 "0.k3x9q0zz1ab"
      "1709285400000-4fzyo82mv" sampleInput sampleSituation (by decide)⟩

/-- Claim C4. For an id that no stored situation has, `updateSituation`,
`addCommunication` and `addParticipant` return no value, `removeCommunication`
and `removeParticipant` return, and each of the five leaves the store as it was. -/
theorem absent_id_unchanged (st : Store) (now : String) (ms : Nat) (rnd : String)
    (id : String) (updates : SituationUpdates) (c : CommunicationInput)
    (p : ParticipantInput) (communicationId participantId : String)
    (habsent : getSituation st id = none) :
    updateSituation st now id updates = (none, st) ∧
    addCommunication st now ms rnd id c = (none, st) ∧
    addParticipant st now ms rnd id p = (none, st) ∧
    removeCommunication st now id communicationId = st ∧
    removeParticipant st now id participantId = st := by
  refine ⟨?_, ?_, ?_, ?_, ?_⟩
  · simp only [updateSituation, habsent]
  · simp only [addCommunication, habsent]
  · simp only [addParticipant, habsent]
  · simp only [removeCommunication, habsent]
  · simp only [removeParticipant, habsent]

/-- Witness for claim C4: the id `missing` on the store that holds the sample
situation. -/
theorem absent_id_unchanged_witness :
    getSituation sampleStore "missing" = none ∧
    updateSituation sampleStore sampleNow "missing" SituationUpdates.none =
      (none, sampleStore) ∧
    addCommunication sampleStore sampleNow sampleMs sampleRnd "missing" sampleInput =
      (none, sampleStore) ∧
    addParticipant sampleStore sampleNow sampleMs sampleRnd "missing" sampleParticipant =
      (none, sampleStore) ∧
    removeCommunication sampleStore sampleNow "missing" "c1" = sampleStore ∧
    removeParticipant sampleStore sampleNow "missing" "p1" = sampleStore :=
  ⟨by decide,
    absent_id_unchanged sampleStore sampleNow sampleMs sampleRnd "missing"
      SituationUpdates.none sampleInput sampleParticipant "c1" "p1" (by decide)⟩

/-- Counterexample to claim C5: when the generated id is the id of a stored
situation, `createSituation` overwrites that entry, so the list is not the new
situation followed by the previous list. -/
theorem create_collision_replaces :
    getSituations (createSituation sampleStore sampleNow sampleMs sampleRnd "Second" "").2 ≠
      (createSituation sampleStore sampleNow sampleMs sampleRnd "Second" "").1 ::
        getSituations sampleStore ∧
    (getSituations
      (createSituation sampleStore sampleNow sampleMs sampleRnd "Second" "").2).length = 1 := by
  decide

/-- Claim C5, amended. When the generated id is not the id of a stored
situation, `getSituations` after `createSituation` is the new situation followed
by the previous list. -/
theorem create_prepends_when_fresh (st : Store) (now : String) (ms : Nat) (rnd : String)
    (title description : String) (hfresh : getSituation st (generateId ms rnd) = none) :
    getSituations (createSituation st now ms rnd title description).2 =
      (createSituation st now ms rnd title description).1 :: getSituations st := by
  have h := saveSituation_of_absent st (createSituation st now ms rnd title description).1 hfresh
  show getSituations (saveSituation st (createSituation st now ms rnd title description).1) = _
  rw [h]
  rfl

/-- Witness for the amended claim C5: a second situation with a new id. -/
theorem create_prepends_when_fresh_witness :
    getSituation sampleStore (generateId 1709285400007 "0.k3x9q0zz1ab") = none ∧
    getSituations
        (createSituation sampleStore sampleNow 1709285400007 "0.k3x9q0zz1ab" "Second" "").2 =
      (createSituation sampleStore sampleNow 1709285400007 "0.k3x9q0zz1ab" "Second" "").1 ::
        getSituations sampleStore :=
  ⟨by decide,
    create_prepends_when_fresh sampleStore sampleNow 1709285400007 "0.k3x9q0zz1ab" "Second" ""
      (by decide)⟩

/-- Counterexample to claim C6: an update that supplies `updatedAt` does not get
the supplied value; the record returned carries the clock reading. -/
theorem update_overrides_supplied_updatedAt :
    staleUpdate.updatedAt = some "1999-12-31T00:00:00.000Z" ∧
    (updateSituation sampleStore "2024-03-02T10:00:00.000Z" "1709285400000-4fzyo82mv"
      staleUpdate).1.map Situation.updatedAt = some "2024-03-02T10:00:00.000Z" ∧
    "2024-03-02T10:00:00.000Z" ≠ "1999-12-31T00:00:00.000Z" := by
  decide

/-- Claim C6, amended. For a situation stored under id `s`, `updateSituation`
returns and stores a record with the id and `createdAt` of the stored one, with
`updatedAt` equal to the clock reading (also when the update supplies an
`updatedAt`), and with every other property equal to the supplied value when the
update supplies one and unchanged otherwise. -/
theorem updateSituation_merges (st : Store) (now : String) (s : String)
    (u : SituationUpdates) (sit : Situation) (hstored : getSituation st s = some sit) :
    ∃ upd : Situation,
      (updateSituation st now s u).1 = some upd ∧
      getSituation (updateSituation st now s u).2 s = some upd ∧
      upd.id = sit.id ∧ upd.createdAt = sit.createdAt ∧ upd.updatedAt = now ∧
      Merged u.title sit.title upd.title ∧
      Merged u.description sit.description upd.description ∧
      Merged u.status sit.status upd.status ∧
      Merged u.participants sit.participants upd.participants ∧
      Merged u.communications sit.communications upd.communications ∧
      Merged u.analysis sit.analysis upd.analysis := by
  have hid : sit.id = s := getSituation_id hstored
  refine ⟨{ spreadUpdates sit u with updatedAt := now }, ?_, ?_, rfl, rfl, rfl,
    merged_getD _ _, merged_getD _ _, merged_getD _ _, merged_getD _ _, merged_getD _ _,
    merged_getD _ _⟩
  · simp only [updateSituation, hstored]
  · simp only [updateSituation, hstored]
    have h := getSituation_saveSituation st { spreadUpdates sit u with updatedAt := now }
    have hid2 : ({ spreadUpdates sit u with updatedAt := now } : Situation).id = s := hid
    rw [hid2] at h
    exact h

/-- Witness for the amended claim C6: a new title and status for the stored
sample situation. -/
theorem updateSituation_merges_witness :
    getSituation sampleStore "1709285400000-4fzyo82mv" = some sampleSituation ∧
    ∃ upd : Situation,
      (updateSituation sampleStore "2024-03-02T10:00:00.000Z" "1709285400000-4fzyo82mv"
        sampleUpdate).1 = some upd ∧
      getSituation (updateSituation sampleStore "2024-03-02T10:00:00.000Z"
        "1709285400000-4fzyo82mv" sampleUpdate).2 "1709285400000-4fzyo82mv" = some upd ∧
      upd.id = sampleSituation.id ∧ upd.createdAt = sampleSituation.createdAt ∧
      upd.updatedAt = "2024-03-02T10:00:00.000Z" ∧
      Merged sampleUpdate.title sampleSituation.title upd.title ∧
      Merged sampleUpdate.description sampleSituation.description upd.description ∧
      Merged sampleUpdate.status sampleSituation.status upd.status ∧
      Merged sampleUpdate.participants sampleSituation.participants upd.participants ∧
      Merged sampleUpdate.communications sampleSituation.communications upd.communications ∧
      Merged sampleUpdate.analysis sampleSituation.analysis upd.analysis :=
  ⟨by decide,
    updateSituation_merges sampleStore "2024-03-02T10:00:00.000Z" "1709285400000-4fzyo82mv"
      sampleUpdate sampleSituation (by decide)⟩

/-- Claim C7. For every store and every id, `deleteSituation` returns a store,
and a second `deleteSituation` of the same id leaves that store as it is. -/
theorem deleteSituation_idempotent (st : Store) (id : String) :
    ∃ st1 : Store, deleteSituation st id = st1 ∧ deleteSituation st1 id = st1 := by
  refine ⟨deleteSituation st id, rfl, ?_⟩
  rw [deleteSituation_eq (deleteSituation st id) id, deleteSituation_eq st id]
  simp [getSituations, getBriefs, List.filter_filter]

/-- Counterexample to claim C8: after `deleteSituation` of the id `constructor`,
`getBrief` of that id does not return `undefined`: the read `briefs[situationId]`
finds the property `constructor` that the object inherits from
`Object.prototype`. -/
theorem deleteSituation_leaves_inherited :
    getBrief (deleteSituation briefStore "constructor") "constructor" =
      PropertyValue.inherited "constructor" ∧
    getBrief (deleteSituation briefStore "constructor") "constructor" ≠
      PropertyValue.undefined := by
  decide

/-- Claim C8, amended. After `deleteSituation` of an id the briefs object has no
entry of its own under that id, whatever was stored; `getBrief` of that id
returns `undefined` when the id is not the name of a property inherited from
`Object.prototype`, as is the case of every id that `generateId` makes; and
`getBrief` of any other id returns what it returned before. -/
theorem deleteSituation_cascades_brief (st : Store) (id : String) :
    (∀ kv ∈ getBriefs (deleteSituation st id), kv.1 ≠ id) ∧
    (objectPrototypeNames.contains id = false →
      getBrief (deleteSituation st id) id = PropertyValue.undefined) ∧
    (∀ (ms : Nat) (rnd : String), id = generateId ms rnd →
      getBrief (deleteSituation st id) id = PropertyValue.undefined) ∧
    (∀ k : String, k ≠ id → getBrief (deleteSituation st id) k = getBrief st k) := by
  have hnone : (getBriefs (deleteSituation st id)).lookup id = none := by
    rw [deleteSituation_eq st id]
    simp only [getBriefs, Option.getD_some]
    exact lookup_filter_self id _
  refine ⟨?_, ?_, ?_, ?_⟩
  · intro kv hkv hk
    have := List.lookup_eq_none_iff.mp hnone kv hkv
    simp only [bne_iff_ne, ne_eq] at this
    exact this hk.symm
  · intro hid
    exact getBrief_of_lookup_none hnone hid
  · intro ms rnd hid
    apply getBrief_of_lookup_none hnone
    rw [hid]
    exact generateId_not_prototype_name ms rnd
  · intro k hk
    apply getBrief_congr
    rw [deleteSituation_eq st id]
    simp only [getBriefs, Option.getD_some]
    exact lookup_filter_ne id k hk _

/-- Witness for the amended claim C8: the store holds briefs for two ids and the
one with a generated id is deleted. -/
theorem deleteSituation_cascades_brief_witness :
    getBrief briefStore "1709285400000-4fzyo82mv" =
      PropertyValue.own (sampleBrief "1709285400000-4fzyo82mv") ∧
    objectPrototypeNames.contains "1709285400000-4fzyo82mv" = false ∧
    getBrief (deleteSituation briefStore "1709285400000-4fzyo82mv")
      "1709285400000-4fzyo82mv" = PropertyValue.undefined ∧
    "1709285400000-4fzyo82mv" = generateId 1709285400000 "0.4fzyo82mv" ∧
    getBrief (deleteSituation briefStore (generateId 1709285400000 "0.4fzyo82mv"))
      (generateId 1709285400000 "0.4fzyo82mv") = PropertyValue.undefined ∧
    getBrief (deleteSituation briefStore "1709285400000-4fzyo82mv") "other" =
      getBrief briefStore "other" ∧
    getBrief briefStore "other" = PropertyValue.own (sampleBrief "other") :=
  ⟨by decide, by decide,
    (deleteSituation_cascades_brief briefStore "1709285400000-4fzyo82mv").2.1 (by decide),
    by decide,
    (deleteSituation_cascades_brief briefStore (generateId 1709285400000 "0.4fzyo82mv")).2.2.1
      1709285400000 "0.4fzyo82mv" rfl,
    (deleteSituation_cascades_brief briefStore "1709285400000-4fzyo82mv").2.2.2 "other"
      (by decide),
    by decide⟩

/-- Claim C9. After `deleteSituation` of an id, `getSituation` of that id finds
nothing and `getSituations` is the previous list without the situations of that
id, the others in their order (it is the filtered list, a sublist that keeps
exactly the situations of another id); when no stored situation and no stored
brief has the id (the briefs object has no entry of its own under it),
`getSituations` and `getBriefs` return what they returned before. -/
theorem deleteSituation_removes (st : Store) (id : String) :
    getSituation (deleteSituation st id) id = none ∧
    getSituations (deleteSituation st id) =
      (getSituations st).filter (fun s => s.id != id) ∧
    (getSituations (deleteSituation st id)).Sublist (getSituations st) ∧
    (∀ s : Situation,
      s ∈ getSituations (deleteSituation st id) ↔ s ∈ getSituations st ∧ s.id ≠ id) ∧
    (getSituation st id = none → (getBriefs st).lookup id = none →
      getSituations (deleteSituation st id) = getSituations st ∧
      getBriefs (deleteSituation st id) = getBriefs st) := by
  rw [deleteSituation_eq st id]
  refine ⟨?_, ?_, ?_, ?_, ?_⟩
  · simp [getSituation, getSituations]
  · rfl
  · exact List.filter_sublist _
  · intro s
    simp [getSituations, List.mem_filter]
  · intro hs hb
    constructor
    · simp only [getSituations, Option.getD_some]
      rw [List.filter_eq_self]
      intro a ha
      have := List.find?_eq_none.mp hs a ha
      simpa using this
    · simp only [getBriefs, Option.getD_some]
      rw [List.filter_eq_self]
      intro kv hkv
      have := List.lookup_eq_none_iff.mp hb kv hkv
      simp only [bne_iff_ne, ne_eq] at this ⊢
      exact fun h => this h.symm

/-- Witness for claim C9: an id that is stored nowhere, on a store with a
situation and two briefs. -/
theorem deleteSituation_removes_witness :
    getSituation briefStore "missing" = none ∧
    (getBriefs briefStore).lookup "missing" = none ∧
    getSituation (deleteSituation briefStore "missing") "missing" = none ∧
    getSituations (deleteSituation briefStore "missing") =
      (getSituations briefStore).filter (fun s => s.id != "missing") ∧
    getSituations (deleteSituation briefStore "missing") = getSituations briefStore ∧
    getBriefs (deleteSituation briefStore "missing") = getBriefs briefStore :=
  ⟨by decide, by decide,
    (deleteSituation_removes briefStore "missing").1,
    (deleteSituation_removes briefStore "missing").2.1,
    (deleteSituation_removes briefStore "missing").2.2.2.2 (by decide) (by decide)⟩

/-- Claim C10. When the stored situation `s` has no communication with the
given id, `removeCommunication` saves `s` with the same communications and with
`updatedAt` set to the clock reading. -/
theorem removeCommunication_no_match (st : Store) (now : String) (s : Situation)
    (communicationId : String) (hstored : getSituation st s.id = some s)
    (hnone : ∀ c ∈ s.communications, c.id ≠ communicationId) :
    removeCommunication st now s.id communicationId =
      saveSituation st { s with updatedAt := now } ∧
    ∃ s1 : Situation,
      getSituation (removeCommunication st now s.id communicationId) s.id = some s1 ∧
      s1.communications = s.communications ∧ s1.updatedAt = now := by
  have hfilter : s.communications.filter (fun c => c.id != communicationId) =
      s.communications := by
    rw [List.filter_eq_self]
    intro c hc
    simpa using hnone c hc
  have heq : removeCommunication st now s.id communicationId =
      saveSituation st { s with updatedAt := now } := by
    simp only [removeCommunication, hstored, hfilter]
  refine ⟨heq, { s with updatedAt := now }, ?_, rfl, rfl⟩
  rw [heq]
  exact getSituation_saveSituation st { s with updatedAt := now }

/-- Witness for claim C10: the stored situation has the communication `c1` and
`c2` is removed at a later instant. -/
theorem removeCommunication_no_match_witness :
    getSituation busyStore busySituation.id = some busySituation ∧
    (∀ c ∈ busySituation.communications, c.id ≠ "c2") ∧
    removeCommunication busyStore "2024-03-02T10:00:00.000Z" busySituation.id "c2" =
      saveSituation busyStore { busySituation with updatedAt := "2024-03-02T10:00:00.000Z" } ∧
    ∃ s1 : Situation,
      getSituation (removeCommunication busyStore "2024-03-02T10:00:00.000Z"
        busySituation.id "c2") busySituation.id = some s1 ∧
      s1.communications = busySituation.communications ∧
      s1.updatedAt = "2024-03-02T10:00:00.000Z" :=
  ⟨by decide, by decide,
    removeCommunication_no_match busyStore "2024-03-02T10:00:00.000Z" busySituation "c2"
      (by decide) (by decide)⟩

/-- Claim C11. For a situation stored under id `s`, `removeCommunication` leaves
the communications whose id differs from the one given, in their order, and
`removeParticipant` leaves the participants whose id differs from the one given,
in their order; no element with the removed id remains. -/
theorem remove_keeps_the_others (st : Store) (now : String) (s : String) (sit : Situation)
    (communicationId participantId : String) (hstored : getSituation st s = some sit) :
    (∃ sit1 : Situation,
      getSituation (removeCommunication st now s communicationId) s = some sit1 ∧
      sit1.communications = sit.communications.filter (fun c => c.id != communicationId) ∧
      sit1.communications.Sublist sit.communications ∧
      (∀ c : Communication,
        c ∈ sit1.communications ↔ c ∈ sit.communications ∧ c.id ≠ communicationId) ∧
      (∀ c ∈ sit1.communications, c.id ≠ communicationId)) ∧
    (∃ sit2 : Situation,
      getSituation (removeParticipant st now s participantId) s = some sit2 ∧
      sit2.participants = sit.participants.filter (fun p => p.id != participantId) ∧
      sit2.participants.Sublist sit.participants ∧
      (∀ p : Participant,
        p ∈ sit2.participants ↔ p ∈ sit.participants ∧ p.id ≠ participantId) ∧
      (∀ p ∈ sit2.participants, p.id ≠ participantId)) := by
  have hid : sit.id = s := getSituation_id hstored
  constructor
  · refine ⟨{ sit with
        communications := sit.communications.filter (fun c => c.id != communicationId)
        updatedAt := now }, ?_, rfl, List.filter_sublist _, ?_, ?_⟩
    · rw [removeCommunication_of_stored hstored]
      exact getSituation_saveSituation_of_id st _ s hid
    · intro c
      simp [List.mem_filter]
    · intro c hc
      have := (List.mem_filter.mp hc).2
      simpa using this
  · refine ⟨{ sit with
        participants := sit.participants.filter (fun p => p.id != participantId)
        updatedAt := now }, ?_, rfl, List.filter_sublist _, ?_, ?_⟩
    · rw [removeParticipant_of_stored hstored]
      exact getSituation_saveSituation_of_id st _ s hid
    · intro p
      simp [List.mem_filter]
    · intro p hp
      have := (List.mem_filter.mp hp).2
      simpa using this

/-- Witness for claim C11: `c1` and `p2` are removed from a situation that holds
two communications and two participants. -/
theorem remove_keeps_the_others_witness :
    getSituation fullStore "1709285400000-4fzyo82mv" = some fullSituation ∧
    (∃ sit1 : Situation,
      getSituation (removeCommunication fullStore sampleNow "1709285400000-4fzyo82mv" "c1")
        "1709285400000-4fzyo82mv" = some sit1 ∧
      sit1.communications = fullSituation.communications.filter (fun c => c.id != "c1") ∧
      sit1.communications.Sublist fullSituation.communications ∧
      (∀ c : Communication,
        c ∈ sit1.communications ↔ c ∈ fullSituation.communications ∧ c.id ≠ "c1") ∧
      (∀ c ∈ sit1.communications, c.id ≠ "c1")) ∧
    (∃ sit2 : Situation,
      getSituation (removeParticipant fullStore sampleNow "1709285400000-4fzyo82mv" "p2")
        "1709285400000-4fzyo82mv" = some sit2 ∧
      sit2.participants = fullSituation.participants.filter (fun p => p.id != "p2") ∧
      sit2.participants.Sublist fullSituation.participants ∧
      (∀ p : Participant,
        p ∈ sit2.participants ↔ p ∈ fullSituation.participants ∧ p.id ≠ "p2") ∧
      (∀ p ∈ sit2.participants, p.id ≠ "p2")) :=
  ⟨by decide,
    remove_keeps_the_others fullStore sampleNow "1709285400000-4fzyo82mv" fullSituation
      "c1" "p2" (by decide)⟩

/-- Claim C12. For a situation stored under id `s`, `addParticipant` and
`removeParticipant` leave its communications as they were, and
`addCommunication` and `removeCommunication` leave its participants as they
were.  In particular, after `createSituation`, `addParticipant`,
`addCommunication` and `removeParticipant` of the participant just added, the
situation has no participant and one communication. -/
theorem children_are_independent (st : Store) (now : String) (ms : Nat) (rnd : String)
    (s : String) (sit : Situation) (p : ParticipantInput) (c : CommunicationInput)
    (participantId communicationId : String) (hstored : getSituation st s = some sit) :
    (∃ sit1 : Situation, getSituation (addParticipant st now ms rnd s p).2 s = some sit1 ∧
      sit1.communications = sit.communications) ∧
    (∃ sit1 : Situation, getSituation (removeParticipant st now s participantId) s = some sit1 ∧
      sit1.communications = sit.communications) ∧
    (∃ sit1 : Situation, getSituation (addCommunication st now ms rnd s c).2 s = some sit1 ∧
      sit1.participants = sit.participants) ∧
    (∃ sit1 : Situation,
      getSituation (removeCommunication st now s communicationId) s = some sit1 ∧
      sit1.participants = sit.participants) ∧
    (∀ (st0 : Store) (now1 : String) (ms1 : Nat) (rnd1 : String) (title description : String)
      (now2 : String) (ms2 : Nat) (rnd2 : String) (now3 : String) (ms3 : Nat) (rnd3 : String)
      (now4 : String),
      ∃ (added : Participant) (final : Situation),
        (addParticipant (createSituation st0 now1 ms1 rnd1 title description).2 now2 ms2 rnd2
          (createSituation st0 now1 ms1 rnd1 title description).1.id p).1 = some added ∧
        getSituation
          (removeParticipant
            (addCommunication
              (addParticipant (createSituation st0 now1 ms1 rnd1 title description).2
                now2 ms2 rnd2 (createSituation st0 now1 ms1 rnd1 title description).1.id p).2
              now3 ms3 rnd3 (createSituation st0 now1 ms1 rnd1 title description).1.id c).2
            now4 (createSituation st0 now1 ms1 rnd1 title description).1.id added.id)
          (createSituation st0 now1 ms1 rnd1 title description).1.id = some final ∧
        final.participants.length = 0 ∧ final.communications.length = 1) := by
  have hid : sit.id = s := getSituation_id hstored
  refine ⟨?_, ?_, ?_, ?_, ?_⟩
  · rw [addParticipant_of_stored hstored]
    exact ⟨_, getSituation_saveSituation_of_id st _ s hid, rfl⟩
  · rw [removeParticipant_of_stored hstored]
    exact ⟨_, getSituation_saveSituation_of_id st _ s hid, rfl⟩
  · rw [addCommunication_of_stored hstored]
    exact ⟨_, getSituation_saveSituation_of_id st _ s hid, rfl⟩
  · rw [removeCommunication_of_stored hstored]
    exact ⟨_, getSituation_saveSituation_of_id st _ s hid, rfl⟩
  · intro st0 now1 ms1 rnd1 title description now2 ms2 rnd2 now3 ms3 rnd3 now4
    have h0 : getSituation (createSituation st0 now1 ms1 rnd1 title description).2
        (createSituation st0 now1 ms1 rnd1 title description).1.id =
        some (createSituation st0 now1 ms1 rnd1 title description).1 :=
      getSituation_saveSituation st0 _
    generalize (createSituation st0 now1 ms1 rnd1 title description).2 = st1 at h0 ⊢
    have hp : (createSituation st0 now1 ms1 rnd1 title description).1.participants = [] := rfl
    have hc : (createSituation st0 now1 ms1 rnd1 title description).1.communications = [] := rfl
    generalize (createSituation st0 now1 ms1 rnd1 title description).1 = rec0 at h0 hp hc ⊢
    rw [addParticipant_of_stored h0]
    have h1 := getSituation_saveSituation_of_id st1
      { rec0 with
        participants := rec0.participants ++ [newParticipant p (generateId ms2 rnd2)]
        updatedAt := now2 } rec0.id rfl
    rw [addCommunication_of_stored h1]
    have h2 := getSituation_saveSituation_of_id
      (saveSituation st1
        { rec0 with
          participants := rec0.participants ++ [newParticipant p (generateId ms2 rnd2)]
          updatedAt := now2 })
      { rec0 with
        participants := rec0.participants ++ [newParticipant p (generateId ms2 rnd2)]
        communications := rec0.communications ++
          [newCommunication c (generateId ms3 rnd3) rec0.id]
        updatedAt := now3 } rec0.id rfl
    refine ⟨newParticipant p (generateId ms2 rnd2),
      { rec0 with
        participants :=
          (rec0.participants ++ [newParticipant p (generateId ms2 rnd2)]).filter
            (fun q => q.id != (newParticipant p (generateId ms2 rnd2)).id)
        communications := rec0.communications ++
          [newCommunication c (generateId ms3 rnd3) rec0.id]
        updatedAt := now4 }, rfl, ?_, ?_, ?_⟩
    · show getSituation (removeParticipant (saveSituation _ _) now4 rec0.id _) rec0.id = _
      rw [removeParticipant_of_stored h2]
      exact getSituation_saveSituation_of_id _ _ rec0.id rfl
    · simp [hp]
    · simp [hc]

/-- Witness for claim C12: the four operations on the stored situation that has
two participants and two communications, and the scenario from the empty store. -/
theorem children_are_independent_witness :
    getSituation fullStore "1709285400000-4fzyo82mv" = some fullSituation ∧
    (∃ sit1 : Situation,
      getSituation (addParticipant fullStore sampleNow 1709285400001 "0.k3x9q0zz1ab"
        "1709285400000-4fzyo82mv" sampleParticipant).2 "1709285400000-4fzyo82mv" = some sit1 ∧
      sit1.communications = fullSituation.communications) ∧
    (∃ sit1 : Situation,
      getSituation (removeParticipant fullStore sampleNow "1709285400000-4fzyo82mv" "p1")
        "1709285400000-4fzyo82mv" = some sit1 ∧
      sit1.communications = fullSituation.communications) ∧
    (∃ sit1 : Situation,
      getSituation (addCommunication fullStore sampleNow 1709285400001 "0.k3x9q0zz1ab"
        "1709285400000-4fzyo82mv" sampleInput).2 "1709285400000-4fzyo82mv" = some sit1 ∧
      sit1.participants = fullSituation.participants) ∧
    (∃ sit1 : Situation,
      getSituation (removeCommunication fullStore sampleNow "1709285400000-4fzyo82mv" "c1")
        "1709285400000-4fzyo82mv" = some sit1 ∧
      sit1.participants = fullSituation.participants) ∧
    (∃ (added : Participant) (final : Situation),
      (addParticipant
        (createSituation Store.empty sampleNow sampleMs sampleRnd "Vendor negotiation" "").2
        sampleNow 1709285400001 "0.k3x9q0zz1ab"
        (createSituation Store.empty sampleNow sampleMs sampleRnd "Vendor negotiation" "").1.id
        sampleParticipant).1 = some added ∧
      getSituation
        (removeParticipant
          (addCommunication
            (addParticipant
              (createSituation Store.empty sampleNow sampleMs sampleRnd
                "Vendor negotiation" "").2
              sampleNow 1709285400001 "0.k3x9q0zz1ab"
              (createSituation Store.empty sampleNow sampleMs sampleRnd
                "Vendor negotiation" "").1.id sampleParticipant).2
            sampleNow 1709285400002 "0.9d2hs71kq0c"
            (createSituation Store.empty sampleNow sampleMs sampleRnd
              "Vendor negotiation" "").1.id sampleInput).2
          "2024-03-02T10:00:00.000Z"
          (createSituation Store.empty sampleNow sampleMs sampleRnd
            "Vendor negotiation" "").1.id added.id)
        (createSituation Store.empty sampleNow sampleMs sampleRnd
          "Vendor negotiation" "").1.id = some final ∧
      final.participants.length = 0 ∧ final.communications.length = 1) ∧
    (getSituations
      (removeParticipant
        (addCommunication
          (addParticipant
            (createSituation Store.empty sampleNow sampleMs sampleRnd
              "Vendor negotiation" "").2
            sampleNow 1709285400001 "0.k3x9q0zz1ab" "1709285400000-4fzyo82mv"
            sampleParticipant).2
          sampleNow 1709285400002 "0.9d2hs71kq0c" "1709285400000-4fzyo82mv" sampleInput).2
        "2024-03-02T10:00:00.000Z" "1709285400000-4fzyo82mv" "1709285400001-k3x9q0zz1")).map
      (fun s => (s.participants.length, s.communications.length)) = [(0, 1)] :=
  ⟨by decide,
    (children_are_independent fullStore sampleNow 1709285400001 "0.k3x9q0zz1ab"
      "1709285400000-4fzyo82mv" fullSituation sampleParticipant sampleInput "p1" "c1"
      (by decide)).1,
    (children_are_independent fullStore sampleNow 1709285400001 "0.k3x9q0zz1ab"
      "1709285400000-4fzyo82mv" fullSituation sampleParticipant sampleInput "p1" "c1"
      (by decide)).2.1,
    (children_are_independent fullStore sampleNow 1709285400001 "0.k3x9q0zz1ab"
      "1709285400000-4fzyo82mv" fullSituation sampleParticipant sampleInput "p1" "c1"
      (by decide)).2.2.1,
    (children_are_independent fullStore sampleNow 1709285400001 "0.k3x9q0zz1ab"
      "1709285400000-4fzyo82mv" fullSituation sampleParticipant sampleInput "p1" "c1"
      (by decide)).2.2.2.1,
    (children_are_independent fullStore sampleNow 1709285400001 "0.k3x9q0zz1ab"
      "1709285400000-4fzyo82mv" fullSituation sampleParticipant sampleInput "p1" "c1"
      (by decide)).2.2.2.2 Store.empty sampleNow sampleMs sampleRnd "Vendor negotiation" ""
      sampleNow 1709285400001 "0.k3x9q0zz1ab" sampleNow 1709285400002 "0.9d2hs71kq0c"
      "2024-03-02T10:00:00.000Z",
    by decide⟩

/-- Claim C13. For every store `st`, `importData` of the document that
`exportData` produced from `st`, run on the store that the export left behind
or on any other store `target`, leaves a store in which `getSituations`,
`getBriefs` and `getSettings` return what they returned on `st` before the
export: the same lists in the same order, with every situation, and so the list
of its communications, equal to the one before. -/
theorem import_of_export (st target : Store) (now : String) :
    getSituations (importData (exportData st now).2 (parseExport (exportData st now).1)) =
      getSituations st ∧
    getBriefs (importData (exportData st now).2 (parseExport (exportData st now).1)) =
      getBriefs st ∧
    getSettings (importData (exportData st now).2 (parseExport (exportData st now).1)) =
      getSettings st ∧
    getSituations (importData target (parseExport (exportData st now).1)) = getSituations st ∧
    (getSituations (importData target (parseExport (exportData st now).1))).map
      (fun s => s.communications) = (getSituations st).map (fun s => s.communications) ∧
    getBriefs (importData target (parseExport (exportData st now).1)) = getBriefs st ∧
    getSettings (importData target (parseExport (exportData st now).1)) = getSettings st ∧
    getSituations (importData Store.empty (parseExport (exportData sampleStore now).1)) =
      [sampleSituation] := by
  refine ⟨rfl, rfl, ?_, rfl, rfl, rfl, ?_, rfl⟩
  · show spreadStored defaultSettings (toStored (getSettings st)) = getSettings st
    exact spreadStored_toStored _
  · show spreadStored defaultSettings (toStored (getSettings st)) = getSettings st
    exact spreadStored_toStored _

/-- Claim C14. When the settings key holds a record, `getSettings` returns,
property by property, the stored value when the record has the property and the
value of `DEFAULT_SETTINGS` otherwise; when the key is unset, as on the empty
store, it returns `DEFAULT_SETTINGS`. -/
theorem getSettings_over_defaults (st : Store) (stored : StoredSettings)
    (hstored : st.settings = some stored) :
    Merged stored.localLlmEndpoint DEFAULT_SETTINGS.localLlmEndpoint
      (getSettings st).localLlmEndpoint ∧
    Merged stored.localLlmModel DEFAULT_SETTINGS.localLlmModel (getSettings st).localLlmModel ∧
    Merged stored.cloudLlmEnabled DEFAULT_SETTINGS.cloudLlmEnabled
      (getSettings st).cloudLlmEnabled ∧
    ((∀ key, stored.cloudLlmApiKey = some key → (getSettings st).cloudLlmApiKey = some key) ∧
      (stored.cloudLlmApiKey = none →
        (getSettings st).cloudLlmApiKey = DEFAULT_SETTINGS.cloudLlmApiKey)) ∧
    Merged stored.theme DEFAULT_SETTINGS.theme (getSettings st).theme ∧
    Merged stored.autoCapture DEFAULT_SETTINGS.autoCapture (getSettings st).autoCapture ∧
    Merged stored.captureSlack DEFAULT_SETTINGS.captureSlack (getSettings st).captureSlack ∧
    Merged stored.captureGmail DEFAULT_SETTINGS.captureGmail (getSettings st).captureGmail ∧
    getSettings Store.empty = DEFAULT_SETTINGS ∧
    getSettings { st with settings := none } = DEFAULT_SETTINGS := by
  have hget : getSettings st = spreadStored defaultSettings stored := by
    simp only [getSettings, hstored]
  rw [hget]
  refine ⟨merged_getD _ _, merged_getD _ _, merged_getD _ _, ⟨?_, ?_⟩, merged_getD _ _,
    merged_getD _ _, merged_getD _ _, merged_getD _ _, rfl, rfl⟩
  · intro key hkey
    simp only [spreadStored, hkey]
  · intro hkey
    simp only [spreadStored, hkey]
    rfl

/-- Witness for claim C14: the settings key holds only a theme. -/
theorem getSettings_over_defaults_witness :
    themeStore.settings = some themeOnly ∧
    getSettings themeStore = { DEFAULT_SETTINGS with theme := Theme.light } ∧
    Merged themeOnly.theme DEFAULT_SETTINGS.theme (getSettings themeStore).theme ∧
    Merged themeOnly.captureGmail DEFAULT_SETTINGS.captureGmail
      (getSettings themeStore).captureGmail ∧
    getSettings Store.empty = DEFAULT_SETTINGS :=
  ⟨rfl, by decide,
    (getSettings_over_defaults themeStore themeOnly rfl).2.2.2.2.1,
    (getSettings_over_defaults themeStore themeOnly rfl).2.2.2.2.2.2.2.1,
    (getSettings_over_defaults themeStore themeOnly rfl).2.2.2.2.2.2.2.2.1⟩

/-- Claim C15. For every store and every update, `updateSettings` returns the
previous `getSettings` record with the properties of the update in place of the
previous ones and every other property unchanged, and `getSettings` afterwards
returns the same record; on the empty store the update `{ theme: 'dark' }`
gives the defaults with the theme `dark`. -/
theorem updateSettings_overrides (st : Store) (u : SettingsUpdates) :
    Merged u.localLlmEndpoint (getSettings st).localLlmEndpoint
      (updateSettings st u).1.localLlmEndpoint ∧
    Merged u.localLlmModel (getSettings st).localLlmModel
      (updateSettings st u).1.localLlmModel ∧
    Merged u.cloudLlmEnabled (getSettings st).cloudLlmEnabled
      (updateSettings st u).1.cloudLlmEnabled ∧
    Merged u.cloudLlmApiKey (getSettings st).cloudLlmApiKey
      (updateSettings st u).1.cloudLlmApiKey ∧
    Merged u.theme (getSettings st).theme (updateSettings st u).1.theme ∧
    Merged u.autoCapture (getSettings st).autoCapture (updateSettings st u).1.autoCapture ∧
    Merged u.captureSlack (getSettings st).captureSlack (updateSettings st u).1.captureSlack ∧
    Merged u.captureGmail (getSettings st).captureGmail (updateSettings st u).1.captureGmail ∧
    getSettings (updateSettings st u).2 = (updateSettings st u).1 ∧
    getSettings (updateSettings Store.empty themeDark).2 =
      { DEFAULT_SETTINGS with theme := Theme.dark } := by
  refine ⟨merged_getD _ _, merged_getD _ _, merged_getD _ _, merged_getD _ _, merged_getD _ _,
    merged_getD _ _, merged_getD _ _, merged_getD _ _, ?_, by decide⟩
  show spreadStored defaultSettings (toStored (spreadSettings (getSettings st) u)) = _
  exact spreadStored_toStored _

/-- Counterexample to claim C16: `saveBrief` of a brief whose `situationId` is
`__proto__` stores nothing, because the assignment `briefs[brief.situationId] =
brief` sets the prototype of the object instead of a property; `getBrief` of
`__proto__` then returns `Object.prototype` and not the brief. -/
theorem saveBrief_proto_stores_nothing :
    (sampleBrief "__proto__").situationId = "__proto__" ∧
    getBrief (saveBrief briefStore (sampleBrief "__proto__")) "__proto__" =
      PropertyValue.inherited "__proto__" ∧
    getBrief (saveBrief briefStore (sampleBrief "__proto__")) "__proto__" ≠
      PropertyValue.own (sampleBrief "__proto__") ∧
    saveBrief briefStore (sampleBrief "__proto__") = briefStore := by
  decide

/-- Claim C16, amended. After `saveBrief` of a brief `b` whose `situationId` is
not `__proto__`, as is the case of every id that `generateId` makes, `getBrief`
of `b.situationId` returns `b`; for every brief `b`, every entry stored under
`b.situationId` is `b`, `getBrief` of any other id returns what it returned
before, and when the ids of the stored briefs were distinct they still are, so
that there is at most one brief per situation. -/
theorem saveBrief_overwrites (st : Store) (b : SituationBrief) :
    (b.situationId ≠ "__proto__" →
      getBrief (saveBrief st b) b.situationId = PropertyValue.own b) ∧
    (∀ (ms : Nat) (rnd : String), b.situationId = generateId ms rnd →
      getBrief (saveBrief st b) b.situationId = PropertyValue.own b) ∧
    (∀ kv ∈ getBriefs (saveBrief st b), kv.1 = b.situationId → kv.2 = b) ∧
    (∀ k : String, k ≠ b.situationId → getBrief (saveBrief st b) k = getBrief st k) ∧
    (((getBriefs st).map Prod.fst).Nodup →
      ((getBriefs (saveBrief st b)).map Prod.fst).Nodup) := by
  refine ⟨?_, ?_, ?_, ?_, ?_⟩
  · intro hproto
    apply getBrief_of_lookup_some
    exact lookup_assignBrief_self _ _ _ hproto
  · intro ms rnd hid
    apply getBrief_of_lookup_some
    apply lookup_assignBrief_self
    intro hproto
    have hnot := generateId_not_prototype_name ms rnd
    rw [← hid, hproto] at hnot
    exact absurd hnot (by decide)
  · exact value_of_mem_assignBrief _ _ _
  · intro k hk
    apply getBrief_congr
    exact lookup_assignBrief_other _ _ _ _ hk
  · intro h
    exact nodup_keys_assignBrief _ _ _ h

/-- Witness for the amended claim C16: a later brief for the sample situation
replaces the stored one and the brief of the id `other` stays; a brief for the
id `7` is listed before the two stored ones. -/
theorem saveBrief_overwrites_witness :
    getBrief briefStore "1709285400000-4fzyo82mv" =
      PropertyValue.own (sampleBrief "1709285400000-4fzyo82mv") ∧
    laterBrief.situationId ≠ "__proto__" ∧
    getBrief (saveBrief briefStore laterBrief) laterBrief.situationId =
      PropertyValue.own laterBrief ∧
    laterBrief.situationId = generateId 1709285400000 "0.4fzyo82mv" ∧
    getBrief (saveBrief briefStore laterBrief) "other" = getBrief briefStore "other" ∧
    ((getBriefs (saveBrief briefStore laterBrief)).map Prod.fst).Nodup ∧
    (getBriefs (saveBrief briefStore laterBrief)).length = 2 ∧
    (getBriefs (saveBrief briefStore (sampleBrief "7"))).map Prod.fst =
      ["7", "1709285400000-4fzyo82mv", "other"] ∧
    (getBriefs (saveBrief briefStore (sampleBrief "x"))).map Prod.fst =
      ["1709285400000-4fzyo82mv", "other", "x"] :=
  ⟨by decide, by decide,
    (saveBrief_overwrites briefStore laterBrief).1 (by decide),
    by decide,
    (saveBrief_overwrites briefStore laterBrief).2.2.2.1 "other" (by decide),
    (saveBrief_overwrites briefStore laterBrief).2.2.2.2 (by decide),
    by decide, by decide, by decide⟩

/-- Counterexample to claim C17: the document `{ "situations": null }` has the
property `situations`, and `importData` leaves the stored situations in place
instead of overwriting them. -/
theorem import_skips_null :
    nullDocument.situations = DocField.falsy Falsy.null ∧
    (importData sampleStore nullDocument).situations = some [sampleSituation] ∧
    importData sampleStore nullDocument = sampleStore ∧
    nullJson.entry "situations" = some Json.null ∧
    Raw.importData rawStore nullJson = some rawStore :=
  ⟨by decide, by decide, by decide, rfl, rfl⟩

/-- Claim C17, amended. For every value that `JSON.parse` can return and each of
the properties `situations`, `settings` and `briefs` that the document has with
a value that is not falsy, `importData` replaces the stored value by the value of
the document as it is, whatever it is: an array or an object, the empty ones
included, and as well `true`, a number other than `0` or a string other than the
empty one.  A property that is present with a falsy value, that is with `null`,
`false`, `0` or the empty string, leaves the stored value as it was, and so does
a property that is missing.  The same holds of the documents whose values have
the stored types. -/
theorem importData_overwrites (st : Store) (data : ImportDocument) (raw : RawStore)
    (document : Json) :
    (∀ v, data.situations = DocField.value v → (importData st data).situations = some v) ∧
    (∀ v, data.settings = DocField.value v → (importData st data).settings = some v) ∧
    (∀ v, data.briefs = DocField.value v → (importData st data).briefs = some v) ∧
    (∀ f, data.situations = DocField.falsy f →
      (importData st data).situations = st.situations) ∧
    (∀ f, data.settings = DocField.falsy f → (importData st data).settings = st.settings) ∧
    (∀ f, data.briefs = DocField.falsy f → (importData st data).briefs = st.briefs) ∧
    (∀ v, document.entry "situations" = some v → v.truthy = true →
      (Raw.importData raw document).map (fun r => r.situations) = some (some v)) ∧
    (∀ v, document.entry "settings" = some v → v.truthy = true →
      (Raw.importData raw document).map (fun r => r.settings) = some (some v)) ∧
    (∀ v, document.entry "briefs" = some v → v.truthy = true →
      (Raw.importData raw document).map (fun r => r.briefs) = some (some v)) ∧
    (∀ v, document.entry "situations" = some v → v.truthy = false →
      (Raw.importData raw document).map (fun r => r.situations) = some raw.situations) ∧
    (∀ v, document.entry "settings" = some v → v.truthy = false →
      (Raw.importData raw document).map (fun r => r.settings) = some raw.settings) ∧
    (∀ v, document.entry "briefs" = some v → v.truthy = false →
      (Raw.importData raw document).map (fun r => r.briefs) = some raw.briefs) ∧
    (document ≠ Json.null → document.entry "situations" = none →
      (Raw.importData raw document).map (fun r => r.situations) = some raw.situations) ∧
    (document ≠ Json.null → document.entry "settings" = none →
      (Raw.importData raw document).map (fun r => r.settings) = some raw.settings) ∧
    (document ≠ Json.null → document.entry "briefs" = none →
      (Raw.importData raw document).map (fun r => r.briefs) = some raw.briefs) ∧
    (∀ v : Json, v.truthy = false ↔
      v = Json.null ∨ v = Json.bool false ∨ v = Json.number 0 ∨ v = Json.string "") := by
  have htyped :
      (∀ v, data.situations = DocField.value v → (importData st data).situations = some v) ∧
      (∀ v, data.settings = DocField.value v → (importData st data).settings = some v) ∧
      (∀ v, data.briefs = DocField.value v → (importData st data).briefs = some v) ∧
      (∀ f, data.situations = DocField.falsy f →
        (importData st data).situations = st.situations) ∧
      (∀ f, data.settings = DocField.falsy f → (importData st data).settings = st.settings) ∧
      (∀ f, data.briefs = DocField.falsy f → (importData st data).briefs = st.briefs) := by
    obtain ⟨sits, sets, brs⟩ := data
    cases sits <;> cases sets <;> cases brs <;>
      (refine ⟨?_, ?_, ?_, ?_, ?_, ?_⟩ <;> intro v hv <;> cases hv <;> rfl)
  obtain ⟨h1, h2, h3, h4, h5, h6⟩ := htyped
  refine ⟨h1, h2, h3, h4, h5, h6, ?_, ?_, ?_, ?_, ?_, ?_, ?_, ?_, ?_, ?_⟩
  · intro v hv ht
    obtain ⟨entries, rfl, hlook⟩ := Raw.entry_some hv
    rw [Raw.importData_object, Option.map_some', hlook]
    simp only [ht, if_true]
  · intro v hv ht
    obtain ⟨entries, rfl, hlook⟩ := Raw.entry_some hv
    rw [Raw.importData_object, Option.map_some', hlook]
    simp only [ht, if_true]
  · intro v hv ht
    obtain ⟨entries, rfl, hlook⟩ := Raw.entry_some hv
    rw [Raw.importData_object, Option.map_some', hlook]
    simp only [ht, if_true]
  · intro v hv ht
    obtain ⟨entries, rfl, hlook⟩ := Raw.entry_some hv
    rw [Raw.importData_object, Option.map_some', hlook]
    simp only [ht, Bool.false_eq_true, if_false]
  · intro v hv ht
    obtain ⟨entries, rfl, hlook⟩ := Raw.entry_some hv
    rw [Raw.importData_object, Option.map_some', hlook]
    simp only [ht, Bool.false_eq_true, if_false]
  · intro v hv ht
    obtain ⟨entries, rfl, hlook⟩ := Raw.entry_some hv
    rw [Raw.importData_object, Option.map_some', hlook]
    simp only [ht, Bool.false_eq_true, if_false]
  · intro hnull hv
    exact Raw.importData_missing raw document hnull "situations" (fun r => r.situations) hv
      (by intro entries; rw [Raw.importData_object]; intro h; simp only [Option.map_some', h])
  · intro hnull hv
    exact Raw.importData_missing raw document hnull "settings" (fun r => r.settings) hv
      (by intro entries; rw [Raw.importData_object]; intro h; simp only [Option.map_some', h])
  · intro hnull hv
    exact Raw.importData_missing raw document hnull "briefs" (fun r => r.briefs) hv
      (by intro entries; rw [Raw.importData_object]; intro h; simp only [Option.map_some', h])
  · intro v
    cases v with
    | null => simp [Json.truthy]
    | bool b => cases b <;> simp [Json.truthy]
    | number n => simp [Json.truthy]
    | string s => simp [Json.truthy]
    | array items => simp [Json.truthy]
    | object entries => simp [Json.truthy]

/-- Witness for the amended claim C17: a document with situations and settings
that are not falsy and a document whose `briefs` is `0`, both with values of the
stored types; the document `{ "situations": 7 }`, after which the stored
situations are the number `7`; and a document whose `situations` is the empty
string, whose `settings` is a string and whose `briefs` is an array. -/
theorem importData_overwrites_witness :
    partialDocument.situations = DocField.value [] ∧
    partialDocument.settings = DocField.value themeOnly ∧
    (importData briefStore partialDocument).situations = some [] ∧
    (importData briefStore partialDocument).settings = some themeOnly ∧
    zeroBriefsDocument.briefs = DocField.falsy Falsy.zero ∧
    (importData briefStore zeroBriefsDocument).briefs = briefStore.briefs ∧
    sevenDocument.entry "situations" = some (Json.number 7) ∧
    (Json.number 7).truthy = true ∧
    (Raw.importData rawStore sevenDocument).map (fun r => r.situations) =
      some (some (Json.number 7)) ∧
    looseDocument.entry "situations" = some (Json.string "") ∧
    (Json.string "").truthy = false ∧
    (Raw.importData rawStore looseDocument).map (fun r => r.situations) =
      some rawStore.situations ∧
    (Raw.importData rawStore looseDocument).map (fun r => r.settings) =
      some (some (Json.string "dark")) ∧
    (Raw.importData rawStore looseDocument).map (fun r => r.briefs) =
      some (some (Json.array [Json.bool true])) ∧
    sevenDocument ≠ Json.null ∧ sevenDocument.entry "briefs" = none ∧
    (Raw.importData rawStore sevenDocument).map (fun r => r.briefs) =
      some rawStore.briefs :=
  ⟨rfl, rfl,
    (importData_overwrites briefStore partialDocument rawStore sevenDocument).1 [] rfl,
    (importData_overwrites briefStore partialDocument rawStore sevenDocument).2.1
      themeOnly rfl,
    rfl,
    (importData_overwrites briefStore zeroBriefsDocument rawStore
      sevenDocument).2.2.2.2.2.1 Falsy.zero rfl,
    rfl, rfl,
    (importData_overwrites briefStore partialDocument rawStore
      sevenDocument).2.2.2.2.2.2.1 (Json.number 7) rfl rfl,
    rfl, rfl,
    (importData_overwrites briefStore partialDocument rawStore
      looseDocument).2.2.2.2.2.2.2.2.2.1 (Json.string "") rfl rfl,
    (importData_overwrites briefStore partialDocument rawStore
      looseDocument).2.2.2.2.2.2.2.1 (Json.string "dark") rfl rfl,
    (importData_overwrites briefStore partialDocument rawStore
      looseDocument).2.2.2.2.2.2.2.2.1 (Json.array [Json.bool true]) rfl rfl,
    (fun h => Json.noConfusion h), rfl,
    (importData_overwrites briefStore partialDocument rawStore
      sevenDocument).2.2.2.2.2.2.2.2.2.2.2.2.2.2.1 (fun h => Json.noConfusion h) rfl⟩

/-- Claim C18. Each of the properties `situations`, `settings` and `briefs` that
the document does not have leaves the stored value under its key, and what
`getSituations`, `getSettings` and `getBriefs` return, as it was. -/
theorem importData_absent (st : Store) (data : ImportDocument) :
    (data.situations = DocField.absent →
      (importData st data).situations = st.situations ∧
      getSituations (importData st data) = getSituations st) ∧
    (data.settings = DocField.absent →
      (importData st data).settings = st.settings ∧
      getSettings (importData st data) = getSettings st) ∧
    (data.briefs = DocField.absent →
      (importData st data).briefs = st.briefs ∧
      getBriefs (importData st data) = getBriefs st) := by
  obtain ⟨sits, sets, brs⟩ := data
  cases sits <;> cases sets <;> cases brs <;>
    (refine ⟨?_, ?_, ?_⟩ <;> intro hv <;> cases hv <;> exact ⟨rfl, rfl⟩)

/-- Witness for claim C18: the document has no `briefs` property and the store
holds two briefs. -/
theorem importData_absent_witness :
    partialDocument.briefs = DocField.absent ∧
    (importData briefStore partialDocument).briefs = briefStore.briefs ∧
    getBriefs (importData briefStore partialDocument) = getBriefs briefStore ∧
    (getBriefs (importData briefStore partialDocument)).length = 2 :=
  ⟨rfl,
    ((importData_absent briefStore partialDocument).2.2 rfl).1,
    ((importData_absent briefStore partialDocument).2.2 rfl).2,
    by decide⟩

/-- Claim C19. The document of `exportData` has version 1, the clock reading as
`exportedAt`, and the results of `getSituations`, `getSettings` and `getBriefs`
as its three snapshots; `exportData` leaves the store as it was. -/
theorem exportData_snapshot (st : Store) (now : String) :
    (exportData st now).1.version = 1 ∧
    (exportData st now).1.exportedAt = now ∧
    (exportData st now).1.situations = getSituations st ∧
    (exportData st now).1.settings = getSettings st ∧
    (exportData st now).1.briefs = getBriefs st ∧
    (exportData st now).2 = st :=
  ⟨rfl, rfl, rfl, rfl, rfl, rfl⟩

/-- Counterexample to claim C20: from the empty store, a create call and an
update that supplies a communication with another `situationId` lead to a store
in which a situation holds a communication that does not point back to it. -/
theorem update_brings_foreign_communication :
    communicationsBelong (run Store.empty foreignOps) = false ∧
    (getSituations (run Store.empty foreignOps)).map
        (fun s => (s.id, s.communications.map (fun c => c.situationId))) =
      [("1709285400000-4fzyo82mv", ["elsewhere"])] := by
  decide

/-- Claim C20, amended. In every store reached from the empty store by a
sequence of create, update, delete, addCommunication, removeCommunication,
addParticipant and removeParticipant calls in which every update either
supplies no `communications` or supplies only communications whose
`situationId` is the id of the situation updated, every communication of every
stored situation has the `situationId` of that situation. -/
theorem communications_point_back (ops : List Op)
    (hops : ∀ op ∈ ops, op.keepsBackReferences = true) :
    communicationsBelong (run Store.empty ops) = true ∧
    ∀ s ∈ getSituations (run Store.empty ops), ∀ c ∈ s.communications,
      c.situationId = s.id := by
  have h := belong_run ops Store.empty (by intro s hs; simp [getSituations, Store.empty] at hs)
    hops
  exact ⟨(communicationsBelong_iff _).mpr h, h⟩

/-- Witness for the amended claim C20: a sequence that uses all seven
operations. -/
theorem communications_point_back_witness :
    (∀ op ∈ sampleOps, op.keepsBackReferences = true) ∧
    (getSituations (run Store.empty sampleOps)).map
        (fun s => (s.id, s.communications.length, s.participants.length)) =
      [("1709285400000-4fzyo82mv", 1, 0)] ∧
    communicationsBelong (run Store.empty sampleOps) = true :=
  ⟨by decide, by decide, (communications_point_back sampleOps (by decide)).1⟩

/-- Counterexample to claim C21: under a clock that never runs backwards, a
situation is created and a communication is added to it at the same clock
reading; a mutation has then been applied to the situation since its creation
and `updatedAt` still equals `createdAt`. -/
theorem same_instant_mutation_keeps_equal :
    ClockNeverBack sameInstantOps ∧
    (getSituations (run Store.empty sameInstantOps)).map
        (fun s => (s.id, s.createdAt, s.updatedAt, s.communications.length)) =
      [("1709285400000-4fzyo82mv", "2024-03-01T09:30:00.000Z", "2024-03-01T09:30:00.000Z", 1)] ∧
    mutatedSinceCreation Store.empty [] sameInstantOps = ["1709285400000-4fzyo82mv"] := by
  decide

/-- Claim C21, amended. In every store reached from the empty store by a
sequence of repository calls under a clock that never runs backwards, no
situation has `updatedAt` earlier than `createdAt`; and when the clock advances
from each call to the next, `updatedAt` equals `createdAt` only for the
situations to which no mutation has been applied since their creation, and for
all of those. -/
theorem timestamps_ordered (ops : List Op) :
    (ClockNeverBack ops →
      ∀ s ∈ getSituations (run Store.empty ops), IsoLe s.createdAt s.updatedAt) ∧
    (ClockAdvances ops →
      ∀ s ∈ getSituations (run Store.empty ops),
        (s.updatedAt = s.createdAt ↔ s.id ∉ mutatedSinceCreation Store.empty [] ops)) := by
  have hempty : getSituations Store.empty = [] := rfl
  constructor
  · intro hclock
    apply clockInv_run ops Store.empty _ hclock
    constructor
    · intro s hs
      rw [hempty] at hs
      cases hs
    · intro s hs
      rw [hempty] at hs
      cases hs
  · intro hclock
    apply advancingInv_run ops Store.empty [] _ hclock
    refine ⟨?_, ?_, ?_, ?_⟩
    · rw [hempty]
      exact List.nodup_nil
    · intro s hs
      rw [hempty] at hs
      cases hs
    · intro s hs
      rw [hempty] at hs
      cases hs
    · intro s hs
      rw [hempty] at hs
      cases hs

/-- Witness for the amended claim C21: two situations are created and a
participant is added to the first, each call at a later clock reading. -/
theorem timestamps_ordered_witness :
    ClockNeverBack advancingOps ∧ ClockAdvances advancingOps ∧
    (getSituations (run Store.empty advancingOps)).map
        (fun s => (s.id, s.createdAt, s.updatedAt)) =
      [("1709452800000-zz81kd03n", "2024-03-03T08:00:00.000Z", "2024-03-03T08:00:00.000Z"),
        ("1709285400000-4fzyo82mv", "2024-03-01T09:30:00.000Z", "2024-03-03T08:00:01.000Z")] ∧
    mutatedSinceCreation Store.empty [] advancingOps = ["1709285400000-4fzyo82mv"] ∧
    (∀ s ∈ getSituations (run Store.empty advancingOps), IsoLe s.createdAt s.updatedAt) ∧
    (∀ s ∈ getSituations (run Store.empty advancingOps),
      (s.updatedAt = s.createdAt ↔ s.id ∉ mutatedSinceCreation Store.empty [] advancingOps)) :=
  ⟨by decide, by decide, by decide, by decide,
    (timestamps_ordered advancingOps).1 (by decide),
    (timestamps_ordered advancingOps).2 (by decide)⟩

/-- Claim C22. For a situation stored under id `s`, each of `updateSituation`,
`addCommunication`, `removeCommunication`, `addParticipant` and
`removeParticipant` leaves it with `updatedAt` equal to the clock reading of the
call, whatever `updatedAt` the update supplies, so that `updatedAt` does not
go back when the clock reading is not earlier than the stored `updatedAt`. -/
theorem mutations_refresh_updatedAt (st : Store) (now : String) (ms : Nat) (rnd : String)
    (s : String) (sit : Situation) (u : SituationUpdates) (c : CommunicationInput)
    (p : ParticipantInput) (communicationId participantId : String)
    (hstored : getSituation st s = some sit) :
    RefreshedAt (updateSituation st now s u).2 s sit.updatedAt now ∧
    RefreshedAt (addCommunication st now ms rnd s c).2 s sit.updatedAt now ∧
    RefreshedAt (removeCommunication st now s communicationId) s sit.updatedAt now ∧
    RefreshedAt (addParticipant st now ms rnd s p).2 s sit.updatedAt now ∧
    RefreshedAt (removeParticipant st now s participantId) s sit.updatedAt now := by
  have hid : sit.id = s := getSituation_id hstored
  refine ⟨?_, ?_, ?_, ?_, ?_⟩
  · rw [updateSituation_of_stored hstored]
    exact ⟨_, getSituation_saveSituation_of_id st _ s hid, rfl, fun h => h⟩
  · rw [addCommunication_of_stored hstored]
    exact ⟨_, getSituation_saveSituation_of_id st _ s hid, rfl, fun h => h⟩
  · rw [removeCommunication_of_stored hstored]
    exact ⟨_, getSituation_saveSituation_of_id st _ s hid, rfl, fun h => h⟩
  · rw [addParticipant_of_stored hstored]
    exact ⟨_, getSituation_saveSituation_of_id st _ s hid, rfl, fun h => h⟩
  · rw [removeParticipant_of_stored hstored]
    exact ⟨_, getSituation_saveSituation_of_id st _ s hid, rfl, fun h => h⟩

/-- Witness for claim C22: the five calls on the stored sample situation, one
day after its last change, the update supplying an older `updatedAt`. -/
theorem mutations_refresh_updatedAt_witness :
    getSituation fullStore "1709285400000-4fzyo82mv" = some fullSituation ∧
    IsoLe fullSituation.updatedAt "2024-03-02T10:00:00.000Z" ∧
    (updateSituation fullStore "2024-03-02T10:00:00.000Z" "1709285400000-4fzyo82mv"
      staleUpdate).1.map Situation.updatedAt = some "2024-03-02T10:00:00.000Z" ∧
    RefreshedAt (updateSituation fullStore "2024-03-02T10:00:00.000Z"
      "1709285400000-4fzyo82mv" staleUpdate).2 "1709285400000-4fzyo82mv"
      fullSituation.updatedAt "2024-03-02T10:00:00.000Z" ∧
    RefreshedAt (addCommunication fullStore "2024-03-02T10:00:00.000Z" 1709373600000
      "0.k3x9q0zz1ab" "1709285400000-4fzyo82mv" sampleInput).2 "1709285400000-4fzyo82mv"
      fullSituation.updatedAt "2024-03-02T10:00:00.000Z" ∧
    RefreshedAt (removeCommunication fullStore "2024-03-02T10:00:00.000Z"
      "1709285400000-4fzyo82mv" "c1") "1709285400000-4fzyo82mv"
      fullSituation.updatedAt "2024-03-02T10:00:00.000Z" ∧
    RefreshedAt (addParticipant fullStore "2024-03-02T10:00:00.000Z" 1709373600000
      "0.k3x9q0zz1ab" "1709285400000-4fzyo82mv" sampleParticipant).2
      "1709285400000-4fzyo82mv" fullSituation.updatedAt "2024-03-02T10:00:00.000Z" ∧
    RefreshedAt (removeParticipant fullStore "2024-03-02T10:00:00.000Z"
      "1709285400000-4fzyo82mv" "p1") "1709285400000-4fzyo82mv"
      fullSituation.updatedAt "2024-03-02T10:00:00.000Z" :=
  ⟨by decide, by decide, by decide,
    mutations_refresh_updatedAt fullStore "2024-03-02T10:00:00.000Z" 1709373600000
      "0.k3x9q0zz1ab" "1709285400000-4fzyo82mv" fullSituation staleUpdate sampleInput
      sampleParticipant "c1" "p1" (by decide)⟩

/-- Claim C23. For a situation stored under id `s`: when the ids of its
communications are pairwise distinct and the generated id is none of them, they
are pairwise distinct after `addCommunication`; the same holds for the
participants and `addParticipant`; and `removeCommunication` and
`removeParticipant` keep pairwise distinct ids pairwise distinct. -/
theorem child_ids_stay_distinct (st : Store) (now : String) (ms : Nat) (rnd : String)
    (s : String) (sit : Situation) (c : CommunicationInput) (p : ParticipantInput)
    (communicationId participantId : String) (hstored : getSituation st s = some sit) :
    ((sit.communications.map (fun x => x.id)).Nodup →
      generateId ms rnd ∉ sit.communications.map (fun x => x.id) →
      ∃ sit1 : Situation, getSituation (addCommunication st now ms rnd s c).2 s = some sit1 ∧
        (sit1.communications.map (fun x => x.id)).Nodup) ∧
    ((sit.participants.map (fun x => x.id)).Nodup →
      generateId ms rnd ∉ sit.participants.map (fun x => x.id) →
      ∃ sit1 : Situation, getSituation (addParticipant st now ms rnd s p).2 s = some sit1 ∧
        (sit1.participants.map (fun x => x.id)).Nodup) ∧
    ((sit.communications.map (fun x => x.id)).Nodup →
      ∃ sit1 : Situation,
        getSituation (removeCommunication st now s communicationId) s = some sit1 ∧
        (sit1.communications.map (fun x => x.id)).Nodup) ∧
    ((sit.participants.map (fun x => x.id)).Nodup →
      ∃ sit1 : Situation,
        getSituation (removeParticipant st now s participantId) s = some sit1 ∧
        (sit1.participants.map (fun x => x.id)).Nodup) := by
  have hid : sit.id = s := getSituation_id hstored
  have happend : ∀ (ids : List String) (fresh : String), ids.Nodup → fresh ∉ ids →
      (ids ++ [fresh]).Nodup := by
    intro ids fresh hnodup hfresh
    rw [List.nodup_append]
    refine ⟨hnodup, List.nodup_singleton _, ?_⟩
    intro a ha hb
    rw [List.mem_singleton] at hb
    rw [hb] at ha
    exact hfresh ha
  refine ⟨?_, ?_, ?_, ?_⟩
  · intro hnodup hfresh
    rw [addCommunication_of_stored hstored]
    refine ⟨{ sit with
        communications := sit.communications ++ [newCommunication c (generateId ms rnd) s]
        updatedAt := now }, getSituation_saveSituation_of_id st _ s hid, ?_⟩
    show ((sit.communications ++ [newCommunication c (generateId ms rnd) s]).map
      (fun x => x.id)).Nodup
    rw [List.map_append]
    exact happend _ _ hnodup hfresh
  · intro hnodup hfresh
    rw [addParticipant_of_stored hstored]
    refine ⟨{ sit with
        participants := sit.participants ++ [newParticipant p (generateId ms rnd)]
        updatedAt := now }, getSituation_saveSituation_of_id st _ s hid, ?_⟩
    show ((sit.participants ++ [newParticipant p (generateId ms rnd)]).map
      (fun x => x.id)).Nodup
    rw [List.map_append]
    exact happend _ _ hnodup hfresh
  · intro hnodup
    rw [removeCommunication_of_stored hstored]
    refine ⟨{ sit with
        communications := sit.communications.filter (fun x => x.id != communicationId)
        updatedAt := now }, getSituation_saveSituation_of_id st _ s hid, ?_⟩
    exact hnodup.sublist ((List.filter_sublist _).map _)
  · intro hnodup
    rw [removeParticipant_of_stored hstored]
    refine ⟨{ sit with
        participants := sit.participants.filter (fun x => x.id != participantId)
        updatedAt := now }, getSituation_saveSituation_of_id st _ s hid, ?_⟩
    exact hnodup.sublist ((List.filter_sublist _).map _)

/-- Witness for claim C23: the stored situation has the communications `c1`,
`c2` and the participants `p1`, `p2`, and the generated id is new. -/
theorem child_ids_stay_distinct_witness :
    getSituation fullStore "1709285400000-4fzyo82mv" = some fullSituation ∧
    (fullSituation.communications.map (fun x => x.id)).Nodup ∧
    (fullSituation.participants.map (fun x => x.id)).Nodup ∧
    (∃ sit1 : Situation,
      getSituation (addCommunication fullStore sampleNow 1709285400001 "0.k3x9q0zz1ab"
        "1709285400000-4fzyo82mv" sampleInput).2 "1709285400000-4fzyo82mv" = some sit1 ∧
      (sit1.communications.map (fun x => x.id)).Nodup) ∧
    (∃ sit1 : Situation,
      getSituation (addParticipant fullStore sampleNow 1709285400001 "0.k3x9q0zz1ab"
        "1709285400000-4fzyo82mv" sampleParticipant).2 "1709285400000-4fzyo82mv" = some sit1 ∧
      (sit1.participants.map (fun x => x.id)).Nodup) ∧
    (∃ sit1 : Situation,
      getSituation (removeCommunication fullStore sampleNow "1709285400000-4fzyo82mv" "c1")
        "1709285400000-4fzyo82mv" = some sit1 ∧
      (sit1.communications.map (fun x => x.id)).Nodup) ∧
    (∃ sit1 : Situation,
      getSituation (removeParticipant fullStore sampleNow "1709285400000-4fzyo82mv" "p1")
        "1709285400000-4fzyo82mv" = some sit1 ∧
      (sit1.participants.map (fun x => x.id)).Nodup) :=
  ⟨by decide, by decide, by decide,
    (child_ids_stay_distinct fullStore sampleNow 1709285400001 "0.k3x9q0zz1ab"
      "1709285400000-4fzyo82mv" fullSituation sampleInput sampleParticipant "c1" "p1"
      (by decide)).1 (by decide) (by decide),
    (child_ids_stay_distinct fullStore sampleNow 1709285400001 "0.k3x9q0zz1ab"
      "1709285400000-4fzyo82mv" fullSituation sampleInput sampleParticipant "c1" "p1"
      (by decide)).2.1 (by decide) (by decide),
    (child_ids_stay_distinct fullStore sampleNow 1709285400001 "0.k3x9q0zz1ab"
      "1709285400000-4fzyo82mv" fullSituation sampleInput sampleParticipant "c1" "p1"
      (by decide)).2.2.1 (by decide),
    (child_ids_stay_distinct fullStore sampleNow 1709285400001 "0.k3x9q0zz1ab"
      "1709285400000-4fzyo82mv" fullSituation sampleInput sampleParticipant "c1" "p1"
      (by decide)).2.2.2 (by decide)⟩

/-- Claim C24. For every store that holds a situation under id `s` and for any
two `addCommunication` calls on `s`, the interleaving in which both calls read
the situations before either writes them back ends with both calls returning
their new communication and with the stored situation holding the previous
communications and the one of the call that wrote last: the one of the call
that wrote first is lost.  The same happens when only the first reads of the
two calls come before the writes; when one call runs after the other, both are
kept. -/
theorem concurrent_adds_lose_one (st : Store) (s : String) (sit : Situation)
    (now1 : String) (ms1 : Nat) (rnd1 : String) (c1 : CommunicationInput)
    (now2 : String) (ms2 : Nat) (rnd2 : String) (c2 : CommunicationInput)
    (hstored : getSituation st s = some sit) :
    ∃ e1 e2 : Communication,
      e1 = newCommunication c1 (generateId ms1 rnd1) s ∧
      e2 = newCommunication c2 (generateId ms2 rnd2) s ∧
      (∃ (st1 : Store) (sit1 : Situation),
        interleave st (AddCall.start now1 ms1 rnd1 s c1) (AddCall.start now2 ms2 rnd2 s c2)
          readsBeforeWrites = (st1, AddCall.done (some e1), AddCall.done (some e2)) ∧
        getSituation st1 s = some sit1 ∧
        sit1.communications = sit.communications ++ [e2]) ∧
      (∃ (st1 : Store) (sit1 : Situation),
        interleave st (AddCall.start now1 ms1 rnd1 s c1) (AddCall.start now2 ms2 rnd2 s c2)
          firstReadsTogether = (st1, AddCall.done (some e1), AddCall.done (some e2)) ∧
        getSituation st1 s = some sit1 ∧
        sit1.communications = sit.communications ++ [e2]) ∧
      (∃ (st1 : Store) (sit1 : Situation),
        interleave st (AddCall.start now1 ms1 rnd1 s c1) (AddCall.start now2 ms2 rnd2 s c2)
          oneAfterTheOther = (st1, AddCall.done (some e1), AddCall.done (some e2)) ∧
        getSituation st1 s = some sit1 ∧
        sit1.communications = sit.communications ++ [e1] ++ [e2]) := by
  have hid : sit.id = s := getSituation_id hstored
  refine ⟨_, _, rfl, rfl, ?_, ?_, ?_⟩
  · refine ⟨saveSituation st
        { sit with
          communications :=
            sit.communications ++ [newCommunication c2 (generateId ms2 rnd2) s]
          updatedAt := now2 },
      { sit with
        communications :=
          sit.communications ++ [newCommunication c2 (generateId ms2 rnd2) s]
        updatedAt := now2 }, ?_, getSituation_saveSituation_of_id st _ s hid, rfl⟩
    rw [saveSituation_eq_storeInto]
    simp only [readsBeforeWrites, interleave, AddCall.step, hstored, getSituations]
  · refine ⟨saveSituation
        (saveSituation st
          { sit with
            communications :=
              sit.communications ++ [newCommunication c1 (generateId ms1 rnd1) s]
            updatedAt := now1 })
        { sit with
          communications :=
            sit.communications ++ [newCommunication c2 (generateId ms2 rnd2) s]
          updatedAt := now2 },
      { sit with
        communications :=
          sit.communications ++ [newCommunication c2 (generateId ms2 rnd2) s]
        updatedAt := now2 }, ?_, getSituation_saveSituation_of_id _ _ s hid, rfl⟩
    rw [saveSituation_eq_storeInto, saveSituation_eq_storeInto]
    simp only [firstReadsTogether, interleave, AddCall.step, hstored, getSituations]
  · have h1 := getSituation_saveSituation_of_id st
      { sit with
        communications :=
          sit.communications ++ [newCommunication c1 (generateId ms1 rnd1) s]
        updatedAt := now1 } s hid
    refine ⟨saveSituation
        (saveSituation st
          { sit with
            communications :=
              sit.communications ++ [newCommunication c1 (generateId ms1 rnd1) s]
            updatedAt := now1 })
        { sit with
          communications :=
            sit.communications ++ [newCommunication c1 (generateId ms1 rnd1) s] ++
              [newCommunication c2 (generateId ms2 rnd2) s]
          updatedAt := now2 },
      { sit with
        communications :=
          sit.communications ++ [newCommunication c1 (generateId ms1 rnd1) s] ++
            [newCommunication c2 (generateId ms2 rnd2) s]
        updatedAt := now2 }, ?_, getSituation_saveSituation_of_id _ _ s hid, rfl⟩
    rw [saveSituation_eq_storeInto] at h1
    rw [saveSituation_eq_storeInto, saveSituation_eq_storeInto]
    simp only [getSituations] at h1
    simp only [oneAfterTheOther, interleave, AddCall.step, hstored, getSituations, h1]

/-- Witness for claim C24: two calls on the stored situation that has the
communications `c1` and `c2`; after the interleaving only the communication of
the second call has been added. -/
theorem concurrent_adds_lose_one_witness :
    getSituation fullStore "1709285400000-4fzyo82mv" = some fullSituation ∧
    (getSituations (interleave fullStore
        (AddCall.start sampleNow 1709285400001 "0.k3x9q0zz1ab" "1709285400000-4fzyo82mv"
          sampleInput)
        (AddCall.start sampleNow 1709285400002 "0.9d2hs71kq0c" "1709285400000-4fzyo82mv"
          secondInput) readsBeforeWrites).1).map
        (fun s => s.communications.map (fun c => c.id)) =
      [["c1", "c2", "1709285400002-9d2hs71kq"]] ∧
    (getSituations (interleave fullStore
        (AddCall.start sampleNow 1709285400001 "0.k3x9q0zz1ab" "1709285400000-4fzyo82mv"
          sampleInput)
        (AddCall.start sampleNow 1709285400002 "0.9d2hs71kq0c" "1709285400000-4fzyo82mv"
          secondInput) oneAfterTheOther).1).map
        (fun s => s.communications.map (fun c => c.id)) =
      [["c1", "c2", "1709285400001-k3x9q0zz1", "1709285400002-9d2hs71kq"]] ∧
    ∃ e1 e2 : Communication,
      e1 = newCommunication sampleInput (generateId 1709285400001 "0.k3x9q0zz1ab")
        "1709285400000-4fzyo82mv" ∧
      e2 = newCommunication secondInput (generateId 1709285400002 "0.9d2hs71kq0c")
        "1709285400000-4fzyo82mv" ∧
      (∃ (st1 : Store) (sit1 : Situation),
        interleave fullStore
          (AddCall.start sampleNow 1709285400001 "0.k3x9q0zz1ab" "1709285400000-4fzyo82mv"
            sampleInput)
          (AddCall.start sampleNow 1709285400002 "0.9d2hs71kq0c" "1709285400000-4fzyo82mv"
            secondInput) readsBeforeWrites =
          (st1, AddCall.done (some e1), AddCall.done (some e2)) ∧
        getSituation st1 "1709285400000-4fzyo82mv" = some sit1 ∧
        sit1.communications = fullSituation.communications ++ [e2]) ∧
      (∃ (st1 : Store) (sit1 : Situation),
        interleave fullStore
          (AddCall.start sampleNow 1709285400001 "0.k3x9q0zz1ab" "1709285400000-4fzyo82mv"
            sampleInput)
          (AddCall.start sampleNow 1709285400002 "0.9d2hs71kq0c" "1709285400000-4fzyo82mv"
            secondInput) firstReadsTogether =
          (st1, AddCall.done (some e1), AddCall.done (some e2)) ∧
        getSituation st1 "1709285400000-4fzyo82mv" = some sit1 ∧
        sit1.communications = fullSituation.communications ++ [e2]) ∧
      (∃ (st1 : Store) (sit1 : Situation),
        interleave fullStore
          (AddCall.start sampleNow 1709285400001 "0.k3x9q0zz1ab" "1709285400000-4fzyo82mv"
            sampleInput)
          (AddCall.start sampleNow 1709285400002 "0.9d2hs71kq0c" "1709285400000-4fzyo82mv"
            secondInput) oneAfterTheOther =
          (st1, AddCall.done (some e1), AddCall.done (some e2)) ∧
        getSituation st1 "1709285400000-4fzyo82mv" = some sit1 ∧
        sit1.communications = fullSituation.communications ++ [e1] ++ [e2]) :=
  ⟨by decide, by decide, by decide,
    concurrent_adds_lose_one fullStore "1709285400000-4fzyo82mv" fullSituation
      sampleNow 1709285400001 "0.k3x9q0zz1ab" sampleInput
      sampleNow 1709285400002 "0.9d2hs71kq0c" secondInput (by decide)⟩

end Storage

/-- Claim C25. When there is no selection or its text is empty or white space
only, `captureSelection` returns `null` in the Gmail and in the Slack content
script, and the capture button of the popup then leaves `capturedContent` and
the capture form as they were: from a popup with nothing captured and the form
hidden, nothing is captured and the form stays hidden. -/
theorem blank_selection_is_not_captured (selection : Option String)
    (gmailContext : Gmail.Context) (slackContext : Slack.Context) (href : String) (ms : Nat)
    (now : String) (state : Popup.CaptureState)
    (hblank : ∀ text, selection = some text → (jsTrim text).isEmpty = true) :
    Gmail.captureSelection selection gmailContext href ms now = none ∧
    Slack.captureSelection selection slackContext href ms now = none ∧
    (Popup.onCaptureClick state (Popup.SelectionResponse.reply
      (Gmail.captureSelection selection gmailContext href ms now))).capturedContent =
      state.capturedContent ∧
    (Popup.onCaptureClick state (Popup.SelectionResponse.reply
      (Gmail.captureSelection selection gmailContext href ms now))).captureFormHidden =
      state.captureFormHidden ∧
    (Popup.onCaptureClick state (Popup.SelectionResponse.reply
      (Slack.captureSelection selection slackContext href ms now))).capturedContent =
      state.capturedContent ∧
    (Popup.onCaptureClick state (Popup.SelectionResponse.reply
      (Slack.captureSelection selection slackContext href ms now))).captureFormHidden =
      state.captureFormHidden ∧
    (Popup.onCaptureClick Popup.CaptureState.idle (Popup.SelectionResponse.reply
      (Gmail.captureSelection selection gmailContext href ms now))).capturedContent = none ∧
    (Popup.onCaptureClick Popup.CaptureState.idle (Popup.SelectionResponse.reply
      (Slack.captureSelection selection slackContext href ms now))).captureFormHidden = true := by
  have hg : Gmail.captureSelection selection gmailContext href ms now = none := by
    cases selection with
    | none => rfl
    | some text => simp [Gmail.captureSelection, hblank text rfl]
  have hs : Slack.captureSelection selection slackContext href ms now = none := by
    cases selection with
    | none => rfl
    | some text => simp [Slack.captureSelection, hblank text rfl]
  rw [hg, hs]
  exact ⟨rfl, rfl, rfl, rfl, rfl, rfl, rfl, rfl⟩

/-- Witness for claim C25: a selection of spaces and a line break. -/
theorem blank_selection_is_not_captured_witness :
    (∀ text, some "  \n " = some text → (jsTrim text).isEmpty = true) ∧
    Gmail.captureSelection (some "  \n ") sampleGmailContext "https://mail.google.com/"
      1709285400000 sampleNow = none ∧
    Slack.captureSelection (some "  \n ") sampleSlackContext "https://app.slack.com/"
      1709285400000 sampleNow = none ∧
    Popup.onCaptureClick Popup.CaptureState.idle (Popup.SelectionResponse.reply
      (Gmail.captureSelection (some "  \n ") sampleGmailContext "https://mail.google.com/"
        1709285400000 sampleNow)) =
      { Popup.CaptureState.idle with
        notifications := ["No content selected. Highlight text on the page first."] } :=
  ⟨fun text h => by cases h; decide,
    (blank_selection_is_not_captured (some "  \n ") sampleGmailContext sampleSlackContext
      "https://mail.google.com/" 1709285400000 sampleNow Popup.CaptureState.idle
      (fun text h => by cases h; decide)).1,
    (blank_selection_is_not_captured (some "  \n ") sampleGmailContext sampleSlackContext
      "https://app.slack.com/" 1709285400000 sampleNow Popup.CaptureState.idle
      (fun text h => by cases h; decide)).2.1,
    by decide⟩

/-- Claim C26 at a failing input: for a text of 5001 letters, the payload of
`captureMessage` of `slack.js` and the payloads of `captureSelection` of both
content scripts carry all 5001 characters; `captureCurrentThread` of `gmail.js`
cuts the same text to 5000. -/
theorem capture_content_exceeds_limit :
    longText.length = 5001 ∧
    (Slack.captureMessage (some longText) (some "Alex") none none (some "general")
      "https://app.slack.com/" 1709285400000 sampleNow).content.length = 5001 ∧
    (Gmail.captureSelection (some longText) sampleGmailContext "https://mail.google.com/"
      1709285400000 sampleNow).map (fun payload => payload.content.length) = some 5001 ∧
    (Slack.captureSelection (some longText) sampleSlackContext "https://app.slack.com/"
      1709285400000 sampleNow).map (fun payload => payload.content.length) = some 5001 ∧
    (Gmail.captureCurrentThread (some longText) none none [] none "https://mail.google.com/"
      1709285400000 sampleNow).content.length = 5000 := by
  refine ⟨length_longText, ?_, ?_, ?_, ?_⟩
  · show (jsTrim ((some longText).getD "")).length = 5001
    simp only [Option.getD_some, jsTrim_longText, length_longText]
  · simp only [Gmail.captureSelection, Option.map_some', jsTrim_longText, longText_isEmpty,
      Bool.false_eq_true, if_false, length_longText]
  · simp only [Slack.captureSelection, Option.map_some', jsTrim_longText, longText_isEmpty,
      Bool.false_eq_true, if_false, length_longText]
  · have hcontent : (Gmail.captureCurrentThread (some longText) none none [] none
        "https://mail.google.com/" 1709285400000 sampleNow).content =
        jsSliceFrom0 (trimmedOrEmpty (some longText)) 5000 := by
      simp only [Gmail.captureCurrentThread]
    rw [hcontent]
    simp only [trimmedOrEmpty, jsTrim_longText, jsSliceFrom0, String.take_eq]
    have hlen : ∀ l : List Char, (String.mk l).length = l.length := fun _ => rfl
    rw [hlen, List.length_take]
    have hdata : longText.data.length = 5001 := length_longText
    rw [hdata]
    exact Nat.min_eq_left (by omega)

namespace Storage

/-- Counterexample to claim C27: two calls of `generateId` in the same
millisecond, with two different random draws that agree on the nine characters
kept by `substr(2, 9)`, return the same identifier. -/
theorem same_millisecond_collision :
    "0.4fzyo82mvyr" ≠ "0.4fzyo82mvzz" ∧
    generateId 1709285400000 "0.4fzyo82mvyr" = generateId 1709285400000 "0.4fzyo82mvzz" ∧
    generateId 1709285400000 "0.4fzyo82mvyr" = "1709285400000-4fzyo82mv" := by
  decide

/-- Claim C27, amended. Two calls of `generateId` return different identifiers
exactly when their `Date.now()` values differ or the nine characters kept of
their random draws differ; two calls in the same millisecond whose draws agree
on those characters return the same identifier. -/
theorem ids_differ_iff (ms1 ms2 : Nat) (rnd1 rnd2 : String) :
    (generateId ms1 rnd1 ≠ generateId ms2 rnd2 ↔
      ms1 ≠ ms2 ∨ (rnd1.drop 2).take 9 ≠ (rnd2.drop 2).take 9) ∧
    (generateId ms1 rnd1 = generateId ms2 rnd2 ↔
      ms1 = ms2 ∧ (rnd1.drop 2).take 9 = (rnd2.drop 2).take 9) := by
  have h := generateId_eq_iff ms1 ms2 rnd1 rnd2
  refine ⟨?_, h⟩
  rw [Ne, h, not_and_or]

/-- Claim C28. For the id `s` of a stored situation, each of `updateSituation`,
`addCommunication`, `removeCommunication`, `addParticipant` and
`removeParticipant` leaves the length of `getSituations` and the ids in it,
position by position, as they were. -/
theorem mutations_keep_positions (st : Store) (now : String) (ms : Nat) (rnd : String)
    (s : String) (sit : Situation) (u : SituationUpdates) (c : CommunicationInput)
    (p : ParticipantInput) (communicationId participantId : String)
    (hstored : getSituation st s = some sit) :
    SameIds st (updateSituation st now s u).2 ∧
    SameIds st (addCommunication st now ms rnd s c).2 ∧
    SameIds st (removeCommunication st now s communicationId) ∧
    SameIds st (addParticipant st now ms rnd s p).2 ∧
    SameIds st (removeParticipant st now s participantId) := by
  have hid : sit.id = s := getSituation_id hstored
  subst hid
  refine ⟨?_, ?_, ?_, ?_, ?_⟩
  · rw [updateSituation_of_stored hstored]
    exact saveSituation_sameIds (x := { spreadUpdates sit u with updatedAt := now }) hstored
  · rw [addCommunication_of_stored hstored]
    exact saveSituation_sameIds
      (x := { sit with
        communications :=
          sit.communications ++ [newCommunication c (generateId ms rnd) sit.id]
        updatedAt := now }) hstored
  · rw [removeCommunication_of_stored hstored]
    exact saveSituation_sameIds
      (x := { sit with
        communications := sit.communications.filter (fun x => x.id != communicationId)
        updatedAt := now }) hstored
  · rw [addParticipant_of_stored hstored]
    exact saveSituation_sameIds
      (x := { sit with
        participants := sit.participants ++ [newParticipant p (generateId ms rnd)]
        updatedAt := now }) hstored
  · rw [removeParticipant_of_stored hstored]
    exact saveSituation_sameIds
      (x := { sit with
        participants := sit.participants.filter (fun x => x.id != participantId)
        updatedAt := now }) hstored

/-- Witness for claim C28: the second of two stored situations is changed and
stays second. -/
theorem mutations_keep_positions_witness :
    getSituation pairStore "1709285400000-4fzyo82mv" = some fullSituation ∧
    (getSituations (addCommunication pairStore "2024-03-04T10:00:00.000Z" 1709546400000
      "0.k3x9q0zz1ab" "1709285400000-4fzyo82mv" sampleInput).2).map (fun x => x.id) =
      ["1709452800000-zz81kd03n", "1709285400000-4fzyo82mv"] ∧
    SameIds pairStore (updateSituation pairStore "2024-03-04T10:00:00.000Z"
      "1709285400000-4fzyo82mv" sampleUpdate).2 ∧
    SameIds pairStore (addCommunication pairStore "2024-03-04T10:00:00.000Z" 1709546400000
      "0.k3x9q0zz1ab" "1709285400000-4fzyo82mv" sampleInput).2 ∧
    SameIds pairStore (removeCommunication pairStore "2024-03-04T10:00:00.000Z"
      "1709285400000-4fzyo82mv" "c1") ∧
    SameIds pairStore (addParticipant pairStore "2024-03-04T10:00:00.000Z" 1709546400000
      "0.k3x9q0zz1ab" "1709285400000-4fzyo82mv" sampleParticipant).2 ∧
    SameIds pairStore (removeParticipant pairStore "2024-03-04T10:00:00.000Z"
      "1709285400000-4fzyo82mv" "p1") :=
  ⟨by decide, by decide,
    mutations_keep_positions pairStore "2024-03-04T10:00:00.000Z" 1709546400000
      "0.k3x9q0zz1ab" "1709285400000-4fzyo82mv" fullSituation sampleUpdate sampleInput
      sampleParticipant "c1" "p1" (by decide)⟩

/-- Claim C29. In a store whose situation ids are pairwise distinct, each of
`updateSituation`, `addCommunication`, `removeCommunication`, `addParticipant`
and `removeParticipant` with target `s` leaves every stored situation of another
id as it was and where it was, and leaves the briefs and the settings as they
were. -/
theorem mutations_leave_others (st : Store) (now : String) (ms : Nat) (rnd : String)
    (s : String) (u : SituationUpdates) (c : CommunicationInput)
    (p : ParticipantInput) (communicationId participantId : String)
    (_hdistinct : ((getSituations st).map (fun x => x.id)).Nodup) :
    OthersUnchanged st (updateSituation st now s u).2 s ∧
    OthersUnchanged st (addCommunication st now ms rnd s c).2 s ∧
    OthersUnchanged st (removeCommunication st now s communicationId) s ∧
    OthersUnchanged st (addParticipant st now ms rnd s p).2 s ∧
    OthersUnchanged st (removeParticipant st now s participantId) s := by
  cases hget : getSituation st s with
  | none =>
    have h := absent_id_unchanged_aux st now ms rnd s u c p communicationId participantId hget
    rw [h.1, h.2.1, h.2.2.1, h.2.2.2.1, h.2.2.2.2]
    exact ⟨othersUnchanged_refl st s, othersUnchanged_refl st s, othersUnchanged_refl st s,
      othersUnchanged_refl st s, othersUnchanged_refl st s⟩
  | some sit =>
    have hid : sit.id = s := getSituation_id hget
    subst hid
    refine ⟨?_, ?_, ?_, ?_, ?_⟩
    · rw [updateSituation_of_stored hget]
      exact saveSituation_others (x := { spreadUpdates sit u with updatedAt := now }) hget
    · rw [addCommunication_of_stored hget]
      exact saveSituation_others
        (x := { sit with
          communications :=
            sit.communications ++ [newCommunication c (generateId ms rnd) sit.id]
          updatedAt := now }) hget
    · rw [removeCommunication_of_stored hget]
      exact saveSituation_others
        (x := { sit with
          communications := sit.communications.filter (fun x => x.id != communicationId)
          updatedAt := now }) hget
    · rw [addParticipant_of_stored hget]
      exact saveSituation_others
        (x := { sit with
          participants := sit.participants ++ [newParticipant p (generateId ms rnd)]
          updatedAt := now }) hget
    · rw [removeParticipant_of_stored hget]
      exact saveSituation_others
        (x := { sit with
          participants := sit.participants.filter (fun x => x.id != participantId)
          updatedAt := now }) hget

/-- Witness for claim C29: the second of two stored situations is changed; the
first one, the briefs and the settings stay. -/
theorem mutations_leave_others_witness :
    ((getSituations pairStore).map (fun x => x.id)).Nodup ∧
    getSituation (addCommunication pairStore "2024-03-04T10:00:00.000Z" 1709546400000
      "0.k3x9q0zz1ab" "1709285400000-4fzyo82mv" sampleInput).2 "1709452800000-zz81kd03n" =
      some otherSituation ∧
    OthersUnchanged pairStore (updateSituation pairStore "2024-03-04T10:00:00.000Z"
      "1709285400000-4fzyo82mv" sampleUpdate).2 "1709285400000-4fzyo82mv" ∧
    OthersUnchanged pairStore (addCommunication pairStore "2024-03-04T10:00:00.000Z"
      1709546400000 "0.k3x9q0zz1ab" "1709285400000-4fzyo82mv" sampleInput).2
      "1709285400000-4fzyo82mv" ∧
    OthersUnchanged pairStore (removeCommunication pairStore "2024-03-04T10:00:00.000Z"
      "1709285400000-4fzyo82mv" "c1") "1709285400000-4fzyo82mv" ∧
    OthersUnchanged pairStore (addParticipant pairStore "2024-03-04T10:00:00.000Z"
      1709546400000 "0.k3x9q0zz1ab" "1709285400000-4fzyo82mv" sampleParticipant).2
      "1709285400000-4fzyo82mv" ∧
    OthersUnchanged pairStore (removeParticipant pairStore "2024-03-04T10:00:00.000Z"
      "1709285400000-4fzyo82mv" "p1") "1709285400000-4fzyo82mv" :=
  ⟨by decide, by decide,
    mutations_leave_others pairStore "2024-03-04T10:00:00.000Z" 1709546400000
      "0.k3x9q0zz1ab" "1709285400000-4fzyo82mv" sampleUpdate sampleInput
      sampleParticipant "c1" "p1" (by decide)⟩

/-- Claim C30. The identifier that `generateId` builds is the decimal timestamp,
a hyphen, and at most nine characters of the random value; for two different
timestamps the identifiers are different, whatever the random values are. -/
theorem ids_of_different_milliseconds (t1 t2 : Nat) (rnd1 rnd2 : String) (hne : t1 ≠ t2) :
    generateId t1 rnd1 ≠ generateId t2 rnd2 ∧
    (generateId t1 rnd1).data =
      (toString t1).data ++ '-' :: ((rnd1.drop 2).take 9).data ∧
    (∀ ch ∈ (toString t1).data, ch ≠ '-') ∧
    ((rnd1.drop 2).take 9).length ≤ 9 := by
  refine ⟨?_, generateId_data t1 rnd1, (toString_nat_spec t1).2, suffix_length rnd1⟩
  intro h
  exact hne ((generateId_eq_iff t1 t2 rnd1 rnd2).mp h).1

/-- Witness for claim C30: two consecutive milliseconds and the same random
draw. -/
theorem ids_of_different_milliseconds_witness :
    (1709285400000 : Nat) ≠ 1709285400001 ∧
    generateId 1709285400000 "0.4fzyo82mvyr" ≠ generateId 1709285400001 "0.4fzyo82mvyr" ∧
    generateId 1709285400001 "0.4fzyo82mvyr" = "1709285400001-4fzyo82mv" :=
  ⟨by decide,
    (ids_of_different_milliseconds 1709285400000 1709285400001 "0.4fzyo82mvyr"
      "0.4fzyo82mvyr" (by decide)).1,
    by decide⟩

end Storage

end Sidecar
